import Mathlib

/-!
# Bit-banged SPI panel drivers `hbc04.c` (R61408 / R61529) and `hbc068.c` (SSD2828 / HX8394)

A shallow embedding of the two drivers in `drivers/video/`.  Every GPIO or
timing primitive the C code calls appends one event to the trace of a `World`;
the answers of the board (whether a pin request is granted, which level an
input pin shows) come from a `Backend`.  The C functions become functions on
`World`, with the driver configuration passed explicitly.
-/

namespace PanelSpi

/-! ## Digital I/O and timing boundary -/

/-- Console messages of the two drivers (the `printf` calls), by call site. -/
inductive Msg
  /-- Message: SPI pins are not properly configured. -/
  | spiPins
  /-- Message: Reset pin is not properly configured. -/
  | resetPin
  /-- Message: request for the csx pin failed. -/
  | reqCsx
  /-- Message: request for the sck pin failed. -/
  | reqSck
  /-- Message: request for the sdi pin failed. -/
  | reqSdi
  /-- Message: request for the reset pin failed. -/
  | reqReset
  /-- Message: request for the sdo pin failed. -/
  | reqSdo
  /-- Message: R61259 found! -/
  | found
  /-- Message of `hbc068_init` listing the csx, sck, sdi and reset pin numbers. -/
  | pins (csx sck sdi reset : Int)
  deriving DecidableEq, Repr

/-- One call into the GPIO / timing / console interface, with its result where
it has one. -/
inductive Ev
  /-- Call `gpio_request(pin, label)`; `ok` tells whether it returned 0. -/
  | request (pin : Int) (ok : Bool)
  /-- Call `gpio_free(pin)`. -/
  | free (pin : Int)
  /-- Call `gpio_direction_output(pin, value)`. -/
  | dirOut (pin : Int) (value : Nat)
  /-- Call `gpio_direction_input(pin)`. -/
  | dirIn (pin : Int)
  /-- Call `gpio_set_value(pin, value)`. -/
  | set (pin : Int) (value : Nat)
  /-- Call `gpio_get_value(pin)`, returning `value`. -/
  | get (pin : Int) (value : Nat)
  /-- Call `udelay(n)`. -/
  | udelay (n : Nat)
  /-- Call `mdelay(n)`. -/
  | mdelay (n : Nat)
  /-- Call `printf(...)`. -/
  | printf (m : Msg)
  deriving DecidableEq, Repr

/-- Modelled from the spec: the board behind the digital I/O boundary
(`claim(pin) -> ok|error`, `getLevel(pin) -> high|low`), which is not part of
the driver sources.  `grant n pin claimed` answers the `n`-th pin request of a
run, `level n pin` is what the `n`-th level read of a run returns. -/
structure Backend where
  grant : Nat → Int → List Int → Bool
  level : Nat → Int → Nat

/-- State threaded through the driver: the calls made so far, the pins
currently claimed, and how many requests and level reads have been answered. -/
structure World where
  trace : List Ev
  claimed : List Int
  nreq : Nat
  nget : Nat
  deriving DecidableEq, Repr

/-- A fresh run: nothing called, nothing claimed. -/
def World.init : World := ⟨[], [], 0, 0⟩

/-- Record one call. -/
def emit (e : Ev) (w : World) : World :=
  { w with trace := w.trace ++ [e] }

/-- Modelled from the spec: `claim(pin) -> ok|error`; a granted pin becomes
claimed.  Returns 0 on success and a non-zero value on failure, as
`gpio_request` does. -/
def gpio_request (B : Backend) (pin : Int) (w : World) : Int × World :=
  let ok := B.grant w.nreq pin w.claimed
  let w1 : World :=
    { trace := w.trace ++ [Ev.request pin ok],
      claimed := if ok then pin :: w.claimed else w.claimed,
      nreq := w.nreq + 1,
      nget := w.nget }
  (if ok then 0 else -1, w1)

/-- Modelled from the spec: `release(pin)` returns the pin to the unclaimed
state. -/
def gpio_free (pin : Int) (w : World) : World :=
  { w with trace := w.trace ++ [Ev.free pin], claimed := w.claimed.erase pin }

/-- Modelled from the spec: `setDirection(pin, output)` with the initial level;
recorded in the trace. -/
def gpio_direction_output (pin : Int) (value : Nat) (w : World) : World :=
  emit (Ev.dirOut pin value) w

/-- Modelled from the spec: `setDirection(pin, input)`; recorded in the trace. -/
def gpio_direction_input (pin : Int) (w : World) : World :=
  emit (Ev.dirIn pin) w

/-- Modelled from the spec: `setLevel(pin, high|low)`; recorded in the trace. -/
def gpio_set_value (pin : Int) (value : Nat) (w : World) : World :=
  emit (Ev.set pin value) w

/-- Modelled from the spec: `getLevel(pin)`; the level comes from the board. -/
def gpio_get_value (B : Backend) (pin : Int) (w : World) : Nat × World :=
  let v := B.level w.nget pin
  (v, { w with trace := w.trace ++ [Ev.get pin v], nget := w.nget + 1 })

/-- Modelled from the spec: `waitMicroseconds(n)`; recorded in the trace. -/
def udelay (n : Nat) (w : World) : World := emit (Ev.udelay n) w

/-- Modelled from the spec: `waitMilliseconds(n)`; recorded in the trace. -/
def mdelay (n : Nat) (w : World) : World := emit (Ev.mdelay n) w

/-- Console output of the drivers; recorded in the trace. -/
def printf (m : Msg) (w : World) : World := emit (Ev.printf m) w

/-- The calls made between world `w` and a later world `w2`. -/
def emitted (w w2 : World) : List Ev := w2.trace.drop w.trace.length

/-! ## Observers used to state the properties -/

/-- A recording pin backend: the data-out level seen at every instant the
clock pin is driven high.  `cur` is the level data-out currently holds. -/
def samplesFrom (sck sdi : Int) : Nat → List Ev → List Nat
  | _, [] => []
  | cur, Ev.set p v :: es =>
      if p = sdi then samplesFrom sck sdi v es
      else if p = sck ∧ v = 1 then cur :: samplesFrom sck sdi cur es
      else samplesFrom sck sdi cur es
  | cur, _ :: es => samplesFrom sck sdi cur es

/-- Data-out levels sampled at the clock-high instants of a trace. -/
def clockHighSamples (sck sdi : Int) (es : List Ev) : List Nat :=
  samplesFrom sck sdi 0 es

/-- A recording pin backend watching the clock: the data-out level present at
every rising clock edge, that is whenever the clock pin is driven to 1 while
it was at 0.  `clk` and `cur` are the levels the clock and data-out currently
hold. -/
def risingFrom (sck sdi : Int) : Nat → Nat → List Ev → List Nat
  | _, _, [] => []
  | clk, cur, Ev.set p v :: es =>
      if p = sdi then risingFrom sck sdi clk v es
      else if p = sck then
        if clk = 0 ∧ v = 1 then cur :: risingFrom sck sdi v cur es
        else risingFrom sck sdi v cur es
      else risingFrom sck sdi clk cur es
  | clk, cur, _ :: es => risingFrom sck sdi clk cur es

/-- Assemble levels into a number, most significant first. -/
def assembleMsb (bits : List Nat) : Nat := bits.foldl (fun a b => 2 * a + b) 0

/-- Bit `i` of `v`, as a level 0 or 1. -/
def bitOf (v i : Nat) : Nat := if v.testBit i then 1 else 0

/-- The level a pin was last driven to in a trace, if it was driven. -/
def lastLevel (pin : Int) : List Ev → Option Nat
  | [] => none
  | e :: es =>
      match lastLevel pin es with
      | some v => some v
      | none =>
          match e with
          | Ev.set p v => if p = pin then some v else none
          | _ => none

/-- Append calls to the trace of a world, leaving the rest of it alone. -/
def World.app (w : World) (es : List Ev) : World :=
  { w with trace := w.trace ++ es }

/-- The levels of the bits 7, 6, ..., 0 of `v`, in that order. -/
def msbBits (v : Nat) : List Nat := (List.range 8).map (fun j => bitOf v (7 - j))

/-- The calls that clock out the given data-out levels, one bit cell each:
clock low, data-out = level, wait `d`, clock high, wait `d`. -/
def bitCells (sck sdi : Int) (d : Nat) : List Nat → List Ev
  | [] => []
  | b :: bs =>
      [Ev.set sck 0, Ev.set sdi b, Ev.udelay d, Ev.set sck 1, Ev.udelay d]
        ++ bitCells sck sdi d bs

/-- The calls the spec prescribes for writing one byte `v` with framing level
`flag`: chip-select low, the framing bit cell, then the eight bit cells of
`v`, most significant first. -/
def writeFrame (csx sck sdi : Int) (d flag v : Nat) : List Ev :=
  [Ev.set csx 0, Ev.set sck 0, Ev.set sdi flag, Ev.udelay d, Ev.set sck 1, Ev.udelay d]
    ++ bitCells sck sdi d (msbBits v)

/-- The levels `levels` are the eight bits of `v`, most significant first: the
`k`-th of them (`k` = 1..8) is bit `8 - k` of `v`, and assembling them gives
back `v`. -/
def MsbFirst (v : Nat) (levels : List Nat) : Prop :=
  levels.length = 8 ∧
  (∀ k, 1 ≤ k → k ≤ 8 → levels[k - 1]? = some (bitOf v (8 - k))) ∧
  assembleMsb levels = v

/-- Advance the count of answered level reads. -/
def World.reads (w : World) (k : Nat) : World :=
  { w with nget := w.nget + k }

/-- The calls of `k` read cells, the first of which takes the `g`-th level
read of the run: clock low, wait `d`, sample data-in, clock high, wait `d`. -/
def readCells (B : Backend) (sck sdo : Int) (d : Nat) : Nat → Nat → List Ev
  | _, 0 => []
  | g, k + 1 =>
      [Ev.set sck 0, Ev.udelay d, Ev.get sdo (B.level g sdo), Ev.set sck 1, Ev.udelay d]
        ++ readCells B sck sdo d (g + 1) k

/-- The byte assembled from the eight level reads number `g`, ..., `g + 7` of
pin `pin`, the `j`-th of them shifted to bit `7 - j` of an `unsigned char`. -/
def sampledByte (B : Backend) (pin : Int) (g : Nat) : Nat :=
  (List.range 8).foldl
    (fun acc j => (acc ||| (B.level (g + j) pin <<< (7 - j))) % 256) 0

/-- Bus activity: a direction setting, a level write, a level read or a
delay.  Pin requests, pin releases and console messages are not. -/
def Ev.isBusActivity : Ev → Bool
  | Ev.dirOut _ _ => true
  | Ev.dirIn _ => true
  | Ev.set _ _ => true
  | Ev.get _ _ => true
  | Ev.udelay _ => true
  | Ev.mdelay _ => true
  | Ev.request _ _ => false
  | Ev.free _ => false
  | Ev.printf _ => false

/-- Touching hardware: any call other than a console message. -/
def Ev.touchesHardware : Ev → Bool
  | Ev.printf _ => false
  | _ => true

/-- The pin requests of a trace, in order, each with its outcome. -/
def requestsOf : List Ev → List (Int × Bool)
  | [] => []
  | Ev.request p ok :: es => (p, ok) :: requestsOf es
  | _ :: es => requestsOf es

/-- The pins an acquisition has to request, in the order of the requests:
chip-select, clock, data-out, reset, and data-in when it is configured. -/
def requiredPins (csx sck sdi reset sdo : Int) : List Int :=
  [csx, sck, sdi, reset] ++ (if sdo ≠ -1 then [sdo] else [])

/-- A pin write or a delay: a level write, a direction setting that drives a
level, or a wait. -/
def Ev.isWriteOrDelay : Ev → Bool
  | Ev.set _ _ => true
  | Ev.dirOut _ _ => true
  | Ev.udelay _ => true
  | Ev.mdelay _ => true
  | _ => false

/-- A level read. -/
def Ev.isGet : Ev → Bool
  | Ev.get _ _ => true
  | _ => false

/-- The clock toggling of `k` read cells without the samples: clock low, wait
`d`, clock high, wait `d`. -/
def clockCells (sck : Int) (d : Nat) : Nat → List Ev
  | 0 => []
  | k + 1 => [Ev.set sck 0, Ev.udelay d, Ev.set sck 1, Ev.udelay d] ++ clockCells sck d k

/-- A direction setting. -/
def Ev.isDirection : Ev → Bool
  | Ev.dirOut _ _ => true
  | Ev.dirIn _ => true
  | _ => false

/-- A level write, a level read or a delay. -/
def Ev.isLevelOrDelay : Ev → Bool
  | Ev.set _ _ => true
  | Ev.get _ _ => true
  | Ev.udelay _ => true
  | Ev.mdelay _ => true
  | _ => false

/-- Replace the delay unit: every `udelay(10)` becomes `udelay(1)`. -/
def Ev.unitDelay : Ev → Ev
  | Ev.udelay n => if n = 10 then Ev.udelay 1 else Ev.udelay n
  | e => e

/-- One step of the reset-protocol monitor.  Phases: 0 chip-select not yet
driven idle; 1 chip-select driven idle (high); 2 reset asserted (driven low);
3 reset released (driven high), settle delay pending; 4 settle delay elapsed.
The result is `none` when the call breaks the protocol: reset asserted before
chip-select was driven idle, or chip-select driven active (low) in phases 1
to 3. -/
def resetStep (csx reset : Int) (ph : Nat) : Ev → Option Nat
  | Ev.set p v =>
      if p = csx ∧ v = 0 then (if ph = 0 then some 0 else none)
      else if p = csx ∧ v = 1 then (if ph = 0 then some 1 else some ph)
      else if p = reset ∧ v = 0 then
        (if ph = 0 then none else if ph = 1 then some 2 else if ph = 3 then some 2
          else some ph)
      else if p = reset ∧ v = 1 then (if ph = 2 then some 3 else some ph)
      else some ph
  | Ev.mdelay _ => if ph = 3 then some 4 else some ph
  | Ev.udelay _ => if ph = 3 then some 4 else some ph
  | _ => some ph

/-- The reset-protocol monitor run over a trace from phase `ph`: true when the
trace reaches phase 4 without breaking the protocol. -/
def resetProtocol (csx reset : Int) : Nat → List Ev → Bool
  | ph, [] => decide (ph = 4)
  | ph, e :: es =>
      if ph = 4 then true
      else
        match resetStep csx reset ph e with
        | none => false
        | some ph2 => resetProtocol csx reset ph2 es

/-! ## Configuration -/

/-- Configuration record `struct r61408_config` of `hbc04.c`. -/
structure r61408_config where
  csx_pin : Int
  sck_pin : Int
  sdi_pin : Int
  sdo_pin : Int
  reset_pin : Int
  ssd2828_tx_clk_khz : Int
  ssd2828_color_depth : Int
  mipi_dsi_number_of_data_lanes : Int
  mipi_dsi_bitrate_per_data_lane_mbps : Int
  mipi_dsi_loosely_packed_pixel_format : Int
  mipi_dsi_delay_after_exit_sleep_mode_ms : Int
  mipi_dsi_delay_after_set_display_on_ms : Int
  deriving DecidableEq, Repr

/-! ## `hbc04.c` -/

namespace hbc04

/-- The per-bit delay unit, `#define SPI_DELAY_VARIANT 1`. -/
def SPI_DELAY_VARIANT : Nat := 1

/-- The `for(j=0; j<8; j++)` loop shared by the two write functions of
`hbc04.c`; `n` iterations remain, `index` is the `unsigned char` being
shifted out. -/
def writeLoop (cfg : r61408_config) : Nat → Nat → World → World
  | 0, _, w => w
  | n + 1, index, w =>
      let w := gpio_set_value cfg.sck_pin 0 w
      let w :=
        if index &&& 0x80 ≠ 0 then gpio_set_value cfg.sdi_pin 1 w
        else gpio_set_value cfg.sdi_pin 0 w
      let index := (index <<< 1) % 256
      let w := udelay SPI_DELAY_VARIANT w
      let w := gpio_set_value cfg.sck_pin 1 w
      let w := udelay SPI_DELAY_VARIANT w
      writeLoop cfg n index w

/-- Function `static void SPI_WriteComm(unsigned char index)`. -/
def SPI_WriteComm (cfg : r61408_config) (index : Nat) (w : World) : World :=
  let w := gpio_set_value cfg.csx_pin 0 w
  let w := gpio_set_value cfg.sck_pin 0 w
  let w := gpio_set_value cfg.sdi_pin 0 w
  let w := udelay SPI_DELAY_VARIANT w
  let w := gpio_set_value cfg.sck_pin 1 w
  let w := udelay SPI_DELAY_VARIANT w
  writeLoop cfg 8 (index % 256) w

/-- Function `static void SPI_WriteData(unsigned char cmddata)`. -/
def SPI_WriteData (cfg : r61408_config) (cmddata : Nat) (w : World) : World :=
  let w := gpio_set_value cfg.csx_pin 0 w
  let w := gpio_set_value cfg.sck_pin 0 w
  let w := gpio_set_value cfg.sdi_pin 1 w
  let w := udelay SPI_DELAY_VARIANT w
  let w := gpio_set_value cfg.sck_pin 1 w
  let w := udelay SPI_DELAY_VARIANT w
  writeLoop cfg 8 (cmddata % 256) w

/-- Function `static unsigned char SPI_ReadData(void)`, its loop entered with
`n` iterations remaining (`j = 8 - n`) and the byte `cmddata` assembled so
far. -/
def readLoop (B : Backend) (cfg : r61408_config) : Nat → Nat → World → Nat × World
  | 0, cmddata, w => (cmddata, w)
  | n + 1, cmddata, w =>
      let j := 7 - n
      let w := gpio_set_value cfg.sck_pin 0 w
      let w := udelay SPI_DELAY_VARIANT w
      let rd := gpio_get_value B cfg.sdo_pin w
      let w := rd.2
      let cmddata := (cmddata ||| (rd.1 <<< (7 - j))) % 256
      let w := gpio_set_value cfg.sck_pin 1 w
      let w := udelay SPI_DELAY_VARIANT w
      readLoop B cfg n cmddata w

/-- Function `static unsigned char SPI_ReadData(void)`. -/
def SPI_ReadData (B : Backend) (cfg : r61408_config) (w : World) : Nat × World :=
  let w := gpio_set_value cfg.csx_pin 0 w
  readLoop B cfg 8 0 w

/-- Function `static int r61408_enable_gpio(const struct r61408_config *cfg)`. -/
def r61408_enable_gpio (B : Backend) (cfg : r61408_config) (w : World) : Int × World :=
  let rq := gpio_request B cfg.csx_pin w
  let w := rq.2
  if rq.1 ≠ 0 then
    let w := printf Msg.reqCsx w
    (1, w)
  else
  let rq := gpio_request B cfg.sck_pin w
  let w := rq.2
  if rq.1 ≠ 0 then
    let w := gpio_free cfg.csx_pin w
    let w := printf Msg.reqSck w
    (1, w)
  else
  let rq := gpio_request B cfg.sdi_pin w
  let w := rq.2
  if rq.1 ≠ 0 then
    let w := gpio_free cfg.csx_pin w
    let w := gpio_free cfg.sck_pin w
    let w := printf Msg.reqSdi w
    (1, w)
  else
  let rq := gpio_request B cfg.reset_pin w
  let w := rq.2
  if rq.1 ≠ 0 then
    let w := gpio_free cfg.csx_pin w
    let w := gpio_free cfg.sck_pin w
    let w := gpio_free cfg.sdi_pin w
    let w := printf Msg.reqReset w
    (1, w)
  else
  let rq := if cfg.sdo_pin ≠ -1 then gpio_request B cfg.sdo_pin w else (0, w)
  let w := rq.2
  if cfg.sdo_pin ≠ -1 ∧ rq.1 ≠ 0 then
    let w := gpio_free cfg.csx_pin w
    let w := gpio_free cfg.sck_pin w
    let w := gpio_free cfg.sdi_pin w
    let w := gpio_free cfg.reset_pin w
    let w := printf Msg.reqSdo w
    (1, w)
  else
  let w := gpio_direction_output cfg.reset_pin 1 w
  let w := gpio_direction_output cfg.csx_pin 1 w
  let w := gpio_direction_output cfg.sck_pin 1 w
  let w := gpio_direction_output cfg.sdi_pin 1 w
  let w := if cfg.sdo_pin ≠ -1 then gpio_direction_input cfg.sdo_pin w else w
  (0, w)

/-- One statement of the straight-line register-fill body of `hbc04.c`. -/
inductive Stmt
  /-- Statement `SPI_WriteComm(v);` -/
  | SPI_WriteComm (v : Nat)
  /-- Statement `SPI_WriteData(v);` -/
  | SPI_WriteData (v : Nat)
  /-- Statement `gpio_set_value(cfg.csx_pin, v);` -/
  | set_csx (v : Nat)
  /-- Statement `mdelay(n);` -/
  | mdelay (n : Nat)
  deriving DecidableEq, Repr

/-- Execute one statement. -/
def Stmt.exec (cfg : r61408_config) : Stmt → World → World
  | .SPI_WriteComm v, w => hbc04.SPI_WriteComm cfg v w
  | .SPI_WriteData v, w => hbc04.SPI_WriteData cfg v w
  | .set_csx v, w => gpio_set_value cfg.csx_pin v w
  | .mdelay n, w => PanelSpi.mdelay n w

/-- Execute statements in order. -/
def run (cfg : r61408_config) : List Stmt → World → World
  | [], w => w
  | s :: ss, w => run cfg ss (s.exec cfg w)

/-- The statements of `static void r61529_Reg_Fill(void)`, in source order. -/
def r61529_Reg_Fill_body : List Stmt := [
  Stmt.SPI_WriteComm 0xB4, Stmt.SPI_WriteData 0x00, Stmt.set_csx 1, Stmt.SPI_WriteComm 0xB0,
  Stmt.SPI_WriteData 0x04, Stmt.set_csx 1, Stmt.SPI_WriteComm 0x20, Stmt.set_csx 1,
  Stmt.SPI_WriteComm 0x36, Stmt.SPI_WriteData 0x6A, Stmt.set_csx 1, Stmt.SPI_WriteComm 0x3A,
  Stmt.SPI_WriteData 0x77, Stmt.set_csx 1, Stmt.SPI_WriteComm 0xB3, Stmt.SPI_WriteData 0x02,
  Stmt.SPI_WriteData 0x00, Stmt.SPI_WriteData 0x00, Stmt.SPI_WriteData 0x20, Stmt.set_csx 1,
  Stmt.SPI_WriteComm 0xC0, Stmt.SPI_WriteData 0x03, Stmt.SPI_WriteData 0xDF, Stmt.SPI_WriteData 0x40,
  Stmt.SPI_WriteData 0x12, Stmt.SPI_WriteData 0x00, Stmt.SPI_WriteData 0x01, Stmt.SPI_WriteData 0x00,
  Stmt.SPI_WriteData 0x55, Stmt.set_csx 1, Stmt.SPI_WriteComm 0xC1, Stmt.SPI_WriteData 0x07,
  Stmt.SPI_WriteData 0x28, Stmt.SPI_WriteData 0x08, Stmt.SPI_WriteData 0x08, Stmt.SPI_WriteData 0x00,
  Stmt.set_csx 1, Stmt.SPI_WriteComm 0xC4, Stmt.SPI_WriteData 0x70, Stmt.SPI_WriteData 0x00,
  Stmt.SPI_WriteData 0x03, Stmt.SPI_WriteData 0x01, Stmt.set_csx 1, Stmt.SPI_WriteComm 0xC6,
  Stmt.SPI_WriteData 0x1D, Stmt.set_csx 1, Stmt.SPI_WriteComm 0xC8, Stmt.SPI_WriteData 0x06,
  Stmt.SPI_WriteData 0x0C, Stmt.SPI_WriteData 0x16, Stmt.SPI_WriteData 0x24, Stmt.SPI_WriteData 0x30,
  Stmt.SPI_WriteData 0x48, Stmt.SPI_WriteData 0x3D, Stmt.SPI_WriteData 0x28, Stmt.SPI_WriteData 0x20,
  Stmt.SPI_WriteData 0x14, Stmt.SPI_WriteData 0x0C, Stmt.SPI_WriteData 0x04, Stmt.SPI_WriteData 0x06,
  Stmt.SPI_WriteData 0x0C, Stmt.SPI_WriteData 0x16, Stmt.SPI_WriteData 0x24, Stmt.SPI_WriteData 0x30,
  Stmt.SPI_WriteData 0x48, Stmt.SPI_WriteData 0x3D, Stmt.SPI_WriteData 0x28, Stmt.SPI_WriteData 0x20,
  Stmt.SPI_WriteData 0x14, Stmt.SPI_WriteData 0x0C, Stmt.SPI_WriteData 0x04, Stmt.set_csx 1,
  Stmt.SPI_WriteComm 0xC9, Stmt.SPI_WriteData 0x06, Stmt.SPI_WriteData 0x0C, Stmt.SPI_WriteData 0x16,
  Stmt.SPI_WriteData 0x24, Stmt.SPI_WriteData 0x30, Stmt.SPI_WriteData 0x48, Stmt.SPI_WriteData 0x3D,
  Stmt.SPI_WriteData 0x28, Stmt.SPI_WriteData 0x20, Stmt.SPI_WriteData 0x14, Stmt.SPI_WriteData 0x0C,
  Stmt.SPI_WriteData 0x04, Stmt.SPI_WriteData 0x06, Stmt.SPI_WriteData 0x0C, Stmt.SPI_WriteData 0x16,
  Stmt.SPI_WriteData 0x24, Stmt.SPI_WriteData 0x30, Stmt.SPI_WriteData 0x48, Stmt.SPI_WriteData 0x3D,
  Stmt.SPI_WriteData 0x28, Stmt.SPI_WriteData 0x20, Stmt.SPI_WriteData 0x14, Stmt.SPI_WriteData 0x0C,
  Stmt.SPI_WriteData 0x04, Stmt.set_csx 1, Stmt.SPI_WriteComm 0xCA, Stmt.SPI_WriteData 0x06,
  Stmt.SPI_WriteData 0x0C, Stmt.SPI_WriteData 0x16, Stmt.SPI_WriteData 0x24, Stmt.SPI_WriteData 0x30,
  Stmt.SPI_WriteData 0x48, Stmt.SPI_WriteData 0x3D, Stmt.SPI_WriteData 0x28, Stmt.SPI_WriteData 0x20,
  Stmt.SPI_WriteData 0x14, Stmt.SPI_WriteData 0x0C, Stmt.SPI_WriteData 0x04, Stmt.SPI_WriteData 0x06,
  Stmt.SPI_WriteData 0x0C, Stmt.SPI_WriteData 0x16, Stmt.SPI_WriteData 0x24, Stmt.SPI_WriteData 0x30,
  Stmt.SPI_WriteData 0x48, Stmt.SPI_WriteData 0x3D, Stmt.SPI_WriteData 0x28, Stmt.SPI_WriteData 0x20,
  Stmt.SPI_WriteData 0x14, Stmt.SPI_WriteData 0x0C, Stmt.SPI_WriteData 0x04, Stmt.set_csx 1,
  Stmt.SPI_WriteComm 0xD0, Stmt.SPI_WriteData 0x95, Stmt.SPI_WriteData 0x0A, Stmt.SPI_WriteData 0x08,
  Stmt.SPI_WriteData 0x10, Stmt.SPI_WriteData 0x39, Stmt.set_csx 1, Stmt.SPI_WriteComm 0xD1,
  Stmt.SPI_WriteData 0x02, Stmt.SPI_WriteData 0x2C, Stmt.SPI_WriteData 0x2C, Stmt.SPI_WriteData 0x44,
  Stmt.SPI_WriteData 0x00, Stmt.set_csx 1, Stmt.SPI_WriteComm 0x11, Stmt.set_csx 1,
  Stmt.mdelay 7, Stmt.SPI_WriteComm 0x29, Stmt.set_csx 1, Stmt.mdelay 7,
  Stmt.SPI_WriteComm 0x2C, Stmt.set_csx 1, Stmt.SPI_WriteComm 0x36, Stmt.SPI_WriteData 0x00,
  Stmt.set_csx 1]

/-- Function `static void r61529_Reg_Fill(void)`. -/
def r61529_Reg_Fill (cfg : r61408_config) (w : World) : World :=
  run cfg r61529_Reg_Fill_body w

/-- Function `static void R61408_Init(struct r61408_config* cfg)`. -/
def R61408_Init (B : Backend) (cfg : r61408_config) (w : World) : World :=
  let en := r61408_enable_gpio B cfg w
  let w := en.2
  if en.1 ≠ 0 then w else
  let w := gpio_set_value cfg.csx_pin 1 w
  let w := mdelay 2 w
  let w := gpio_set_value cfg.csx_pin 0 w
  let w := gpio_set_value cfg.reset_pin 0 w
  let w := mdelay 10 w
  let w := gpio_set_value cfg.reset_pin 1 w
  let w := mdelay 10 w
  let w := gpio_set_value cfg.csx_pin 1 w
  let w := SPI_WriteComm cfg 0xB0 w
  let w := SPI_WriteData cfg 0x04 w
  let w := gpio_set_value cfg.csx_pin 1 w
  let w := SPI_WriteComm cfg 0xBF w
  let w := (SPI_ReadData B cfg w).2
  let w := (SPI_ReadData B cfg w).2
  let w := (SPI_ReadData B cfg w).2
  let rd := SPI_ReadData B cfg w
  let byte1 := rd.1
  let w := rd.2
  let rd := SPI_ReadData B cfg w
  let byte2 := rd.1
  let w := rd.2
  let w := gpio_set_value cfg.csx_pin 1 w
  let w := SPI_WriteComm cfg 0xB0 w
  let w := SPI_WriteData cfg 0x04 w
  let w := gpio_set_value cfg.csx_pin 1 w
  let w :=
    if byte1 = 0x15 ∧ byte2 = 0x29 then
      let w := printf Msg.found w
      r61529_Reg_Fill cfg w
    else w
  gpio_set_value cfg.csx_pin 1 w

/-- Function `void hbc04_init(void)`; `cfg` is the value of the file-scope
configuration. -/
def hbc04_init (B : Backend) (cfg : r61408_config) (w : World) : World :=
  if cfg.csx_pin = -1 ∨ cfg.sck_pin = -1 ∨ cfg.sdi_pin = -1 then
    printf Msg.spiPins w
  else if cfg.reset_pin = -1 then
    printf Msg.resetPin w
  else
    R61408_Init B cfg w

end hbc04

/-! ## `hbc068.c` -/

/-- Configuration record `struct ssd2828_config` of `hbc068.c`. -/
structure ssd2828_config where
  csx_pin : Int
  sck_pin : Int
  sdi_pin : Int
  sdo_pin : Int
  reset_pin : Int
  ssd2828_tx_clk_khz : Int
  ssd2828_color_depth : Int
  mipi_dsi_number_of_data_lanes : Int
  mipi_dsi_bitrate_per_data_lane_mbps : Int
  mipi_dsi_loosely_packed_pixel_format : Int
  mipi_dsi_delay_after_exit_sleep_mode_ms : Int
  mipi_dsi_delay_after_set_display_on_ms : Int
  deriving DecidableEq, Repr

namespace hbc068

/-- The per-bit delay unit, `#define SPI_DELAY_VARIANT 10`. -/
def SPI_DELAY_VARIANT : Nat := 10

/-- The `for(j=0; j<8; j++)` loop shared by the two write functions of
`hbc068.c`; `n` iterations remain, `index` is the `unsigned char` being
shifted out. -/
def writeLoop (cfg : ssd2828_config) : Nat → Nat → World → World
  | 0, _, w => w
  | n + 1, index, w =>
      let w := gpio_set_value cfg.sck_pin 0 w
      let w :=
        if index &&& 0x80 ≠ 0 then gpio_set_value cfg.sdi_pin 1 w
        else gpio_set_value cfg.sdi_pin 0 w
      let index := (index <<< 1) % 256
      let w := udelay SPI_DELAY_VARIANT w
      let w := gpio_set_value cfg.sck_pin 1 w
      let w := udelay SPI_DELAY_VARIANT w
      writeLoop cfg n index w

/-- Function `void SPI_WriteCmd(unsigned char index)`. -/
def SPI_WriteCmd (cfg : ssd2828_config) (index : Nat) (w : World) : World :=
  let w := gpio_set_value cfg.csx_pin 0 w
  let w := gpio_set_value cfg.sck_pin 0 w
  let w := gpio_set_value cfg.sdi_pin 0 w
  let w := udelay SPI_DELAY_VARIANT w
  let w := gpio_set_value cfg.sck_pin 1 w
  let w := udelay SPI_DELAY_VARIANT w
  let w := writeLoop cfg 8 (index % 256) w
  gpio_set_value cfg.sdi_pin 1 w

/-- Function `void SPI_WriteData(unsigned char cmddata)`. -/
def SPI_WriteData (cfg : ssd2828_config) (cmddata : Nat) (w : World) : World :=
  let w := gpio_set_value cfg.csx_pin 0 w
  let w := gpio_set_value cfg.sck_pin 0 w
  let w := gpio_set_value cfg.sdi_pin 1 w
  let w := udelay SPI_DELAY_VARIANT w
  let w := gpio_set_value cfg.sck_pin 1 w
  let w := udelay SPI_DELAY_VARIANT w
  let w := writeLoop cfg 8 (cmddata % 256) w
  gpio_set_value cfg.sdi_pin 1 w

/-- Function `void SSD2828_WritePackageSize(unsigned char PCSdata)`. -/
def SSD2828_WritePackageSize (cfg : ssd2828_config) (PCSdata : Nat) (w : World) : World :=
  let w := SPI_WriteCmd cfg 0xB7 w
  let w := SPI_WriteData cfg 0x50 w
  let w := SPI_WriteData cfg 0x02 w
  let w := SPI_WriteCmd cfg 0xBD w
  let w := SPI_WriteData cfg 0x00 w
  let w := SPI_WriteData cfg 0x00 w
  let w := SPI_WriteCmd cfg 0xBC w
  let w := SPI_WriteData cfg (PCSdata % 256) w
  let w := SPI_WriteData cfg 0x00 w
  SPI_WriteCmd cfg 0xBF w

/-- Timing parameter `#define VBPD_MIPI (15)`. -/
def VBPD_MIPI : Nat := 15
/-- Timing parameter `#define VFPD_MIPI (2)`. -/
def VFPD_MIPI : Nat := 2
/-- Timing parameter `#define VSPW_MIPI (10)`. -/
def VSPW_MIPI : Nat := 10
/-- Timing parameter `#define HBPD_MIPI (120)`. -/
def HBPD_MIPI : Nat := 120
/-- Timing parameter `#define HFPD_MIPI (120)`. -/
def HFPD_MIPI : Nat := 120
/-- Timing parameter `#define HSPW_MIPI (3)`. -/
def HSPW_MIPI : Nat := 3

/-- Function `static int ssd2828_enable_gpio(const struct ssd2828_config *cfg)`. -/
def ssd2828_enable_gpio (B : Backend) (cfg : ssd2828_config) (w : World) : Int × World :=
  let rq := gpio_request B cfg.csx_pin w
  let w := rq.2
  if rq.1 ≠ 0 then
    let w := printf Msg.reqCsx w
    (1, w)
  else
  let rq := gpio_request B cfg.sck_pin w
  let w := rq.2
  if rq.1 ≠ 0 then
    let w := gpio_free cfg.csx_pin w
    let w := printf Msg.reqSck w
    (1, w)
  else
  let rq := gpio_request B cfg.sdi_pin w
  let w := rq.2
  if rq.1 ≠ 0 then
    let w := gpio_free cfg.csx_pin w
    let w := gpio_free cfg.sck_pin w
    let w := printf Msg.reqSdi w
    (1, w)
  else
  let rq := gpio_request B cfg.reset_pin w
  let w := rq.2
  if rq.1 ≠ 0 then
    let w := gpio_free cfg.csx_pin w
    let w := gpio_free cfg.sck_pin w
    let w := gpio_free cfg.sdi_pin w
    let w := printf Msg.reqReset w
    (1, w)
  else
  let rq := if cfg.sdo_pin ≠ -1 then gpio_request B cfg.sdo_pin w else (0, w)
  let w := rq.2
  if cfg.sdo_pin ≠ -1 ∧ rq.1 ≠ 0 then
    let w := gpio_free cfg.csx_pin w
    let w := gpio_free cfg.sck_pin w
    let w := gpio_free cfg.sdi_pin w
    let w := gpio_free cfg.reset_pin w
    let w := printf Msg.reqSdo w
    (1, w)
  else
  let w := gpio_direction_output cfg.reset_pin 0 w
  let w := gpio_direction_output cfg.csx_pin 1 w
  let w := gpio_direction_output cfg.sck_pin 1 w
  let w := gpio_direction_output cfg.sdi_pin 1 w
  let w := if cfg.sdo_pin ≠ -1 then gpio_direction_input cfg.sdo_pin w else w
  (0, w)

/-- One statement of the straight-line part of `HX8394_Init`. -/
inductive Stmt
  /-- Statement `SPI_WriteCmd(v);` -/
  | SPI_WriteCmd (v : Nat)
  /-- Statement `SPI_WriteData(v);` -/
  | SPI_WriteData (v : Nat)
  /-- Statement `SSD2828_WritePackageSize(n);` -/
  | SSD2828_WritePackageSize (n : Nat)
  /-- Statement `mdelay(n);` -/
  | mdelay (n : Nat)
  deriving DecidableEq, Repr

/-- Execute one statement. -/
def Stmt.exec (cfg : ssd2828_config) : Stmt → World → World
  | .SPI_WriteCmd v, w => hbc068.SPI_WriteCmd cfg v w
  | .SPI_WriteData v, w => hbc068.SPI_WriteData cfg v w
  | .SSD2828_WritePackageSize n, w => hbc068.SSD2828_WritePackageSize cfg n w
  | .mdelay n, w => PanelSpi.mdelay n w

/-- Execute statements in order. -/
def run (cfg : ssd2828_config) : List Stmt → World → World
  | [], w => w
  | s :: ss, w => run cfg ss (s.exec cfg w)

/-- The statements of `HX8394_Init` after the reset sequence, in source
order. -/
def HX8394_Init_body : List Stmt := [
  Stmt.SPI_WriteCmd 0xB7, Stmt.SPI_WriteData 0x50, Stmt.SPI_WriteData 0x00, Stmt.SPI_WriteCmd 0xB8,
  Stmt.SPI_WriteData 0x00, Stmt.SPI_WriteData 0x00, Stmt.SPI_WriteCmd 0xB9, Stmt.SPI_WriteData 0x00,
  Stmt.SPI_WriteData 0x00, Stmt.SPI_WriteCmd 0xBA, Stmt.SPI_WriteData 0x14, Stmt.SPI_WriteData 0x42,
  Stmt.SPI_WriteCmd 0xBB, Stmt.SPI_WriteData 0x04, Stmt.SPI_WriteData 0x00, Stmt.SPI_WriteCmd 0xDE,
  Stmt.SPI_WriteData 0x03, Stmt.SPI_WriteData 0x00, Stmt.SPI_WriteCmd 0xC9, Stmt.SPI_WriteData 0x02,
  Stmt.SPI_WriteData 0x23, Stmt.SSD2828_WritePackageSize 4, Stmt.SPI_WriteData 0xB9, Stmt.SPI_WriteData 0xFF,
  Stmt.SPI_WriteData 0x83, Stmt.SPI_WriteData 0x94, Stmt.SSD2828_WritePackageSize 3, Stmt.SPI_WriteData 0xBA,
  Stmt.SPI_WriteData 0x73, Stmt.SPI_WriteData 0x83, Stmt.SSD2828_WritePackageSize 16, Stmt.SPI_WriteData 0xB1,
  Stmt.SPI_WriteData 0x6C, Stmt.SPI_WriteData 0x0C, Stmt.SPI_WriteData 0x0D, Stmt.SPI_WriteData 0x25,
  Stmt.SPI_WriteData 0x04, Stmt.SPI_WriteData 0x11, Stmt.SPI_WriteData 0xF1, Stmt.SPI_WriteData 0x81,
  Stmt.SPI_WriteData 0x5C, Stmt.SPI_WriteData 0xE6, Stmt.SPI_WriteData 0x23, Stmt.SPI_WriteData 0x80,
  Stmt.SPI_WriteData 0xC0, Stmt.SPI_WriteData 0xD2, Stmt.SPI_WriteData 0x58, Stmt.SSD2828_WritePackageSize 13,
  Stmt.SPI_WriteData 0xB2, Stmt.SPI_WriteData 0x00, Stmt.SPI_WriteData 0x64, Stmt.SPI_WriteData 0x0F,
  Stmt.SPI_WriteData 0x09, Stmt.SPI_WriteData 0x24, Stmt.SPI_WriteData 0x1C, Stmt.SPI_WriteData 0x08,
  Stmt.SPI_WriteData 0x08, Stmt.SPI_WriteData 0x1C, Stmt.SPI_WriteData 0x4D, Stmt.SPI_WriteData 0x00,
  Stmt.SPI_WriteData 0x00, Stmt.SSD2828_WritePackageSize 13, Stmt.SPI_WriteData 0xB4, Stmt.SPI_WriteData 0x00,
  Stmt.SPI_WriteData 0xFF, Stmt.SPI_WriteData 0x01, Stmt.SPI_WriteData 0x5A, Stmt.SPI_WriteData 0x01,
  Stmt.SPI_WriteData 0x5A, Stmt.SPI_WriteData 0x01, Stmt.SPI_WriteData 0x5A, Stmt.SPI_WriteData 0x01,
  Stmt.SPI_WriteData 0x6C, Stmt.SPI_WriteData 0x01, Stmt.SPI_WriteData 0x6C, Stmt.SSD2828_WritePackageSize 4,
  Stmt.SPI_WriteData 0xBF, Stmt.SPI_WriteData 0x41, Stmt.SPI_WriteData 0x0E, Stmt.SPI_WriteData 0x01,
  Stmt.SSD2828_WritePackageSize 33, Stmt.SPI_WriteData 0xD3, Stmt.SPI_WriteData 0x00, Stmt.SPI_WriteData 0x07,
  Stmt.SPI_WriteData 0x00, Stmt.SPI_WriteData 0x64, Stmt.SPI_WriteData 0x07, Stmt.SPI_WriteData 0x08,
  Stmt.SPI_WriteData 0x08, Stmt.SPI_WriteData 0x32, Stmt.SPI_WriteData 0x10, Stmt.SPI_WriteData 0x07,
  Stmt.SPI_WriteData 0x00, Stmt.SPI_WriteData 0x07, Stmt.SPI_WriteData 0x32, Stmt.SPI_WriteData 0x10,
  Stmt.SPI_WriteData 0x03, Stmt.SPI_WriteData 0x00, Stmt.SPI_WriteData 0x03, Stmt.SPI_WriteData 0x00,
  Stmt.SPI_WriteData 0x32, Stmt.SPI_WriteData 0x10, Stmt.SPI_WriteData 0x08, Stmt.SPI_WriteData 0x00,
  Stmt.SPI_WriteData 0x35, Stmt.SPI_WriteData 0x33, Stmt.SPI_WriteData 0x09, Stmt.SPI_WriteData 0x09,
  Stmt.SPI_WriteData 0x37, Stmt.SPI_WriteData 0x0D, Stmt.SPI_WriteData 0x07, Stmt.SPI_WriteData 0x37,
  Stmt.SPI_WriteData 0x0E, Stmt.SPI_WriteData 0x08, Stmt.SSD2828_WritePackageSize 45, Stmt.SPI_WriteData 0xD5,
  Stmt.SPI_WriteData 0x18, Stmt.SPI_WriteData 0x18, Stmt.SPI_WriteData 0x24, Stmt.SPI_WriteData 0x24,
  Stmt.SPI_WriteData 0x1A, Stmt.SPI_WriteData 0x1A, Stmt.SPI_WriteData 0x1B, Stmt.SPI_WriteData 0x1B,
  Stmt.SPI_WriteData 0x04, Stmt.SPI_WriteData 0x05, Stmt.SPI_WriteData 0x06, Stmt.SPI_WriteData 0x07,
  Stmt.SPI_WriteData 0x00, Stmt.SPI_WriteData 0x01, Stmt.SPI_WriteData 0x02, Stmt.SPI_WriteData 0x03,
  Stmt.SPI_WriteData 0x18, Stmt.SPI_WriteData 0x18, Stmt.SPI_WriteData 0x19, Stmt.SPI_WriteData 0x19,
  Stmt.SPI_WriteData 0x20, Stmt.SPI_WriteData 0x21, Stmt.SPI_WriteData 0x22, Stmt.SPI_WriteData 0x23,
  Stmt.SPI_WriteData 0x18, Stmt.SPI_WriteData 0x18, Stmt.SPI_WriteData 0x18, Stmt.SPI_WriteData 0x18,
  Stmt.SPI_WriteData 0x18, Stmt.SPI_WriteData 0x18, Stmt.SPI_WriteData 0x18, Stmt.SPI_WriteData 0x18,
  Stmt.SPI_WriteData 0x18, Stmt.SPI_WriteData 0x18, Stmt.SPI_WriteData 0x18, Stmt.SPI_WriteData 0x18,
  Stmt.SPI_WriteData 0x18, Stmt.SPI_WriteData 0x18, Stmt.SPI_WriteData 0x18, Stmt.SPI_WriteData 0x18,
  Stmt.SPI_WriteData 0x18, Stmt.SPI_WriteData 0x18, Stmt.SPI_WriteData 0x18, Stmt.SPI_WriteData 0x18,
  Stmt.SSD2828_WritePackageSize 45, Stmt.SPI_WriteData 0xD6, Stmt.SPI_WriteData 0x19, Stmt.SPI_WriteData 0x19,
  Stmt.SPI_WriteData 0x24, Stmt.SPI_WriteData 0x24, Stmt.SPI_WriteData 0x1A, Stmt.SPI_WriteData 0x1A,
  Stmt.SPI_WriteData 0x1B, Stmt.SPI_WriteData 0x1B, Stmt.SPI_WriteData 0x03, Stmt.SPI_WriteData 0x02,
  Stmt.SPI_WriteData 0x01, Stmt.SPI_WriteData 0x00, Stmt.SPI_WriteData 0x07, Stmt.SPI_WriteData 0x06,
  Stmt.SPI_WriteData 0x05, Stmt.SPI_WriteData 0x04, Stmt.SPI_WriteData 0x18, Stmt.SPI_WriteData 0x18,
  Stmt.SPI_WriteData 0x18, Stmt.SPI_WriteData 0x18, Stmt.SPI_WriteData 0x23, Stmt.SPI_WriteData 0x22,
  Stmt.SPI_WriteData 0x21, Stmt.SPI_WriteData 0x20, Stmt.SPI_WriteData 0x18, Stmt.SPI_WriteData 0x18,
  Stmt.SPI_WriteData 0x18, Stmt.SPI_WriteData 0x18, Stmt.SPI_WriteData 0x18, Stmt.SPI_WriteData 0x18,
  Stmt.SPI_WriteData 0x18, Stmt.SPI_WriteData 0x18, Stmt.SPI_WriteData 0x18, Stmt.SPI_WriteData 0x18,
  Stmt.SPI_WriteData 0x18, Stmt.SPI_WriteData 0x18, Stmt.SPI_WriteData 0x18, Stmt.SPI_WriteData 0x18,
  Stmt.SPI_WriteData 0x18, Stmt.SPI_WriteData 0x18, Stmt.SPI_WriteData 0x18, Stmt.SPI_WriteData 0x18,
  Stmt.SPI_WriteData 0x18, Stmt.SPI_WriteData 0x18, Stmt.SSD2828_WritePackageSize 43, Stmt.SPI_WriteData 0xE0,
  Stmt.SPI_WriteData 0x00, Stmt.SPI_WriteData 0x00, Stmt.SPI_WriteData 0x02, Stmt.SPI_WriteData 0x28,
  Stmt.SPI_WriteData 0x2D, Stmt.SPI_WriteData 0x3D, Stmt.SPI_WriteData 0x0F, Stmt.SPI_WriteData 0x32,
  Stmt.SPI_WriteData 0x06, Stmt.SPI_WriteData 0x09, Stmt.SPI_WriteData 0x0C, Stmt.SPI_WriteData 0x17,
  Stmt.SPI_WriteData 0x0E, Stmt.SPI_WriteData 0x12, Stmt.SPI_WriteData 0x14, Stmt.SPI_WriteData 0x12,
  Stmt.SPI_WriteData 0x14, Stmt.SPI_WriteData 0x07, Stmt.SPI_WriteData 0x11, Stmt.SPI_WriteData 0x12,
  Stmt.SPI_WriteData 0x18, Stmt.SPI_WriteData 0x00, Stmt.SPI_WriteData 0x00, Stmt.SPI_WriteData 0x03,
  Stmt.SPI_WriteData 0x28, Stmt.SPI_WriteData 0x2C, Stmt.SPI_WriteData 0x3D, Stmt.SPI_WriteData 0x0F,
  Stmt.SPI_WriteData 0x32, Stmt.SPI_WriteData 0x06, Stmt.SPI_WriteData 0x09, Stmt.SPI_WriteData 0x0B,
  Stmt.SPI_WriteData 0x16, Stmt.SPI_WriteData 0x0F, Stmt.SPI_WriteData 0x11, Stmt.SPI_WriteData 0x14,
  Stmt.SPI_WriteData 0x13, Stmt.SPI_WriteData 0x13, Stmt.SPI_WriteData 0x07, Stmt.SPI_WriteData 0x11,
  Stmt.SPI_WriteData 0x11, Stmt.SPI_WriteData 0x17, Stmt.SSD2828_WritePackageSize 2, Stmt.SPI_WriteData 0xCC,
  Stmt.SPI_WriteData 0x01, Stmt.SSD2828_WritePackageSize 5, Stmt.SPI_WriteData 0xC7, Stmt.SPI_WriteData 0x00,
  Stmt.SPI_WriteData 0xC0, Stmt.SPI_WriteData 0x40, Stmt.SPI_WriteData 0xC0, Stmt.SSD2828_WritePackageSize 3,
  Stmt.SPI_WriteData 0xC0, Stmt.SPI_WriteData 0x30, Stmt.SPI_WriteData 0x14, Stmt.SSD2828_WritePackageSize 3,
  Stmt.SPI_WriteData 0xB6, Stmt.SPI_WriteData 0x46, Stmt.SPI_WriteData 0x46, Stmt.SSD2828_WritePackageSize 3,
  Stmt.SPI_WriteData 0xC6, Stmt.SPI_WriteData 0x3D, Stmt.SPI_WriteData 0x00, Stmt.SSD2828_WritePackageSize 2,
  Stmt.SPI_WriteData 0x3A, Stmt.SPI_WriteData 0x50, Stmt.SSD2828_WritePackageSize 2, Stmt.SPI_WriteData 0x36,
  Stmt.SPI_WriteData 0x01, Stmt.SSD2828_WritePackageSize 1, Stmt.SPI_WriteData 0x11, Stmt.SSD2828_WritePackageSize 1,
  Stmt.SPI_WriteData 0x29, Stmt.SSD2828_WritePackageSize 3, Stmt.SPI_WriteData 0xC6, Stmt.SPI_WriteData 0x3D,
  Stmt.SPI_WriteData 0x00, Stmt.SSD2828_WritePackageSize 2, Stmt.SPI_WriteData 0x11, Stmt.SPI_WriteData 0x00,
  Stmt.mdelay 520, Stmt.SSD2828_WritePackageSize 2, Stmt.SPI_WriteData 0x29, Stmt.SPI_WriteData 0x00,
  Stmt.mdelay 520, Stmt.SPI_WriteCmd 0xB7, Stmt.SPI_WriteData 0x50, Stmt.SPI_WriteData 0x00,
  Stmt.SPI_WriteCmd 0xB8, Stmt.SPI_WriteData 0x00, Stmt.SPI_WriteData 0x00, Stmt.SPI_WriteCmd 0xB9,
  Stmt.SPI_WriteData 0x00, Stmt.SPI_WriteData 0x00, Stmt.SPI_WriteCmd 0xBA, Stmt.SPI_WriteData 0x28,
  Stmt.SPI_WriteData 0x82, Stmt.SPI_WriteCmd 0xBB, Stmt.SPI_WriteData 0x03, Stmt.SPI_WriteData 0x00,
  Stmt.SPI_WriteCmd 0xB9, Stmt.SPI_WriteData 0x01, Stmt.SPI_WriteData 0x00, Stmt.SPI_WriteCmd 0xC9,
  Stmt.SPI_WriteData 0x02, Stmt.SPI_WriteData 0x23, Stmt.mdelay 100, Stmt.SPI_WriteCmd 0xCA,
  Stmt.SPI_WriteData 0x01, Stmt.SPI_WriteData 0x23, Stmt.SPI_WriteCmd 0xCB, Stmt.SPI_WriteData 0x10,
  Stmt.SPI_WriteData 0x05, Stmt.SPI_WriteCmd 0xCC, Stmt.SPI_WriteData 0x05, Stmt.SPI_WriteData 0x10,
  Stmt.SPI_WriteCmd 0xD0, Stmt.SPI_WriteData 0x00, Stmt.SPI_WriteData 0x00, Stmt.SPI_WriteCmd 0xB1,
  Stmt.SPI_WriteData HSPW_MIPI, Stmt.SPI_WriteData VSPW_MIPI, Stmt.SPI_WriteCmd 0xB2, Stmt.SPI_WriteData HBPD_MIPI,
  Stmt.SPI_WriteData VBPD_MIPI, Stmt.SPI_WriteCmd 0xB3, Stmt.SPI_WriteData HFPD_MIPI, Stmt.SPI_WriteData VFPD_MIPI,
  Stmt.SPI_WriteCmd 0xB4, Stmt.SPI_WriteData 0xE0, Stmt.SPI_WriteData 0x01, Stmt.SPI_WriteCmd 0xB5,
  Stmt.SPI_WriteData 0x00, Stmt.SPI_WriteData 0x05, Stmt.SPI_WriteCmd 0xB6, Stmt.SPI_WriteData 0x03,
  Stmt.SPI_WriteData 0x00, Stmt.SPI_WriteCmd 0xDE, Stmt.SPI_WriteData 0x03, Stmt.SPI_WriteData 0x00,
  Stmt.SPI_WriteCmd 0xD6, Stmt.SPI_WriteData 0x04, Stmt.SPI_WriteData 0x00, Stmt.SPI_WriteCmd 0xB7,
  Stmt.SPI_WriteData 0x4B, Stmt.SPI_WriteData 0x02, Stmt.SPI_WriteCmd 0x2C]

/-- Function `void HX8394_Init(struct ssd2828_config* cfg)`. -/
def HX8394_Init (B : Backend) (cfg : ssd2828_config) (w : World) : World :=
  let en := ssd2828_enable_gpio B cfg w
  let w := en.2
  if en.1 ≠ 0 then w else
  let w := gpio_set_value cfg.csx_pin 1 w
  let w := gpio_set_value cfg.reset_pin 1 w
  let w := mdelay 5 w
  let w := gpio_set_value cfg.reset_pin 0 w
  let w := mdelay 50 w
  let w := gpio_set_value cfg.reset_pin 1 w
  let w := mdelay 150 w
  let w := gpio_set_value cfg.sck_pin 0 w
  run cfg HX8394_Init_body w

/-- Function `void hbc068_init(void)`.  `cfg` is the value of the file-scope
configuration on entry; the function first stores the five pin numbers into
it.  The macro `IMX_GPIO_NR` comes from a header outside these sources and is
a parameter. -/
def hbc068_init (IMX_GPIO_NR : Int → Int → Int) (B : Backend) (cfg : ssd2828_config)
    (w : World) : World :=
  let cfg := { cfg with csx_pin := IMX_GPIO_NR 1 4 }
  let cfg := { cfg with sck_pin := IMX_GPIO_NR 1 2 }
  let cfg := { cfg with sdi_pin := IMX_GPIO_NR 1 3 }
  let cfg := { cfg with sdo_pin := IMX_GPIO_NR 1 1 }
  let cfg := { cfg with reset_pin := IMX_GPIO_NR 3 4 }
  let w := printf (Msg.pins cfg.csx_pin cfg.sck_pin cfg.sdi_pin cfg.reset_pin) w
  if cfg.csx_pin = -1 ∨ cfg.sck_pin = -1 ∨ cfg.sdi_pin = -1 then
    printf Msg.spiPins w
  else if cfg.reset_pin = -1 then
    printf Msg.resetPin w
  else
    HX8394_Init B cfg w

end hbc068

/-! ## Traces of the `hbc04.c` sequences, as the properties state them -/

namespace hbc04

/-- The calls of one `SPI_ReadData`, the first sample being the `g`-th level
read of the run: chip-select low, then eight read cells. -/
def readFrame (B : Backend) (cfg : r61408_config) (g : Nat) : List Ev :=
  Ev.set cfg.csx_pin 0 :: readCells B cfg.sck_pin cfg.sdo_pin 1 g 8

/-- The calls of a successful `r61408_enable_gpio`: the granted requests, then
the direction settings. -/
def acquireTrace (cfg : r61408_config) : List Ev :=
  (requiredPins cfg.csx_pin cfg.sck_pin cfg.sdi_pin cfg.reset_pin cfg.sdo_pin).map
      (fun p => Ev.request p true)
    ++ [Ev.dirOut cfg.reset_pin 1, Ev.dirOut cfg.csx_pin 1, Ev.dirOut cfg.sck_pin 1,
        Ev.dirOut cfg.sdi_pin 1]
    ++ (if cfg.sdo_pin ≠ -1 then [Ev.dirIn cfg.sdo_pin] else [])

/-- The byte returned by the `k`-th call of `SPI_ReadData` (counting from 0)
made after world `w1`, when nothing else reads a level in between: the call
answers the level reads `8 * k`, ..., `8 * k + 7` after `w1`. -/
def nthRead (B : Backend) (cfg : r61408_config) (w1 : World) (k : Nat) : Nat :=
  (SPI_ReadData B cfg (w1.reads (8 * k))).1

/-- The pin writes and delays of `R61408_Init` when the acquisition succeeds
and the detection does not match: the output directions, the reset pulse, the
read-mode command 0xB0 with data 0x04, command 0xBF, the clocking of five byte
reads, command 0xB0 with data 0x04 again, and chip-select driven high. -/
def noMatchWrites (cfg : r61408_config) : List Ev :=
  [Ev.dirOut cfg.reset_pin 1, Ev.dirOut cfg.csx_pin 1, Ev.dirOut cfg.sck_pin 1,
      Ev.dirOut cfg.sdi_pin 1]
    ++ [Ev.set cfg.csx_pin 1, Ev.mdelay 2, Ev.set cfg.csx_pin 0, Ev.set cfg.reset_pin 0,
        Ev.mdelay 10, Ev.set cfg.reset_pin 1, Ev.mdelay 10, Ev.set cfg.csx_pin 1]
    ++ writeFrame cfg.csx_pin cfg.sck_pin cfg.sdi_pin 1 0 0xB0
    ++ writeFrame cfg.csx_pin cfg.sck_pin cfg.sdi_pin 1 1 0x04
    ++ [Ev.set cfg.csx_pin 1]
    ++ writeFrame cfg.csx_pin cfg.sck_pin cfg.sdi_pin 1 0 0xBF
    ++ Ev.set cfg.csx_pin 0 :: clockCells cfg.sck_pin 1 8
    ++ Ev.set cfg.csx_pin 0 :: clockCells cfg.sck_pin 1 8
    ++ Ev.set cfg.csx_pin 0 :: clockCells cfg.sck_pin 1 8
    ++ Ev.set cfg.csx_pin 0 :: clockCells cfg.sck_pin 1 8
    ++ Ev.set cfg.csx_pin 0 :: clockCells cfg.sck_pin 1 8
    ++ [Ev.set cfg.csx_pin 1]
    ++ writeFrame cfg.csx_pin cfg.sck_pin cfg.sdi_pin 1 0 0xB0
    ++ writeFrame cfg.csx_pin cfg.sck_pin cfg.sdi_pin 1 1 0x04
    ++ [Ev.set cfg.csx_pin 1]
    ++ [Ev.set cfg.csx_pin 1]

/-- The calls of one statement of a register-fill body. -/
def Stmt.trace (cfg : r61408_config) : Stmt → List Ev
  | .SPI_WriteComm v => writeFrame cfg.csx_pin cfg.sck_pin cfg.sdi_pin 1 0 v
  | .SPI_WriteData v => writeFrame cfg.csx_pin cfg.sck_pin cfg.sdi_pin 1 1 v
  | .set_csx v => [Ev.set cfg.csx_pin v]
  | .mdelay n => [Ev.mdelay n]

/-- The calls of a list of statements, in order. -/
def traceOf (cfg : r61408_config) : List Stmt → List Ev
  | [] => []
  | s :: ss => s.trace cfg ++ traceOf cfg ss

/-- The reset pulse at the start of `R61408_Init`, after the pins have been
acquired. -/
def resetTrace (cfg : r61408_config) : List Ev :=
  [Ev.set cfg.csx_pin 1, Ev.mdelay 2, Ev.set cfg.csx_pin 0, Ev.set cfg.reset_pin 0,
   Ev.mdelay 10, Ev.set cfg.reset_pin 1, Ev.mdelay 10, Ev.set cfg.csx_pin 1]

/-- The detection step of `R61408_Init`, from the first read-mode command up
to the comparison: command 0xB0 with data 0x04, command 0xBF, five byte
reads (the first sample being the `g`-th level read of the run), then
command 0xB0 with data 0x04 again. -/
def detectTrace (B : Backend) (cfg : r61408_config) (g : Nat) : List Ev :=
  writeFrame cfg.csx_pin cfg.sck_pin cfg.sdi_pin 1 0 0xB0
    ++ writeFrame cfg.csx_pin cfg.sck_pin cfg.sdi_pin 1 1 0x04
    ++ [Ev.set cfg.csx_pin 1]
    ++ writeFrame cfg.csx_pin cfg.sck_pin cfg.sdi_pin 1 0 0xBF
    ++ readFrame B cfg g ++ readFrame B cfg (g + 8) ++ readFrame B cfg (g + 16)
    ++ readFrame B cfg (g + 24) ++ readFrame B cfg (g + 32)
    ++ [Ev.set cfg.csx_pin 1]
    ++ writeFrame cfg.csx_pin cfg.sck_pin cfg.sdi_pin 1 0 0xB0
    ++ writeFrame cfg.csx_pin cfg.sck_pin cfg.sdi_pin 1 1 0x04
    ++ [Ev.set cfg.csx_pin 1]

end hbc04

/-! ## Traces of the `hbc068.c` sequences, as the properties state them -/

namespace hbc068

/-- The calls of a successful `ssd2828_enable_gpio`: the granted requests, then
the direction settings. -/
def acquireTrace (cfg : ssd2828_config) : List Ev :=
  (requiredPins cfg.csx_pin cfg.sck_pin cfg.sdi_pin cfg.reset_pin cfg.sdo_pin).map
      (fun p => Ev.request p true)
    ++ [Ev.dirOut cfg.reset_pin 0, Ev.dirOut cfg.csx_pin 1, Ev.dirOut cfg.sck_pin 1,
        Ev.dirOut cfg.sdi_pin 1]
    ++ (if cfg.sdo_pin ≠ -1 then [Ev.dirIn cfg.sdo_pin] else [])

/-- The configuration after `hbc068_init` has stored the five pin numbers. -/
def withPins (IMX_GPIO_NR : Int → Int → Int) (cfg : ssd2828_config) : ssd2828_config :=
  { cfg with
    csx_pin := IMX_GPIO_NR 1 4, sck_pin := IMX_GPIO_NR 1 2, sdi_pin := IMX_GPIO_NR 1 3,
    sdo_pin := IMX_GPIO_NR 1 1, reset_pin := IMX_GPIO_NR 3 4 }

/-- The calls of one command write of `hbc068.c`. -/
def cmdTrace (cfg : ssd2828_config) (v : Nat) : List Ev :=
  writeFrame cfg.csx_pin cfg.sck_pin cfg.sdi_pin 10 0 v ++ [Ev.set cfg.sdi_pin 1]

/-- The calls of one data write of `hbc068.c`. -/
def dataTrace (cfg : ssd2828_config) (v : Nat) : List Ev :=
  writeFrame cfg.csx_pin cfg.sck_pin cfg.sdi_pin 10 1 v ++ [Ev.set cfg.sdi_pin 1]

/-- The calls of one statement of the straight-line part of `HX8394_Init`. -/
def Stmt.trace (cfg : ssd2828_config) : Stmt → List Ev
  | .SPI_WriteCmd v => cmdTrace cfg v
  | .SPI_WriteData v => dataTrace cfg v
  | .SSD2828_WritePackageSize n =>
      cmdTrace cfg 0xB7 ++ dataTrace cfg 0x50 ++ dataTrace cfg 0x02
        ++ cmdTrace cfg 0xBD ++ dataTrace cfg 0x00 ++ dataTrace cfg 0x00
        ++ cmdTrace cfg 0xBC ++ dataTrace cfg n ++ dataTrace cfg 0x00
        ++ cmdTrace cfg 0xBF
  | .mdelay n => [Ev.mdelay n]

/-- The calls of a list of statements, in order. -/
def traceOf (cfg : ssd2828_config) : List Stmt → List Ev
  | [] => []
  | s :: ss => s.trace cfg ++ traceOf cfg ss

/-- The reset pulse at the start of `HX8394_Init`, after the pins have been
acquired, up to the clock being driven low. -/
def resetTrace (cfg : ssd2828_config) : List Ev :=
  [Ev.set cfg.csx_pin 1, Ev.set cfg.reset_pin 1, Ev.mdelay 5, Ev.set cfg.reset_pin 0,
   Ev.mdelay 50, Ev.set cfg.reset_pin 1, Ev.mdelay 150, Ev.set cfg.sck_pin 0]

end hbc068

/-! ## Sample configurations used to instantiate the theorems -/

/-- The pin assignment of the board file-scope `cfg` of `hbc04.c`
(GPIO1_IO04, GPIO1_IO02, GPIO1_IO03, GPIO1_IO01, GPIO3_IO04 as linear GPIO
numbers), all other fields zero. -/
def boardCfg04 : r61408_config :=
  { csx_pin := 4, sck_pin := 2, sdi_pin := 3, sdo_pin := 1, reset_pin := 68,
    ssd2828_tx_clk_khz := 0, ssd2828_color_depth := 0,
    mipi_dsi_number_of_data_lanes := 0, mipi_dsi_bitrate_per_data_lane_mbps := 0,
    mipi_dsi_loosely_packed_pixel_format := 0,
    mipi_dsi_delay_after_exit_sleep_mode_ms := 0,
    mipi_dsi_delay_after_set_display_on_ms := 0 }

/-- The pin assignment `hbc068_init` stores into the file-scope `cfg` of
`hbc068.c`, with the initialised panel fields. -/
def boardCfg068 : ssd2828_config :=
  { csx_pin := 4, sck_pin := 2, sdi_pin := 3, sdo_pin := 1, reset_pin := 68,
    ssd2828_tx_clk_khz := 0, ssd2828_color_depth := 24,
    mipi_dsi_number_of_data_lanes := 4, mipi_dsi_bitrate_per_data_lane_mbps := 513,
    mipi_dsi_loosely_packed_pixel_format := 0,
    mipi_dsi_delay_after_exit_sleep_mode_ms := 100,
    mipi_dsi_delay_after_set_display_on_ms := 200 }

/-- The board pin assignment of `hbc04.c` with the data-in pin not wired up. -/
def boardCfg04NoSdo : r61408_config := { boardCfg04 with sdo_pin := -1 }

/-- The board pin assignment of `hbc04.c` with other panel parameters. -/
def panelVariant04 : r61408_config :=
  { boardCfg04 with
    ssd2828_tx_clk_khz := 24000, ssd2828_color_depth := 18,
    mipi_dsi_number_of_data_lanes := 2, mipi_dsi_bitrate_per_data_lane_mbps := 250,
    mipi_dsi_loosely_packed_pixel_format := 1,
    mipi_dsi_delay_after_exit_sleep_mode_ms := 7,
    mipi_dsi_delay_after_set_display_on_ms := 9 }

/-- The board pin assignment of `hbc068.c` with other panel parameters. -/
def panelVariant068 : ssd2828_config :=
  { boardCfg068 with
    ssd2828_tx_clk_khz := 24000, ssd2828_color_depth := 18,
    mipi_dsi_number_of_data_lanes := 2, mipi_dsi_bitrate_per_data_lane_mbps := 250,
    mipi_dsi_loosely_packed_pixel_format := 1,
    mipi_dsi_delay_after_exit_sleep_mode_ms := 7,
    mipi_dsi_delay_after_set_display_on_ms := 9 }

/-- A board that grants every request and shows on every input pin, bit by
bit and most significant first, the byte `bytes[n / 8]` during the level reads
`8 * (n / 8)`, ..., `8 * (n / 8) + 7` (zero once the list is exhausted). -/
def feedBytes (bytes : List Nat) : Backend :=
  { grant := fun _ _ _ => true,
    level := fun n _ => bitOf (bytes.getD (n / 8) 0) (7 - n % 8) }

/-- A board that refuses the `k`-th pin request of a run (counting from 0),
grants every other one, and shows level 0 on every input. -/
def refuseNth (k : Nat) : Backend :=
  { grant := fun n _ _ => n != k,
    level := fun _ _ => 0 }

/-- The world after `r61408_enable_gpio` has succeeded on the board pin
assignment from a fresh run. -/
def boardAcquired04 : World :=
  { trace := [Ev.request 4 true, Ev.request 2 true, Ev.request 3 true, Ev.request 68 true,
              Ev.request 1 true, Ev.dirOut 68 1, Ev.dirOut 4 1, Ev.dirOut 2 1, Ev.dirOut 3 1,
              Ev.dirIn 1],
    claimed := [1, 68, 3, 2, 4],
    nreq := 5,
    nget := 0 }

/-- The mock board of the idempotence property: a pin request fails when the
pin is already claimed and succeeds otherwise; every input shows level 0. -/
def exclusiveBoard : Backend :=
  { grant := fun _ p claimed => decide (p ∉ claimed),
    level := fun _ _ => 0 }

/-- The linear GPIO numbering behind the sample pin assignments: line `index`
of port `port` is number `(port - 1) * 32 + index % 32`. -/
def sampleGpioNr (port index : Int) : Int := (port - 1) * 32 + index % 32

/-- The world after `ssd2828_enable_gpio` has succeeded on the board pin
assignment from a fresh run. -/
def boardAcquired068 : World :=
  { trace := [Ev.request 4 true, Ev.request 2 true, Ev.request 3 true, Ev.request 68 true,
              Ev.request 1 true, Ev.dirOut 68 0, Ev.dirOut 4 1, Ev.dirOut 2 1, Ev.dirOut 3 1,
              Ev.dirIn 1],
    claimed := [1, 68, 3, 2, 4],
    nreq := 5,
    nget := 0 }

/-! ## Observers for packet lengths, chip-select framing and clock phase -/

/-- Chip-select framing monitor.  A command byte starts where the three calls
chip-select low, clock low, data-out low follow each other: the entry of a
command write (a data write drives data-out high there, a read waits instead).
`idle` tells whether chip-select has been driven high since the last command
byte started; `seen` counts how many calls of the entry have just been seen.
The result is false when a command byte starts while `idle` is false. -/
def csFramed (csx sck sdi : Int) : Bool → Nat → List Ev → Bool
  | _, _, [] => true
  | idle, seen, Ev.set p v :: es =>
      if p = csx ∧ v = 1 then csFramed csx sck sdi true 0 es
      else if p = csx ∧ v = 0 then csFramed csx sck sdi idle 1 es
      else if seen = 1 ∧ p = sck ∧ v = 0 then csFramed csx sck sdi idle 2 es
      else if seen = 2 ∧ p = sdi ∧ v = 0 then idle && csFramed csx sck sdi false 0 es
      else csFramed csx sck sdi idle 0 es
  | idle, _, _ :: es => csFramed csx sck sdi idle 0 es

namespace hbc04

/-- Chip-select framing of a statement list: false when a `SPI_WriteComm`
statement is reached while chip-select has not been driven high since the
previous one (`idle` false). -/
def csOk : Bool → List Stmt → Bool
  | _, [] => true
  | idle, Stmt.SPI_WriteComm _ :: ss => idle && csOk false ss
  | idle, Stmt.SPI_WriteData _ :: ss => csOk idle ss
  | idle, Stmt.set_csx v :: ss => if v = 1 then csOk true ss else csOk idle ss
  | idle, Stmt.mdelay _ :: ss => csOk idle ss

end hbc04

namespace hbc068

/-- The number of `SPI_WriteData` statements at the head of a statement list,
up to the next statement that writes a command byte; delays are skipped. -/
def dataRun : List Stmt → Nat
  | Stmt.SPI_WriteData _ :: ss => dataRun ss + 1
  | Stmt.mdelay _ :: ss => dataRun ss
  | _ => 0

/-- For every `SSD2828_WritePackageSize(n)` statement of a list, in order: the
declared `n` and the number of data bytes written after the statement up to
the next command byte. -/
def packets : List Stmt → List (Nat × Nat)
  | [] => []
  | Stmt.SSD2828_WritePackageSize n :: ss => (n, dataRun ss) :: packets ss
  | _ :: ss => packets ss

end hbc068

/-! # Theorems -/

/-! ## Traces -/

@[simp] theorem World.app_nil (w : World) : w.app [] = w := by
  simp [World.app]

@[simp] theorem World.app_app (w : World) (a b : List Ev) :
    (w.app a).app b = w.app (a ++ b) := by
  simp [World.app]

@[simp] theorem World.app_trace (w : World) (a : List Ev) :
    (w.app a).trace = w.trace ++ a := rfl

@[simp] theorem World.app_claimed (w : World) (a : List Ev) :
    (w.app a).claimed = w.claimed := rfl

@[simp] theorem World.app_nreq (w : World) (a : List Ev) :
    (w.app a).nreq = w.nreq := rfl

@[simp] theorem World.app_nget (w : World) (a : List Ev) :
    (w.app a).nget = w.nget := rfl

theorem emit_eq_app (e : Ev) (w : World) : emit e w = w.app [e] := rfl

theorem gpio_set_value_eq (p : Int) (v : Nat) (w : World) :
    gpio_set_value p v w = w.app [Ev.set p v] := rfl

theorem udelay_eq (n : Nat) (w : World) : udelay n w = w.app [Ev.udelay n] := rfl

theorem mdelay_eq (n : Nat) (w : World) : mdelay n w = w.app [Ev.mdelay n] := rfl

theorem printf_eq (m : Msg) (w : World) : printf m w = w.app [Ev.printf m] := rfl

theorem gpio_direction_output_eq (p : Int) (v : Nat) (w : World) :
    gpio_direction_output p v w = w.app [Ev.dirOut p v] := rfl

theorem gpio_direction_input_eq (p : Int) (w : World) :
    gpio_direction_input p w = w.app [Ev.dirIn p] := rfl

@[simp] theorem emitted_app (w : World) (es : List Ev) : emitted w (w.app es) = es := by
  simp [emitted]

theorem and_0x80_ne_zero (x : Nat) : (x &&& 0x80 ≠ 0) ↔ x.testBit 7 = true := by
  have h : (0x80 : Nat) = 2 ^ 7 := by norm_num
  rw [h, Nat.and_two_pow]
  cases x.testBit 7 <;> simp

theorem bitOf_mod_256 (v i : Nat) (h : i < 8) : bitOf (v % 256) i = bitOf v i := by
  have h256 : (256 : Nat) = 2 ^ 8 := by norm_num
  unfold bitOf
  rw [h256, Nat.testBit_mod_two_pow]
  simp [h]

theorem bitOf_shl_mod_256 (x i : Nat) (h : i < 7) :
    bitOf ((x <<< 1) % 256) (i + 1) = bitOf x i := by
  have h256 : (256 : Nat) = 2 ^ 8 := by norm_num
  have h1 : i + 1 < 8 := by omega
  unfold bitOf
  rw [h256, Nat.testBit_mod_two_pow, Nat.testBit_shiftLeft]
  simp [h1]

theorem msbBits_mod_256 (v : Nat) : msbBits (v % 256) = msbBits v := by
  unfold msbBits
  apply List.map_congr_left
  intro j _
  exact bitOf_mod_256 v (7 - j) (by omega)

theorem bitCells_append (sck sdi : Int) (d : Nat) (a b : List Nat) :
    bitCells sck sdi d (a ++ b) = bitCells sck sdi d a ++ bitCells sck sdi d b := by
  induction a with
  | nil => rfl
  | cons x xs ih => simp [bitCells, ih]

/-- The levels shifted out by `n + 1` loop iterations starting from `index`:
bit 7 first, then what the shifted byte gives. -/
theorem shifted_levels (index n : Nat) (h : n + 1 ≤ 8) :
    (List.range (n + 1)).map (fun j => bitOf index (7 - j))
      = bitOf index 7 ::
          (List.range n).map (fun j => bitOf ((index <<< 1) % 256) (7 - j)) := by
  rw [List.range_succ_eq_map]
  simp only [List.map_cons, List.map_map, Nat.sub_zero]
  congr 1
  apply List.map_congr_left
  intro j hj
  have hj2 : j < n := List.mem_range.mp hj
  have e : 7 - j = (6 - j) + 1 := by omega
  have e2 : 7 - Nat.succ j = 6 - j := by omega
  simp only [Function.comp]
  rw [e, bitOf_shl_mod_256 index (6 - j) (by omega), e2]

theorem set_ite_level (c : Prop) [Decidable c] (p : Int) (w : World) :
    (if c then gpio_set_value p 1 w else gpio_set_value p 0 w)
      = w.app [Ev.set p (if c then 1 else 0)] := by
  split <;> rfl

theorem ite_and_0x80 (x : Nat) : (if x &&& 0x80 ≠ 0 then 1 else 0) = bitOf x 7 := by
  unfold bitOf
  by_cases h : x.testBit 7 = true
  · rw [if_pos ((and_0x80_ne_zero x).mpr h), if_pos h]
  · rw [if_neg (fun hc => h ((and_0x80_ne_zero x).mp hc)), if_neg h]

theorem hbc04_writeLoop_eq (cfg : r61408_config) (n : Nat) :
    ∀ (index : Nat) (w : World), n ≤ 8 →
      hbc04.writeLoop cfg n index w
        = w.app (bitCells cfg.sck_pin cfg.sdi_pin 1
            ((List.range n).map (fun j => bitOf index (7 - j)))) := by
  induction n with
  | zero => intro index w _; simp [hbc04.writeLoop, bitCells]
  | succ n ih =>
      intro index w h
      rw [shifted_levels index n h]
      simp only [hbc04.writeLoop]
      rw [ih _ _ (by omega), set_ite_level, ite_and_0x80]
      simp [gpio_set_value_eq, udelay_eq, hbc04.SPI_DELAY_VARIANT, bitCells]

theorem hbc04_SPI_WriteComm_eq (cfg : r61408_config) (v : Nat) (w : World) :
    hbc04.SPI_WriteComm cfg v w = w.app (writeFrame cfg.csx_pin cfg.sck_pin cfg.sdi_pin 1 0 v) := by
  have hm := msbBits_mod_256 v
  unfold msbBits at hm
  unfold hbc04.SPI_WriteComm
  simp only [hbc04_writeLoop_eq cfg 8 _ _ (le_refl 8), hm]
  simp [gpio_set_value_eq, udelay_eq, hbc04.SPI_DELAY_VARIANT, writeFrame, msbBits]

theorem hbc04_SPI_WriteData_eq (cfg : r61408_config) (v : Nat) (w : World) :
    hbc04.SPI_WriteData cfg v w = w.app (writeFrame cfg.csx_pin cfg.sck_pin cfg.sdi_pin 1 1 v) := by
  have hm := msbBits_mod_256 v
  unfold msbBits at hm
  unfold hbc04.SPI_WriteData
  simp only [hbc04_writeLoop_eq cfg 8 _ _ (le_refl 8), hm]
  simp [gpio_set_value_eq, udelay_eq, hbc04.SPI_DELAY_VARIANT, writeFrame, msbBits]


theorem hbc068_writeLoop_eq (cfg : ssd2828_config) (n : Nat) :
    ∀ (index : Nat) (w : World), n ≤ 8 →
      hbc068.writeLoop cfg n index w
        = w.app (bitCells cfg.sck_pin cfg.sdi_pin 10
            ((List.range n).map (fun j => bitOf index (7 - j)))) := by
  induction n with
  | zero => intro index w _; simp [hbc068.writeLoop, bitCells]
  | succ n ih =>
      intro index w h
      rw [shifted_levels index n h]
      simp only [hbc068.writeLoop]
      rw [ih _ _ (by omega), set_ite_level, ite_and_0x80]
      simp [gpio_set_value_eq, udelay_eq, hbc068.SPI_DELAY_VARIANT, bitCells]

theorem hbc068_SPI_WriteCmd_eq (cfg : ssd2828_config) (v : Nat) (w : World) :
    hbc068.SPI_WriteCmd cfg v w
      = w.app (writeFrame cfg.csx_pin cfg.sck_pin cfg.sdi_pin 10 0 v
          ++ [Ev.set cfg.sdi_pin 1]) := by
  have hm := msbBits_mod_256 v
  unfold msbBits at hm
  unfold hbc068.SPI_WriteCmd
  simp only [hbc068_writeLoop_eq cfg 8 _ _ (le_refl 8), hm]
  simp [gpio_set_value_eq, udelay_eq, hbc068.SPI_DELAY_VARIANT, writeFrame, msbBits]

theorem hbc068_SPI_WriteData_eq (cfg : ssd2828_config) (v : Nat) (w : World) :
    hbc068.SPI_WriteData cfg v w
      = w.app (writeFrame cfg.csx_pin cfg.sck_pin cfg.sdi_pin 10 1 v
          ++ [Ev.set cfg.sdi_pin 1]) := by
  have hm := msbBits_mod_256 v
  unfold msbBits at hm
  unfold hbc068.SPI_WriteData
  simp only [hbc068_writeLoop_eq cfg 8 _ _ (le_refl 8), hm]
  simp [gpio_set_value_eq, udelay_eq, hbc068.SPI_DELAY_VARIANT, writeFrame, msbBits]


/-! ## Sampling a write frame -/

theorem samplesFrom_bitCells (sck sdi : Int) (h : sck ≠ sdi) (d : Nat) (rest : List Ev)
    (hrest : ∀ c, samplesFrom sck sdi c rest = []) (bs : List Nat) :
    ∀ cur, samplesFrom sck sdi cur (bitCells sck sdi d bs ++ rest) = bs := by
  induction bs with
  | nil => intro cur; simpa [bitCells] using hrest cur
  | cons b bs ih =>
      intro cur
      simp [bitCells, samplesFrom, h, ih]

theorem samples_writeFrame (csx sck sdi : Int) (h : sck ≠ sdi) (d flag v : Nat)
    (rest : List Ev) (hrest : ∀ c, samplesFrom sck sdi c rest = []) :
    clockHighSamples sck sdi (writeFrame csx sck sdi d flag v ++ rest)
      = flag :: msbBits v := by
  unfold clockHighSamples writeFrame
  by_cases hc : csx = sdi
  · simp [samplesFrom, h, hc, samplesFrom_bitCells sck sdi h d rest hrest]
    rfl
  · simp [samplesFrom, h, hc, samplesFrom_bitCells sck sdi h d rest hrest]
    rfl

set_option maxRecDepth 100000 in
theorem assembleMsb_msbBits : ∀ v, v < 256 → assembleMsb (msbBits v) = v := by
  decide

theorem msbFirst_msbBits (v : Nat) (hv : v < 256) : MsbFirst v (msbBits v) := by
  refine ⟨by simp [msbBits], ?_, assembleMsb_msbBits v hv⟩
  intro k h1 h8
  have hk : k - 1 < 8 := by omega
  have e : 7 - (k - 1) = 8 - k := by omega
  simp [msbBits, List.getElem?_map, List.getElem?_range hk, e]

theorem risingFrom_bitCells (sck sdi : Int) (h : sck ≠ sdi) (d : Nat) (rest : List Ev)
    (hrest : ∀ k c, risingFrom sck sdi k c rest = []) (bs : List Nat) :
    ∀ clk cur, risingFrom sck sdi clk cur (bitCells sck sdi d bs ++ rest) = bs := by
  induction bs with
  | nil => intro clk cur; simpa [bitCells] using hrest clk cur
  | cons b bs ih =>
      intro clk cur
      simp [bitCells, risingFrom, h, ih]

theorem rising_writeFrame (csx sck sdi : Int) (h : sck ≠ sdi) (d flag v : Nat)
    (rest : List Ev) (hrest : ∀ k c, risingFrom sck sdi k c rest = []) (clk cur : Nat) :
    risingFrom sck sdi clk cur (writeFrame csx sck sdi d flag v ++ rest)
      = flag :: msbBits v := by
  unfold writeFrame
  by_cases hc : csx = sdi
  · simp [risingFrom, h, hc, risingFrom_bitCells sck sdi h d rest hrest]
    rfl
  · by_cases hk : csx = sck
    · simp [risingFrom, h, hc, hk, risingFrom_bitCells sck sdi h d rest hrest]
      rfl
    · simp [risingFrom, h, hc, hk, risingFrom_bitCells sck sdi h d rest hrest]
      rfl

/-- C1. MSB-first: for every byte `v`, in each of the four write functions
(`SPI_WriteComm` and `SPI_WriteData` of hbc04, `SPI_WriteCmd` and
`SPI_WriteData` of hbc068), whatever levels the clock and data-out hold on
entry, the data-out levels present at the rising clock edges are the framing
level (0 for a command, 1 for data) followed by eight levels of which the
`k`-th is bit `8 - k` of `v` and which assemble, most significant first, to
`v`. -/
theorem C1_msb_first (v : Nat) (hv : v < 256) (w : World) (clk cur : Nat)
    (c4 : r61408_config) (c68 : ssd2828_config)
    (h4 : c4.sck_pin ≠ c4.sdi_pin) (h68 : c68.sck_pin ≠ c68.sdi_pin) :
    (∃ levels, MsbFirst v levels ∧
      risingFrom c4.sck_pin c4.sdi_pin clk cur (emitted w (hbc04.SPI_WriteComm c4 v w))
        = 0 :: levels) ∧
    (∃ levels, MsbFirst v levels ∧
      risingFrom c4.sck_pin c4.sdi_pin clk cur (emitted w (hbc04.SPI_WriteData c4 v w))
        = 1 :: levels) ∧
    (∃ levels, MsbFirst v levels ∧
      risingFrom c68.sck_pin c68.sdi_pin clk cur (emitted w (hbc068.SPI_WriteCmd c68 v w))
        = 0 :: levels) ∧
    (∃ levels, MsbFirst v levels ∧
      risingFrom c68.sck_pin c68.sdi_pin clk cur (emitted w (hbc068.SPI_WriteData c68 v w))
        = 1 :: levels) := by
  have e1 := rising_writeFrame c4.csx_pin c4.sck_pin c4.sdi_pin h4 1 0 v []
    (fun _ _ => rfl) clk cur
  have e2 := rising_writeFrame c4.csx_pin c4.sck_pin c4.sdi_pin h4 1 1 v []
    (fun _ _ => rfl) clk cur
  have hr : ∀ k c, risingFrom c68.sck_pin c68.sdi_pin k c [Ev.set c68.sdi_pin 1] = [] := by
    intro k c; simp [risingFrom]
  have e3 := rising_writeFrame c68.csx_pin c68.sck_pin c68.sdi_pin h68 10 0 v _ hr clk cur
  have e4 := rising_writeFrame c68.csx_pin c68.sck_pin c68.sdi_pin h68 10 1 v _ hr clk cur
  rw [List.append_nil] at e1 e2
  rw [hbc04_SPI_WriteComm_eq, hbc04_SPI_WriteData_eq, hbc068_SPI_WriteCmd_eq,
    hbc068_SPI_WriteData_eq]
  simp only [emitted_app, e1, e2, e3, e4]
  exact ⟨⟨_, msbFirst_msbBits v hv, rfl⟩, ⟨_, msbFirst_msbBits v hv, rfl⟩,
    ⟨_, msbFirst_msbBits v hv, rfl⟩, ⟨_, msbFirst_msbBits v hv, rfl⟩⟩

/-- Witness of C1 at the byte 0xA5 on the board pin assignments, clock and
data-out high on entry. -/
theorem C1_msb_first_witness :
    (∃ levels, MsbFirst 0xA5 levels ∧
      risingFrom boardCfg04.sck_pin boardCfg04.sdi_pin 1 1
          (emitted World.init (hbc04.SPI_WriteComm boardCfg04 0xA5 World.init))
        = 0 :: levels) ∧
    (∃ levels, MsbFirst 0xA5 levels ∧
      risingFrom boardCfg04.sck_pin boardCfg04.sdi_pin 1 1
          (emitted World.init (hbc04.SPI_WriteData boardCfg04 0xA5 World.init))
        = 1 :: levels) ∧
    (∃ levels, MsbFirst 0xA5 levels ∧
      risingFrom boardCfg068.sck_pin boardCfg068.sdi_pin 1 1
          (emitted World.init (hbc068.SPI_WriteCmd boardCfg068 0xA5 World.init))
        = 0 :: levels) ∧
    (∃ levels, MsbFirst 0xA5 levels ∧
      risingFrom boardCfg068.sck_pin boardCfg068.sdi_pin 1 1
          (emitted World.init (hbc068.SPI_WriteData boardCfg068 0xA5 World.init))
        = 1 :: levels) :=
  C1_msb_first 0xA5 (by decide) World.init 1 1 boardCfg04 boardCfg068 (by decide)
    (by decide)

/-- C2. For every byte `v`, the calls made by `SPI_WriteData(v)` of hbc04 are
exactly: chip-select low, clock low, data-out 1, wait 1, clock high, wait 1,
then for each bit i = 7 down to 0: clock low, data-out = bit i of `v`, wait 1,
clock high, wait 1.  `SPI_WriteComm(v)` makes the same calls with data-out 0
for the framing bit.  Nothing else is called, and chip-select is last driven
low. -/
theorem C2_write_trace (cfg : r61408_config) (v : Nat) (w : World)
    (h1 : cfg.csx_pin ≠ cfg.sck_pin) (h2 : cfg.csx_pin ≠ cfg.sdi_pin) :
    emitted w (hbc04.SPI_WriteData cfg v w)
      = [Ev.set cfg.csx_pin 0, Ev.set cfg.sck_pin 0, Ev.set cfg.sdi_pin 1, Ev.udelay 1,
          Ev.set cfg.sck_pin 1, Ev.udelay 1]
        ++ bitCells cfg.sck_pin cfg.sdi_pin 1
            [bitOf v 7, bitOf v 6, bitOf v 5, bitOf v 4,
             bitOf v 3, bitOf v 2, bitOf v 1, bitOf v 0] ∧
    emitted w (hbc04.SPI_WriteComm cfg v w)
      = [Ev.set cfg.csx_pin 0, Ev.set cfg.sck_pin 0, Ev.set cfg.sdi_pin 0, Ev.udelay 1,
          Ev.set cfg.sck_pin 1, Ev.udelay 1]
        ++ bitCells cfg.sck_pin cfg.sdi_pin 1
            [bitOf v 7, bitOf v 6, bitOf v 5, bitOf v 4,
             bitOf v 3, bitOf v 2, bitOf v 1, bitOf v 0] ∧
    lastLevel cfg.csx_pin (emitted w (hbc04.SPI_WriteData cfg v w)) = some 0 ∧
    lastLevel cfg.csx_pin (emitted w (hbc04.SPI_WriteComm cfg v w)) = some 0 ∧
    (hbc04.SPI_WriteData cfg v w).claimed = w.claimed ∧
    (hbc04.SPI_WriteComm cfg v w).claimed = w.claimed := by
  have hs : cfg.sck_pin ≠ cfg.csx_pin := fun e => h1 e.symm
  have hd : cfg.sdi_pin ≠ cfg.csx_pin := fun e => h2 e.symm
  rw [hbc04_SPI_WriteData_eq, hbc04_SPI_WriteComm_eq]
  simp only [emitted_app, World.app_claimed]
  refine ⟨rfl, rfl, ?_, ?_, trivial, trivial⟩
  · simp [writeFrame, msbBits, List.range, List.range.loop, bitCells, lastLevel, hs, hd]
  · simp [writeFrame, msbBits, List.range, List.range.loop, bitCells, lastLevel, hs, hd]

/-- Witness of C2 at the byte 0xA5 on the board pin assignment. -/
theorem C2_write_trace_witness :
    emitted World.init (hbc04.SPI_WriteData boardCfg04 0xA5 World.init)
      = [Ev.set 4 0, Ev.set 2 0, Ev.set 3 1, Ev.udelay 1, Ev.set 2 1, Ev.udelay 1]
        ++ bitCells 2 3 1 [1, 0, 1, 0, 0, 1, 0, 1] ∧
    lastLevel 4 (emitted World.init (hbc04.SPI_WriteData boardCfg04 0xA5 World.init))
      = some 0 :=
  have h := C2_write_trace boardCfg04 0xA5 World.init (by decide) (by decide)
  ⟨h.1, h.2.2.1⟩

/-- C3, as the code behaves: writing the data byte 0xA5 with `SPI_WriteData`
of hbc04 shows, at the clock-high instants, the framing level high followed by
high, low, high, low, low, high, low, high (the bits of 0xA5, most significant
first). -/
theorem C3_write_0xA5_samples (cfg : r61408_config) (w : World)
    (h : cfg.sck_pin ≠ cfg.sdi_pin) :
    clockHighSamples cfg.sck_pin cfg.sdi_pin (emitted w (hbc04.SPI_WriteData cfg 0xA5 w))
      = [1, 1, 0, 1, 0, 0, 1, 0, 1] := by
  have e := samples_writeFrame cfg.csx_pin cfg.sck_pin cfg.sdi_pin h 1 1 0xA5 []
    (fun _ => rfl)
  rw [List.append_nil] at e
  rw [hbc04_SPI_WriteData_eq, emitted_app, e]
  decide

/-- Witness of the amended C3 on the board pin assignment. -/
theorem C3_write_0xA5_samples_witness :
    clockHighSamples boardCfg04.sck_pin boardCfg04.sdi_pin
        (emitted World.init (hbc04.SPI_WriteData boardCfg04 0xA5 World.init))
      = [1, 1, 0, 1, 0, 0, 1, 0, 1] :=
  C3_write_0xA5_samples boardCfg04 World.init (by decide)

/-- C3 as stated fails: on the board pin assignment the levels sampled at the
clock-high instants of `SPI_WriteData(0xA5)` are not high, low, high, low,
high, high, low, high, neither with the framing bit counted nor without it. -/
theorem C3_counterexample :
    clockHighSamples boardCfg04.sck_pin boardCfg04.sdi_pin
        (emitted World.init (hbc04.SPI_WriteData boardCfg04 0xA5 World.init))
      ≠ [1, 0, 1, 0, 1, 1, 0, 1] ∧
    (clockHighSamples boardCfg04.sck_pin boardCfg04.sdi_pin
        (emitted World.init (hbc04.SPI_WriteData boardCfg04 0xA5 World.init))).tail
      ≠ [1, 0, 1, 0, 1, 1, 0, 1] := by
  decide

/-! ## Reading a byte -/

@[simp] theorem World.reads_zero (w : World) : w.reads 0 = w := rfl

@[simp] theorem World.reads_reads (w : World) (a b : Nat) :
    (w.reads a).reads b = w.reads (a + b) := by
  simp [World.reads, Nat.add_assoc]

@[simp] theorem World.reads_app (w : World) (k : Nat) (es : List Ev) :
    (w.reads k).app es = (w.app es).reads k := rfl

@[simp] theorem World.reads_trace (w : World) (k : Nat) : (w.reads k).trace = w.trace := rfl

@[simp] theorem World.reads_claimed (w : World) (k : Nat) :
    (w.reads k).claimed = w.claimed := rfl

@[simp] theorem World.reads_nreq (w : World) (k : Nat) : (w.reads k).nreq = w.nreq := rfl

@[simp] theorem World.reads_nget (w : World) (k : Nat) :
    (w.reads k).nget = w.nget + k := rfl

@[simp] theorem emitted_app_reads (w : World) (es : List Ev) (k : Nat) :
    emitted w ((w.app es).reads k) = es := by
  simp [emitted]

theorem gpio_get_value_eq (B : Backend) (pin : Int) (w : World) :
    gpio_get_value B pin w
      = (B.level w.nget pin, (w.app [Ev.get pin (B.level w.nget pin)]).reads 1) := rfl

/-- The read loop with `n` iterations remaining: the calls it makes and the
byte it returns. -/
theorem readLoop_eq (B : Backend) (cfg : r61408_config) (n : Nat) :
    ∀ (acc : Nat) (w : World), n ≤ 8 →
      (hbc04.readLoop B cfg n acc w).2
          = (w.app (readCells B cfg.sck_pin cfg.sdo_pin 1 w.nget n)).reads n ∧
      (hbc04.readLoop B cfg n acc w).1
          = ((List.range n).foldl
              (fun a j => (a ||| (B.level (w.nget + j) cfg.sdo_pin <<< (n - 1 - j))) % 256)
              acc) := by
  induction n with
  | zero => intro acc w _; simp [hbc04.readLoop, readCells]
  | succ n ih =>
      intro acc w hn
      have e : 7 - (7 - n) = n := by omega
      simp only [hbc04.readLoop, gpio_get_value_eq, gpio_set_value_eq, udelay_eq,
        hbc04.SPI_DELAY_VARIANT, e]
      constructor
      · rw [(ih _ _ (by omega)).1]
        simp [readCells, Nat.add_comm]
      · rw [(ih _ _ (by omega)).2]
        rw [List.range_succ_eq_map, List.foldl_cons, List.foldl_map]
        have e2 : ∀ j, n - 1 - j = n - (j + 1) := by intro j; omega
        simp [Nat.add_assoc, Nat.add_comm 1, e2]

theorem SPI_ReadData_eq (B : Backend) (cfg : r61408_config) (w : World) :
    hbc04.SPI_ReadData B cfg w
      = (sampledByte B cfg.sdo_pin w.nget,
          (w.app (Ev.set cfg.csx_pin 0
            :: readCells B cfg.sck_pin cfg.sdo_pin 1 w.nget 8)).reads 8) := by
  have h := readLoop_eq B cfg 8 0 (w.app [Ev.set cfg.csx_pin 0]) (le_refl 8)
  unfold hbc04.SPI_ReadData
  rw [gpio_set_value_eq]
  apply Prod.ext
  · rw [h.2]; rfl
  · rw [h.1]; simp

theorem or_fold8 (b0 b1 b2 b3 b4 b5 b6 b7 : Nat)
    (h0 : b0 ≤ 1) (h1 : b1 ≤ 1) (h2 : b2 ≤ 1) (h3 : b3 ≤ 1)
    (h4 : b4 ≤ 1) (h5 : b5 ≤ 1) (h6 : b6 ≤ 1) (h7 : b7 ≤ 1) :
    ((((((((0 ||| b0 <<< 7) % 256 ||| b1 <<< 6) % 256 ||| b2 <<< 5) % 256 ||| b3 <<< 4) % 256
        ||| b4 <<< 3) % 256 ||| b5 <<< 2) % 256 ||| b6 <<< 1) % 256 ||| b7 <<< 0) % 256
      = b0 * 2 ^ 7 + b1 * 2 ^ 6 + b2 * 2 ^ 5 + b3 * 2 ^ 4 + b4 * 2 ^ 3 + b5 * 2 ^ 2
          + b6 * 2 ^ 1 + b7 * 2 ^ 0 := by
  interval_cases b0 <;> interval_cases b1 <;> interval_cases b2 <;> interval_cases b3 <;>
  interval_cases b4 <;> interval_cases b5 <;> interval_cases b6 <;> interval_cases b7 <;> rfl

theorem bits_of_sum8 (b0 b1 b2 b3 b4 b5 b6 b7 : Nat)
    (h0 : b0 ≤ 1) (h1 : b1 ≤ 1) (h2 : b2 ≤ 1) (h3 : b3 ≤ 1)
    (h4 : b4 ≤ 1) (h5 : b5 ≤ 1) (h6 : b6 ≤ 1) (h7 : b7 ≤ 1) :
    (List.range 8).map (fun i => bitOf (b0 * 2 ^ 7 + b1 * 2 ^ 6 + b2 * 2 ^ 5 + b3 * 2 ^ 4
        + b4 * 2 ^ 3 + b5 * 2 ^ 2 + b6 * 2 ^ 1 + b7 * 2 ^ 0) (7 - i))
      = [b0, b1, b2, b3, b4, b5, b6, b7] := by
  interval_cases b0 <;> interval_cases b1 <;> interval_cases b2 <;> interval_cases b3 <;>
  interval_cases b4 <;> interval_cases b5 <;> interval_cases b6 <;> interval_cases b7 <;> rfl

theorem sampledByte_unfold (B : Backend) (pin : Int) (g : Nat) :
    sampledByte B pin g
      = ((((((((0 ||| B.level (g + 0) pin <<< 7) % 256 ||| B.level (g + 1) pin <<< 6) % 256
          ||| B.level (g + 2) pin <<< 5) % 256 ||| B.level (g + 3) pin <<< 4) % 256
          ||| B.level (g + 4) pin <<< 3) % 256 ||| B.level (g + 5) pin <<< 2) % 256
          ||| B.level (g + 6) pin <<< 1) % 256 ||| B.level (g + 7) pin <<< 0) % 256 := rfl

theorem sampledByte_sum (B : Backend) (pin : Int) (g : Nat)
    (h : ∀ i, i < 8 → B.level (g + i) pin ≤ 1) :
    sampledByte B pin g
      = B.level (g + 0) pin * 2 ^ 7 + B.level (g + 1) pin * 2 ^ 6
        + B.level (g + 2) pin * 2 ^ 5 + B.level (g + 3) pin * 2 ^ 4
        + B.level (g + 4) pin * 2 ^ 3 + B.level (g + 5) pin * 2 ^ 2
        + B.level (g + 6) pin * 2 ^ 1 + B.level (g + 7) pin * 2 ^ 0 := by
  rw [sampledByte_unfold]
  exact or_fold8 _ _ _ _ _ _ _ _ (h 0 (by omega)) (h 1 (by omega)) (h 2 (by omega))
    (h 3 (by omega)) (h 4 (by omega)) (h 5 (by omega)) (h 6 (by omega)) (h 7 (by omega))

set_option maxRecDepth 100000 in
theorem sum_bits_eq : ∀ v, v < 256 →
    bitOf v 7 * 2 ^ 7 + bitOf v 6 * 2 ^ 6 + bitOf v 5 * 2 ^ 5 + bitOf v 4 * 2 ^ 4
      + bitOf v 3 * 2 ^ 3 + bitOf v 2 * 2 ^ 2 + bitOf v 1 * 2 ^ 1 + bitOf v 0 * 2 ^ 0 = v := by
  decide

/-- C4. If the eight successive samples of data-in return levels b0..b7, each
0 or 1, `SPI_ReadData` returns the sum of b_i * 2^(7-i), the byte whose bit
`7 - i` is b_i; if data-in presents the bits of a byte `v` most significant
first it returns `v`.  Its calls are chip-select low followed by eight cells
clock low, wait 1, sample data-in, clock high, wait 1. -/
theorem C4_read_byte (B : Backend) (cfg : r61408_config) (w : World)
    (hb : ∀ i, i < 8 → B.level (w.nget + i) cfg.sdo_pin ≤ 1) :
    (hbc04.SPI_ReadData B cfg w).1
      = ∑ i in Finset.range 8, B.level (w.nget + i) cfg.sdo_pin * 2 ^ (7 - i) ∧
    (∀ i, i < 8 →
      bitOf (hbc04.SPI_ReadData B cfg w).1 (7 - i) = B.level (w.nget + i) cfg.sdo_pin) ∧
    (∀ v, v < 256 → (∀ i, i < 8 → B.level (w.nget + i) cfg.sdo_pin = bitOf v (7 - i)) →
      (hbc04.SPI_ReadData B cfg w).1 = v) ∧
    emitted w (hbc04.SPI_ReadData B cfg w).2
      = Ev.set cfg.csx_pin 0 :: readCells B cfg.sck_pin cfg.sdo_pin 1 w.nget 8 ∧
    readCells B cfg.sck_pin cfg.sdo_pin 1 w.nget 1
      = [Ev.set cfg.sck_pin 0, Ev.udelay 1, Ev.get cfg.sdo_pin (B.level w.nget cfg.sdo_pin),
          Ev.set cfg.sck_pin 1, Ev.udelay 1] := by
  have hs := sampledByte_sum B cfg.sdo_pin w.nget hb
  rw [SPI_ReadData_eq]
  simp only [emitted_app_reads]
  refine ⟨?_, ?_, ?_, trivial, rfl⟩
  · rw [hs]; simp [Finset.sum_range_succ]
  · intro i hi
    have hl := bits_of_sum8 _ _ _ _ _ _ _ _ (hb 0 (by omega)) (hb 1 (by omega))
      (hb 2 (by omega)) (hb 3 (by omega)) (hb 4 (by omega)) (hb 5 (by omega))
      (hb 6 (by omega)) (hb 7 (by omega))
    rw [hs]
    have hget := congrArg (fun l => l[i]?) hl
    simp only [List.getElem?_map, List.getElem?_range hi, Option.map_some'] at hget
    interval_cases i <;> simpa using hget
  · intro v hv hbits
    rw [hs, hbits 0 (by omega), hbits 1 (by omega), hbits 2 (by omega), hbits 3 (by omega),
      hbits 4 (by omega), hbits 5 (by omega), hbits 6 (by omega), hbits 7 (by omega)]
    exact sum_bits_eq v hv

/-- Witness of C4: a board presenting the byte 0x29 most significant first. -/
theorem C4_read_byte_witness :
    (hbc04.SPI_ReadData (feedBytes [0x29]) boardCfg04 World.init).1 = 0x29 :=
  (C4_read_byte (feedBytes [0x29]) boardCfg04 World.init (by decide)).2.2.1 0x29
    (by decide) (by decide)

/-! ## Configuration check and pin acquisition -/

/-- C5. When the chip-select, clock or data-out pin of the configuration is
absent (-1), `hbc04_init` only prints its configuration message: it makes no
pin request, direction setting, level write, level read or delay, and the
claimed pins are unchanged (none is claimed by the call). -/
theorem C5_missing_pin_refused (B : Backend) (cfg : r61408_config) (w : World)
    (h : cfg.csx_pin = -1 ∨ cfg.sck_pin = -1 ∨ cfg.sdi_pin = -1) :
    emitted w (hbc04.hbc04_init B cfg w) = [Ev.printf Msg.spiPins] ∧
    (∀ e ∈ emitted w (hbc04.hbc04_init B cfg w), e.touchesHardware = false) ∧
    requestsOf (emitted w (hbc04.hbc04_init B cfg w)) = [] ∧
    (hbc04.hbc04_init B cfg w).claimed = w.claimed ∧
    (hbc04.hbc04_init B cfg w).nreq = w.nreq ∧
    (hbc04.hbc04_init B cfg w).nget = w.nget := by
  unfold hbc04.hbc04_init
  rw [if_pos h, printf_eq]
  simp [Ev.touchesHardware, requestsOf]

/-- Witness of C5: the board configuration with the clock pin absent, on a
board that would grant every request. -/
theorem C5_missing_pin_refused_witness :
    emitted World.init
        (hbc04.hbc04_init (feedBytes []) { boardCfg04 with sck_pin := -1 } World.init)
      = [Ev.printf Msg.spiPins] ∧
    (hbc04.hbc04_init (feedBytes []) { boardCfg04 with sck_pin := -1 } World.init).claimed
      = [] :=
  have h := C5_missing_pin_refused (feedBytes []) { boardCfg04 with sck_pin := -1 }
    World.init (Or.inr (Or.inl rfl))
  ⟨h.1, h.2.2.2.1⟩

theorem gpio_request_eq (B : Backend) (p : Int) (w : World) :
    gpio_request B p w
      = (if B.grant w.nreq p w.claimed = true then 0 else -1,
          { trace := w.trace ++ [Ev.request p (B.grant w.nreq p w.claimed)],
            claimed := if B.grant w.nreq p w.claimed = true then p :: w.claimed else w.claimed,
            nreq := w.nreq + 1,
            nget := w.nget }) := rfl

set_option maxHeartbeats 1000000 in
/-- The outcomes of `r61408_enable_gpio`, by the first request that is refused. -/
theorem hbc04_enable_cases (B : Backend) (cfg : r61408_config) (w : World) :
    hbc04.r61408_enable_gpio B cfg w =
      if B.grant w.nreq cfg.csx_pin w.claimed = false then
        (1, { trace := w.trace ++ [Ev.request cfg.csx_pin false, Ev.printf Msg.reqCsx],
              claimed := w.claimed, nreq := w.nreq + 1, nget := w.nget })
      else if B.grant (w.nreq + 1) cfg.sck_pin (cfg.csx_pin :: w.claimed) = false then
        (1, { trace := w.trace ++ [Ev.request cfg.csx_pin true, Ev.request cfg.sck_pin false,
                Ev.free cfg.csx_pin, Ev.printf Msg.reqSck],
              claimed := (cfg.csx_pin :: w.claimed).erase cfg.csx_pin,
              nreq := w.nreq + 2, nget := w.nget })
      else if B.grant (w.nreq + 2) cfg.sdi_pin (cfg.sck_pin :: cfg.csx_pin :: w.claimed)
          = false then
        (1, { trace := w.trace ++ [Ev.request cfg.csx_pin true, Ev.request cfg.sck_pin true,
                Ev.request cfg.sdi_pin false,
                Ev.free cfg.csx_pin, Ev.free cfg.sck_pin, Ev.printf Msg.reqSdi],
              claimed := ((cfg.sck_pin :: cfg.csx_pin :: w.claimed).erase cfg.csx_pin).erase
                cfg.sck_pin,
              nreq := w.nreq + 3, nget := w.nget })
      else if B.grant (w.nreq + 3) cfg.reset_pin
          (cfg.sdi_pin :: cfg.sck_pin :: cfg.csx_pin :: w.claimed) = false then
        (1, { trace := w.trace ++ [Ev.request cfg.csx_pin true, Ev.request cfg.sck_pin true,
                Ev.request cfg.sdi_pin true, Ev.request cfg.reset_pin false,
                Ev.free cfg.csx_pin, Ev.free cfg.sck_pin, Ev.free cfg.sdi_pin,
                Ev.printf Msg.reqReset],
              claimed := (((cfg.sdi_pin :: cfg.sck_pin :: cfg.csx_pin :: w.claimed).erase
                cfg.csx_pin).erase cfg.sck_pin).erase cfg.sdi_pin,
              nreq := w.nreq + 4, nget := w.nget })
      else if cfg.sdo_pin = -1 then
        (0, { trace := w.trace ++ [Ev.request cfg.csx_pin true, Ev.request cfg.sck_pin true,
                Ev.request cfg.sdi_pin true, Ev.request cfg.reset_pin true,
                Ev.dirOut cfg.reset_pin 1, Ev.dirOut cfg.csx_pin 1, Ev.dirOut cfg.sck_pin 1,
                Ev.dirOut cfg.sdi_pin 1],
              claimed := cfg.reset_pin :: cfg.sdi_pin :: cfg.sck_pin :: cfg.csx_pin :: w.claimed,
              nreq := w.nreq + 4, nget := w.nget })
      else if B.grant (w.nreq + 4) cfg.sdo_pin
          (cfg.reset_pin :: cfg.sdi_pin :: cfg.sck_pin :: cfg.csx_pin :: w.claimed) = false then
        (1, { trace := w.trace ++ [Ev.request cfg.csx_pin true, Ev.request cfg.sck_pin true,
                Ev.request cfg.sdi_pin true, Ev.request cfg.reset_pin true,
                Ev.request cfg.sdo_pin false,
                Ev.free cfg.csx_pin, Ev.free cfg.sck_pin, Ev.free cfg.sdi_pin,
                Ev.free cfg.reset_pin, Ev.printf Msg.reqSdo],
              claimed := ((((cfg.reset_pin :: cfg.sdi_pin :: cfg.sck_pin :: cfg.csx_pin
                :: w.claimed).erase cfg.csx_pin).erase cfg.sck_pin).erase cfg.sdi_pin).erase
                cfg.reset_pin,
              nreq := w.nreq + 5, nget := w.nget })
      else
        (0, { trace := w.trace ++ [Ev.request cfg.csx_pin true, Ev.request cfg.sck_pin true,
                Ev.request cfg.sdi_pin true, Ev.request cfg.reset_pin true,
                Ev.request cfg.sdo_pin true,
                Ev.dirOut cfg.reset_pin 1, Ev.dirOut cfg.csx_pin 1, Ev.dirOut cfg.sck_pin 1,
                Ev.dirOut cfg.sdi_pin 1, Ev.dirIn cfg.sdo_pin],
              claimed := cfg.sdo_pin :: cfg.reset_pin :: cfg.sdi_pin :: cfg.sck_pin
                :: cfg.csx_pin :: w.claimed,
              nreq := w.nreq + 5, nget := w.nget }) := by
  unfold hbc04.r61408_enable_gpio
  simp only [gpio_request_eq, gpio_free, printf, emit, gpio_direction_output,
    gpio_direction_input]
  cases h1 : B.grant w.nreq cfg.csx_pin w.claimed
  · simp
  cases h2 : B.grant (w.nreq + 1) cfg.sck_pin (cfg.csx_pin :: w.claimed)
  · simp [h2]
  cases h3 : B.grant (w.nreq + 2) cfg.sdi_pin (cfg.sck_pin :: cfg.csx_pin :: w.claimed)
  · simp [h2, h3]
  cases h4 : B.grant (w.nreq + 3) cfg.reset_pin
      (cfg.sdi_pin :: cfg.sck_pin :: cfg.csx_pin :: w.claimed)
  · simp [h2, h3, h4]
  by_cases h5 : cfg.sdo_pin = -1
  · simp [h2, h3, h4, h5]
  cases h6 : B.grant (w.nreq + 4) cfg.sdo_pin
      (cfg.reset_pin :: cfg.sdi_pin :: cfg.sck_pin :: cfg.csx_pin :: w.claimed)
  · simp [h2, h3, h4, h5, h6]
  · simp [h2, h3, h4, h5, h6]

set_option maxHeartbeats 1000000 in
/-- The outcomes of `ssd2828_enable_gpio`, by the first request that is refused. -/
theorem hbc068_enable_cases (B : Backend) (cfg : ssd2828_config) (w : World) :
    hbc068.ssd2828_enable_gpio B cfg w =
      if B.grant w.nreq cfg.csx_pin w.claimed = false then
        (1, { trace := w.trace ++ [Ev.request cfg.csx_pin false, Ev.printf Msg.reqCsx],
              claimed := w.claimed, nreq := w.nreq + 1, nget := w.nget })
      else if B.grant (w.nreq + 1) cfg.sck_pin (cfg.csx_pin :: w.claimed) = false then
        (1, { trace := w.trace ++ [Ev.request cfg.csx_pin true, Ev.request cfg.sck_pin false,
                Ev.free cfg.csx_pin, Ev.printf Msg.reqSck],
              claimed := (cfg.csx_pin :: w.claimed).erase cfg.csx_pin,
              nreq := w.nreq + 2, nget := w.nget })
      else if B.grant (w.nreq + 2) cfg.sdi_pin (cfg.sck_pin :: cfg.csx_pin :: w.claimed)
          = false then
        (1, { trace := w.trace ++ [Ev.request cfg.csx_pin true, Ev.request cfg.sck_pin true,
                Ev.request cfg.sdi_pin false,
                Ev.free cfg.csx_pin, Ev.free cfg.sck_pin, Ev.printf Msg.reqSdi],
              claimed := ((cfg.sck_pin :: cfg.csx_pin :: w.claimed).erase cfg.csx_pin).erase
                cfg.sck_pin,
              nreq := w.nreq + 3, nget := w.nget })
      else if B.grant (w.nreq + 3) cfg.reset_pin
          (cfg.sdi_pin :: cfg.sck_pin :: cfg.csx_pin :: w.claimed) = false then
        (1, { trace := w.trace ++ [Ev.request cfg.csx_pin true, Ev.request cfg.sck_pin true,
                Ev.request cfg.sdi_pin true, Ev.request cfg.reset_pin false,
                Ev.free cfg.csx_pin, Ev.free cfg.sck_pin, Ev.free cfg.sdi_pin,
                Ev.printf Msg.reqReset],
              claimed := (((cfg.sdi_pin :: cfg.sck_pin :: cfg.csx_pin :: w.claimed).erase
                cfg.csx_pin).erase cfg.sck_pin).erase cfg.sdi_pin,
              nreq := w.nreq + 4, nget := w.nget })
      else if cfg.sdo_pin = -1 then
        (0, { trace := w.trace ++ [Ev.request cfg.csx_pin true, Ev.request cfg.sck_pin true,
                Ev.request cfg.sdi_pin true, Ev.request cfg.reset_pin true,
                Ev.dirOut cfg.reset_pin 0, Ev.dirOut cfg.csx_pin 1, Ev.dirOut cfg.sck_pin 1,
                Ev.dirOut cfg.sdi_pin 1],
              claimed := cfg.reset_pin :: cfg.sdi_pin :: cfg.sck_pin :: cfg.csx_pin :: w.claimed,
              nreq := w.nreq + 4, nget := w.nget })
      else if B.grant (w.nreq + 4) cfg.sdo_pin
          (cfg.reset_pin :: cfg.sdi_pin :: cfg.sck_pin :: cfg.csx_pin :: w.claimed) = false then
        (1, { trace := w.trace ++ [Ev.request cfg.csx_pin true, Ev.request cfg.sck_pin true,
                Ev.request cfg.sdi_pin true, Ev.request cfg.reset_pin true,
                Ev.request cfg.sdo_pin false,
                Ev.free cfg.csx_pin, Ev.free cfg.sck_pin, Ev.free cfg.sdi_pin,
                Ev.free cfg.reset_pin, Ev.printf Msg.reqSdo],
              claimed := ((((cfg.reset_pin :: cfg.sdi_pin :: cfg.sck_pin :: cfg.csx_pin
                :: w.claimed).erase cfg.csx_pin).erase cfg.sck_pin).erase cfg.sdi_pin).erase
                cfg.reset_pin,
              nreq := w.nreq + 5, nget := w.nget })
      else
        (0, { trace := w.trace ++ [Ev.request cfg.csx_pin true, Ev.request cfg.sck_pin true,
                Ev.request cfg.sdi_pin true, Ev.request cfg.reset_pin true,
                Ev.request cfg.sdo_pin true,
                Ev.dirOut cfg.reset_pin 0, Ev.dirOut cfg.csx_pin 1, Ev.dirOut cfg.sck_pin 1,
                Ev.dirOut cfg.sdi_pin 1, Ev.dirIn cfg.sdo_pin],
              claimed := cfg.sdo_pin :: cfg.reset_pin :: cfg.sdi_pin :: cfg.sck_pin
                :: cfg.csx_pin :: w.claimed,
              nreq := w.nreq + 5, nget := w.nget }) := by
  unfold hbc068.ssd2828_enable_gpio
  simp only [gpio_request_eq, gpio_free, printf, emit, gpio_direction_output,
    gpio_direction_input]
  cases h1 : B.grant w.nreq cfg.csx_pin w.claimed
  · simp
  cases h2 : B.grant (w.nreq + 1) cfg.sck_pin (cfg.csx_pin :: w.claimed)
  · simp [h2]
  cases h3 : B.grant (w.nreq + 2) cfg.sdi_pin (cfg.sck_pin :: cfg.csx_pin :: w.claimed)
  · simp [h2, h3]
  cases h4 : B.grant (w.nreq + 3) cfg.reset_pin
      (cfg.sdi_pin :: cfg.sck_pin :: cfg.csx_pin :: w.claimed)
  · simp [h2, h3, h4]
  by_cases h5 : cfg.sdo_pin = -1
  · simp [h2, h3, h4, h5]
  cases h6 : B.grant (w.nreq + 4) cfg.sdo_pin
      (cfg.reset_pin :: cfg.sdi_pin :: cfg.sck_pin :: cfg.csx_pin :: w.claimed)
  · simp [h2, h3, h4, h5, h6]
  · simp [h2, h3, h4, h5, h6]


@[simp] theorem emitted_mk (w : World) (es : List Ev) (c : List Int) (n g : Nat) :
    emitted w { trace := w.trace ++ es, claimed := c, nreq := n, nget := g } = es := by
  simp [emitted]

/-- When `r61408_enable_gpio` fails, every pin is freed as often as it was
granted, none was granted twice, and the claimed pins are as before. -/
theorem hbc04_enable_no_leak (B : Backend) (cfg : r61408_config) (w : World)
    (hd : [cfg.csx_pin, cfg.sck_pin, cfg.sdi_pin, cfg.reset_pin].Nodup)
    (hr : (hbc04.r61408_enable_gpio B cfg w).1 ≠ 0) :
    (∀ p, (emitted w (hbc04.r61408_enable_gpio B cfg w).2).count (Ev.free p)
        = (emitted w (hbc04.r61408_enable_gpio B cfg w).2).count (Ev.request p true)) ∧
    (∀ p, (emitted w (hbc04.r61408_enable_gpio B cfg w).2).count (Ev.request p true) ≤ 1) ∧
    (hbc04.r61408_enable_gpio B cfg w).2.claimed = w.claimed := by
  simp only [List.nodup_cons, List.mem_cons, List.mem_singleton, not_or, List.not_mem_nil,
    not_false_eq_true, List.nodup_nil, and_true] at hd
  obtain ⟨⟨a12, a13, a14⟩, ⟨a23, a24⟩, a34⟩ := hd
  have hc := hbc04_enable_cases B cfg w
  generalize hbc04.r61408_enable_gpio B cfg w = x at hc hr ⊢
  split_ifs at hc <;> subst hc <;>
    simp [List.count_cons, a12, a13, a14, a23, a24, a34, Ne.symm a12, Ne.symm a13,
      Ne.symm a14, Ne.symm a23, Ne.symm a24, Ne.symm a34] at hr ⊢
  all_goals (intro p; split_ifs <;> omega)

/-- When `ssd2828_enable_gpio` fails, every pin is freed as often as it was
granted, none was granted twice, and the claimed pins are as before. -/
theorem hbc068_enable_no_leak (B : Backend) (cfg : ssd2828_config) (w : World)
    (hd : [cfg.csx_pin, cfg.sck_pin, cfg.sdi_pin, cfg.reset_pin].Nodup)
    (hr : (hbc068.ssd2828_enable_gpio B cfg w).1 ≠ 0) :
    (∀ p, (emitted w (hbc068.ssd2828_enable_gpio B cfg w).2).count (Ev.free p)
        = (emitted w (hbc068.ssd2828_enable_gpio B cfg w).2).count (Ev.request p true)) ∧
    (∀ p, (emitted w (hbc068.ssd2828_enable_gpio B cfg w).2).count (Ev.request p true) ≤ 1) ∧
    (hbc068.ssd2828_enable_gpio B cfg w).2.claimed = w.claimed := by
  simp only [List.nodup_cons, List.mem_cons, List.mem_singleton, not_or, List.not_mem_nil,
    not_false_eq_true, List.nodup_nil, and_true] at hd
  obtain ⟨⟨a12, a13, a14⟩, ⟨a23, a24⟩, a34⟩ := hd
  have hc := hbc068_enable_cases B cfg w
  generalize hbc068.ssd2828_enable_gpio B cfg w = x at hc hr ⊢
  split_ifs at hc <;> subst hc <;>
    simp [List.count_cons, a12, a13, a14, a23, a24, a34, Ne.symm a12, Ne.symm a13,
      Ne.symm a14, Ne.symm a23, Ne.symm a24, Ne.symm a34] at hr ⊢
  all_goals (intro p; split_ifs <;> omega)

/-- C6. No leaked claims: whatever the pin requests answer, if
`r61408_enable_gpio` (hbc04) or `ssd2828_enable_gpio` (hbc068) returns
non-zero, then every pin is freed exactly as often as it was granted in the
call, no pin was granted more than once, and the claimed pins are the same as
before the call (chip-select, clock, data-out and reset pairwise distinct). -/
theorem C6_no_leaked_claims (B : Backend) (c4 : r61408_config) (c68 : ssd2828_config)
    (w : World)
    (hd4 : [c4.csx_pin, c4.sck_pin, c4.sdi_pin, c4.reset_pin].Nodup)
    (hd68 : [c68.csx_pin, c68.sck_pin, c68.sdi_pin, c68.reset_pin].Nodup) :
    ((hbc04.r61408_enable_gpio B c4 w).1 ≠ 0 →
      (∀ p, (emitted w (hbc04.r61408_enable_gpio B c4 w).2).count (Ev.free p)
          = (emitted w (hbc04.r61408_enable_gpio B c4 w).2).count (Ev.request p true)) ∧
      (∀ p, (emitted w (hbc04.r61408_enable_gpio B c4 w).2).count (Ev.request p true) ≤ 1) ∧
      (hbc04.r61408_enable_gpio B c4 w).2.claimed = w.claimed) ∧
    ((hbc068.ssd2828_enable_gpio B c68 w).1 ≠ 0 →
      (∀ p, (emitted w (hbc068.ssd2828_enable_gpio B c68 w).2).count (Ev.free p)
          = (emitted w (hbc068.ssd2828_enable_gpio B c68 w).2).count (Ev.request p true)) ∧
      (∀ p, (emitted w (hbc068.ssd2828_enable_gpio B c68 w).2).count (Ev.request p true) ≤ 1) ∧
      (hbc068.ssd2828_enable_gpio B c68 w).2.claimed = w.claimed) :=
  ⟨hbc04_enable_no_leak B c4 w hd4, hbc068_enable_no_leak B c68 w hd68⟩

/-- Which requests `r61408_enable_gpio` makes, and that a failing call does
nothing but request, free and print. -/
theorem hbc04_enable_requests (B : Backend) (cfg : r61408_config) (w : World) :
    ((hbc04.r61408_enable_gpio B cfg w).1 ≠ 0 ↔
      ∃ p, (p, false) ∈ requestsOf (emitted w (hbc04.r61408_enable_gpio B cfg w).2)) ∧
    (requestsOf (emitted w (hbc04.r61408_enable_gpio B cfg w).2)).map Prod.fst
      <+: requiredPins cfg.csx_pin cfg.sck_pin cfg.sdi_pin cfg.reset_pin cfg.sdo_pin ∧
    ((hbc04.r61408_enable_gpio B cfg w).1 = 0 →
      (requestsOf (emitted w (hbc04.r61408_enable_gpio B cfg w).2)).map Prod.fst
        = requiredPins cfg.csx_pin cfg.sck_pin cfg.sdi_pin cfg.reset_pin cfg.sdo_pin) ∧
    (∀ q ∈ (requestsOf (emitted w (hbc04.r61408_enable_gpio B cfg w).2)).dropLast, q.2 = true) ∧
    ((hbc04.r61408_enable_gpio B cfg w).1 ≠ 0 →
      ∀ e ∈ emitted w (hbc04.r61408_enable_gpio B cfg w).2, e.isBusActivity = false) := by
  have hc := hbc04_enable_cases B cfg w
  generalize hbc04.r61408_enable_gpio B cfg w = x at hc ⊢
  split_ifs at hc with h1 h2 h3 h4 h5 h6 <;> subst hc <;>
    simp [requestsOf, requiredPins, Ev.isBusActivity, *]


/-- Which requests `ssd2828_enable_gpio` makes, and that a failing call does
nothing but request, free and print. -/
theorem hbc068_enable_requests (B : Backend) (cfg : ssd2828_config) (w : World) :
    ((hbc068.ssd2828_enable_gpio B cfg w).1 ≠ 0 ↔
      ∃ p, (p, false) ∈ requestsOf (emitted w (hbc068.ssd2828_enable_gpio B cfg w).2)) ∧
    (requestsOf (emitted w (hbc068.ssd2828_enable_gpio B cfg w).2)).map Prod.fst
      <+: requiredPins cfg.csx_pin cfg.sck_pin cfg.sdi_pin cfg.reset_pin cfg.sdo_pin ∧
    ((hbc068.ssd2828_enable_gpio B cfg w).1 = 0 →
      (requestsOf (emitted w (hbc068.ssd2828_enable_gpio B cfg w).2)).map Prod.fst
        = requiredPins cfg.csx_pin cfg.sck_pin cfg.sdi_pin cfg.reset_pin cfg.sdo_pin) ∧
    (∀ q ∈ (requestsOf (emitted w (hbc068.ssd2828_enable_gpio B cfg w).2)).dropLast, q.2 = true) ∧
    ((hbc068.ssd2828_enable_gpio B cfg w).1 ≠ 0 →
      ∀ e ∈ emitted w (hbc068.ssd2828_enable_gpio B cfg w).2, e.isBusActivity = false) := by
  have hc := hbc068_enable_cases B cfg w
  generalize hbc068.ssd2828_enable_gpio B cfg w = x at hc ⊢
  split_ifs at hc with h1 h2 h3 h4 h5 h6 <;> subst hc <;>
    simp [requestsOf, requiredPins, Ev.isBusActivity, *]


theorem hbc04_init_of_fail (B : Backend) (cfg : r61408_config) (w : World)
    (hr : (hbc04.r61408_enable_gpio B cfg w).1 ≠ 0) :
    hbc04.R61408_Init B cfg w = (hbc04.r61408_enable_gpio B cfg w).2 := by
  rw [hbc04.R61408_Init]
  exact if_pos hr

theorem hbc068_init_of_fail (B : Backend) (cfg : ssd2828_config) (w : World)
    (hr : (hbc068.ssd2828_enable_gpio B cfg w).1 ≠ 0) :
    hbc068.HX8394_Init B cfg w = (hbc068.ssd2828_enable_gpio B cfg w).2 := by
  rw [hbc068.HX8394_Init]
  exact if_pos hr

/-- Witness of C6: on a board refusing the third request (data-out), both
acquisition functions fail and leave no pin claimed. -/
theorem C6_no_leaked_claims_witness :
    (hbc04.r61408_enable_gpio (refuseNth 2) boardCfg04 World.init).2.claimed = [] ∧
    (hbc068.ssd2828_enable_gpio (refuseNth 2) boardCfg068 World.init).2.claimed = [] :=
  have h := C6_no_leaked_claims (refuseNth 2) boardCfg04 boardCfg068 World.init
    (by decide) (by decide)
  ⟨(h.1 (by decide)).2.2, (h.2 (by decide)).2.2⟩

/-- C7. Acquisition fails exactly when a pin request fails, and before any bus
activity.  For `r61408_enable_gpio` and `ssd2828_enable_gpio`: the result is
non-zero if and only if one of the requests of the call failed; the requests
are made for chip-select, clock, data-out, reset and (only when `sdo_pin` is
not -1) data-in, in this order, all of them when the call succeeds; every
request but the last was granted, so none follows a failing one; and when the
result is non-zero `R61408_Init` / `HX8394_Init` return at once, the whole
call having made no direction setting, level write, level read or delay. -/
theorem C7_acquisition_failure (B : Backend) (c4 : r61408_config) (c68 : ssd2828_config)
    (w : World) :
    (((hbc04.r61408_enable_gpio B c4 w).1 ≠ 0 ↔
        ∃ p, (p, false) ∈ requestsOf (emitted w (hbc04.r61408_enable_gpio B c4 w).2)) ∧
      (requestsOf (emitted w (hbc04.r61408_enable_gpio B c4 w).2)).map Prod.fst
        <+: requiredPins c4.csx_pin c4.sck_pin c4.sdi_pin c4.reset_pin c4.sdo_pin ∧
      ((hbc04.r61408_enable_gpio B c4 w).1 = 0 →
        (requestsOf (emitted w (hbc04.r61408_enable_gpio B c4 w).2)).map Prod.fst
          = requiredPins c4.csx_pin c4.sck_pin c4.sdi_pin c4.reset_pin c4.sdo_pin) ∧
      (∀ q ∈ (requestsOf (emitted w (hbc04.r61408_enable_gpio B c4 w).2)).dropLast,
        q.2 = true) ∧
      ((hbc04.r61408_enable_gpio B c4 w).1 ≠ 0 →
        hbc04.R61408_Init B c4 w = (hbc04.r61408_enable_gpio B c4 w).2 ∧
        ∀ e ∈ emitted w (hbc04.R61408_Init B c4 w), e.isBusActivity = false)) ∧
    (((hbc068.ssd2828_enable_gpio B c68 w).1 ≠ 0 ↔
        ∃ p, (p, false) ∈ requestsOf (emitted w (hbc068.ssd2828_enable_gpio B c68 w).2)) ∧
      (requestsOf (emitted w (hbc068.ssd2828_enable_gpio B c68 w).2)).map Prod.fst
        <+: requiredPins c68.csx_pin c68.sck_pin c68.sdi_pin c68.reset_pin c68.sdo_pin ∧
      ((hbc068.ssd2828_enable_gpio B c68 w).1 = 0 →
        (requestsOf (emitted w (hbc068.ssd2828_enable_gpio B c68 w).2)).map Prod.fst
          = requiredPins c68.csx_pin c68.sck_pin c68.sdi_pin c68.reset_pin c68.sdo_pin) ∧
      (∀ q ∈ (requestsOf (emitted w (hbc068.ssd2828_enable_gpio B c68 w).2)).dropLast,
        q.2 = true) ∧
      ((hbc068.ssd2828_enable_gpio B c68 w).1 ≠ 0 →
        hbc068.HX8394_Init B c68 w = (hbc068.ssd2828_enable_gpio B c68 w).2 ∧
        ∀ e ∈ emitted w (hbc068.HX8394_Init B c68 w), e.isBusActivity = false)) := by
  obtain ⟨a1, a2, a3, a4, a5⟩ := hbc04_enable_requests B c4 w
  obtain ⟨b1, b2, b3, b4, b5⟩ := hbc068_enable_requests B c68 w
  refine ⟨⟨a1, a2, a3, a4, fun hr => ⟨hbc04_init_of_fail B c4 w hr, ?_⟩⟩,
    ⟨b1, b2, b3, b4, fun hr => ⟨hbc068_init_of_fail B c68 w hr, ?_⟩⟩⟩
  · rw [hbc04_init_of_fail B c4 w hr]; exact a5 hr
  · rw [hbc068_init_of_fail B c68 w hr]; exact b5 hr

/-- Witness of C7: on a board refusing the third request, `R61408_Init` and
`HX8394_Init` perform no bus activity. -/
theorem C7_acquisition_failure_witness :
    (∀ e ∈ emitted World.init (hbc04.R61408_Init (refuseNth 2) boardCfg04 World.init),
      e.isBusActivity = false) ∧
    (∀ e ∈ emitted World.init (hbc068.HX8394_Init (refuseNth 2) boardCfg068 World.init),
      e.isBusActivity = false) :=
  have h := C7_acquisition_failure (refuseNth 2) boardCfg04 boardCfg068 World.init
  ⟨(h.1.2.2.2.2 (by decide)).2, (h.2.2.2.2.2 (by decide)).2⟩

/-! ## The detection step of `R61408_Init` -/

theorem hbc04_run_eq (cfg : r61408_config) (ss : List hbc04.Stmt) :
    ∀ w : World, hbc04.run cfg ss w = w.app (hbc04.traceOf cfg ss) := by
  induction ss with
  | nil => intro w; simp [hbc04.run, hbc04.traceOf]
  | cons s ss ih =>
      intro w
      rw [hbc04.run, ih]
      cases s <;>
        simp [hbc04.Stmt.exec, hbc04.Stmt.trace, hbc04.traceOf, hbc04_SPI_WriteComm_eq,
          hbc04_SPI_WriteData_eq, gpio_set_value_eq, mdelay_eq]

theorem hbc04_init_of_ok (B : Backend) (cfg : r61408_config) (w : World)
    (hr : (hbc04.r61408_enable_gpio B cfg w).1 = 0) :
    hbc04.R61408_Init B cfg w =
      if sampledByte B cfg.sdo_pin ((hbc04.r61408_enable_gpio B cfg w).2.nget + 24) = 0x15 ∧
          sampledByte B cfg.sdo_pin ((hbc04.r61408_enable_gpio B cfg w).2.nget + 32) = 0x29 then
        (((hbc04.r61408_enable_gpio B cfg w).2).app
          (hbc04.resetTrace cfg
            ++ hbc04.detectTrace B cfg (hbc04.r61408_enable_gpio B cfg w).2.nget
            ++ Ev.printf Msg.found :: hbc04.traceOf cfg hbc04.r61529_Reg_Fill_body
            ++ [Ev.set cfg.csx_pin 1])).reads 40
      else
        (((hbc04.r61408_enable_gpio B cfg w).2).app
          (hbc04.resetTrace cfg
            ++ hbc04.detectTrace B cfg (hbc04.r61408_enable_gpio B cfg w).2.nget
            ++ [Ev.set cfg.csx_pin 1])).reads 40 := by
  rw [hbc04.R61408_Init]
  generalize hbc04.r61408_enable_gpio B cfg w = x at hr ⊢
  simp only [hr, ne_eq, not_true_eq_false, if_false]
  simp only [hbc04_SPI_WriteComm_eq,
    hbc04_SPI_WriteData_eq, SPI_ReadData_eq, gpio_set_value_eq, mdelay_eq, printf_eq,
    hbc04.r61529_Reg_Fill, hbc04_run_eq, World.app_app, World.reads_app, World.reads_reads,
    World.app_nget, World.reads_nget]
  split <;>
    simp only [hbc04.resetTrace, hbc04.detectTrace, hbc04.readFrame, List.append_assoc,
      List.cons_append, List.nil_append, List.singleton_append, World.reads_app,
      World.app_app, Nat.reduceAdd]


/-- A successful `r61408_enable_gpio` makes the calls of `acquireTrace`, claims
the required pins and answers no level read. -/
theorem hbc04_enable_ok (B : Backend) (cfg : r61408_config) (w w1 : World)
    (h : hbc04.r61408_enable_gpio B cfg w = (0, w1)) :
    w1 = { trace := w.trace ++ hbc04.acquireTrace cfg,
           claimed := (requiredPins cfg.csx_pin cfg.sck_pin cfg.sdi_pin cfg.reset_pin
              cfg.sdo_pin).reverse ++ w.claimed,
           nreq := w.nreq + (requiredPins cfg.csx_pin cfg.sck_pin cfg.sdi_pin cfg.reset_pin
              cfg.sdo_pin).length,
           nget := w.nget } := by
  have hc := hbc04_enable_cases B cfg w
  rw [h] at hc
  split_ifs at hc with h1 h2 h3 h4 h5 h6 <;>
    simp only [Prod.mk.injEq, zero_ne_one, false_and] at hc
  · rw [hc.2]; simp [hbc04.acquireTrace, requiredPins, h5]
  · rw [hc.2]; simp [hbc04.acquireTrace, requiredPins, h5]

theorem count_printf_bitCells (m : Msg) (sck sdi : Int) (d : Nat) (bs : List Nat) :
    (bitCells sck sdi d bs).count (Ev.printf m) = 0 := by
  induction bs with
  | nil => rfl
  | cons b bs ih => simp [bitCells, List.count_cons, ih]

theorem count_printf_writeFrame (m : Msg) (csx sck sdi : Int) (d flag v : Nat) :
    (writeFrame csx sck sdi d flag v).count (Ev.printf m) = 0 := by
  simp [writeFrame, List.count_cons, count_printf_bitCells]

theorem count_printf_readCells (m : Msg) (B : Backend) (sck sdo : Int) (d : Nat) (k : Nat) :
    ∀ g, (readCells B sck sdo d g k).count (Ev.printf m) = 0 := by
  induction k with
  | zero => intro g; rfl
  | succ k ih => intro g; simp [readCells, List.count_cons, ih]

theorem count_printf_traceOf (m : Msg) (cfg : r61408_config) (ss : List hbc04.Stmt) :
    (hbc04.traceOf cfg ss).count (Ev.printf m) = 0 := by
  induction ss with
  | nil => rfl
  | cons s ss ih =>
      cases s <;>
        simp [hbc04.traceOf, hbc04.Stmt.trace, List.count_cons, ih, count_printf_writeFrame]

theorem count_printf_detect (m : Msg) (B : Backend) (cfg : r61408_config) (g : Nat) :
    (hbc04.resetTrace cfg ++ hbc04.detectTrace B cfg g).count (Ev.printf m) = 0 := by
  simp [hbc04.resetTrace, hbc04.detectTrace, hbc04.readFrame, List.count_cons,
    count_printf_writeFrame, count_printf_readCells]


theorem nthRead_eq (B : Backend) (cfg : r61408_config) (w1 : World) (k : Nat) :
    hbc04.nthRead B cfg w1 k = sampledByte B cfg.sdo_pin (w1.nget + 8 * k) := by
  simp [hbc04.nthRead, SPI_ReadData_eq]

/-- The calls of `R61408_Init` after a successful acquisition. -/
theorem hbc04_init_trace (B : Backend) (cfg : r61408_config) (w w1 : World)
    (h : hbc04.r61408_enable_gpio B cfg w = (0, w1)) :
    (hbc04.R61408_Init B cfg w).nget = w1.nget + 40 ∧
    (hbc04.R61408_Init B cfg w).claimed = w1.claimed ∧
    emitted w1 (hbc04.R61408_Init B cfg w)
      = hbc04.resetTrace cfg ++ hbc04.detectTrace B cfg w1.nget
        ++ (if hbc04.nthRead B cfg w1 3 = 0x15 ∧ hbc04.nthRead B cfg w1 4 = 0x29 then
              Ev.printf Msg.found :: hbc04.traceOf cfg hbc04.r61529_Reg_Fill_body
            else [])
        ++ [Ev.set cfg.csx_pin 1] := by
  have hr : (hbc04.r61408_enable_gpio B cfg w).1 = 0 := by rw [h]
  have e := hbc04_init_of_ok B cfg w hr
  rw [h] at e
  simp only at e
  rw [e, nthRead_eq, nthRead_eq]
  split <;> simp

/-- C8. Detection branch: after a successful acquisition, `R61408_Init` runs the
revision-specific sequence `r61529_Reg_Fill` exactly once if the two compared
read-back bytes (those returned by the fourth and fifth `SPI_ReadData`) are
0x15 and 0x29, and not at all for any other pair; both ways the call runs to
its last statement, which drives chip-select high. -/
theorem C8_detection_branch (B : Backend) (cfg : r61408_config) (w w1 : World)
    (h : hbc04.r61408_enable_gpio B cfg w = (0, w1)) :
    (hbc04.nthRead B cfg w1 3 = 0x15 ∧ hbc04.nthRead B cfg w1 4 = 0x29 →
      emitted w1 (hbc04.R61408_Init B cfg w)
        = hbc04.resetTrace cfg ++ hbc04.detectTrace B cfg w1.nget
          ++ [Ev.printf Msg.found]
          ++ emitted w1 (hbc04.r61529_Reg_Fill cfg w1)
          ++ [Ev.set cfg.csx_pin 1] ∧
      (emitted w1 (hbc04.R61408_Init B cfg w)).count (Ev.printf Msg.found) = 1) ∧
    (¬ (hbc04.nthRead B cfg w1 3 = 0x15 ∧ hbc04.nthRead B cfg w1 4 = 0x29) →
      emitted w1 (hbc04.R61408_Init B cfg w)
        = hbc04.resetTrace cfg ++ hbc04.detectTrace B cfg w1.nget
          ++ [Ev.set cfg.csx_pin 1] ∧
      (emitted w1 (hbc04.R61408_Init B cfg w)).count (Ev.printf Msg.found) = 0) ∧
    (∀ w2, emitted w2 (hbc04.r61529_Reg_Fill cfg w2)
        = hbc04.traceOf cfg hbc04.r61529_Reg_Fill_body) ∧
    (emitted w1 (hbc04.R61408_Init B cfg w)).getLast? = some (Ev.set cfg.csx_pin 1) := by
  have hfill : ∀ w2, emitted w2 (hbc04.r61529_Reg_Fill cfg w2)
      = hbc04.traceOf cfg hbc04.r61529_Reg_Fill_body := by
    intro w2; rw [hbc04.r61529_Reg_Fill, hbc04_run_eq, emitted_app]
  have ht := (hbc04_init_trace B cfg w w1 h).2.2
  have hd := count_printf_detect Msg.found B cfg w1.nget
  have hf := count_printf_traceOf Msg.found cfg hbc04.r61529_Reg_Fill_body
  refine ⟨fun hm => ?_, fun hm => ?_, hfill, ?_⟩
  · rw [ht, if_pos hm, hfill]
    refine ⟨by simp, ?_⟩
    rw [List.count_append, List.count_append, hd, List.count_cons, hf]
    simp
  · rw [ht, if_neg hm]
    refine ⟨by simp, ?_⟩
    rw [List.count_append, List.count_append, hd]
    simp
  · rw [ht]; simp

/-- Witness of C8: the board shows 0x15 and 0x29 as fourth and fifth byte. -/
theorem C8_detection_branch_witness :
    (emitted boardAcquired04
        (hbc04.R61408_Init (feedBytes [0, 0, 0, 0x15, 0x29]) boardCfg04 World.init)).count
      (Ev.printf Msg.found) = 1 :=
  ((C8_detection_branch (feedBytes [0, 0, 0, 0x15, 0x29]) boardCfg04 World.init
    boardAcquired04 (by decide)).1 (by decide)).2

theorem readFrame_eq_emitted (B : Backend) (cfg : r61408_config) (w1 : World) (k : Nat) :
    emitted (w1.reads (8 * k)) (hbc04.SPI_ReadData B cfg (w1.reads (8 * k))).2
      = hbc04.readFrame B cfg (w1.nget + 8 * k) := by
  rw [SPI_ReadData_eq]
  simp [hbc04.readFrame, emitted]

theorem countP_isGet_bitCells (sck sdi : Int) (d : Nat) (bs : List Nat) :
    (bitCells sck sdi d bs).countP Ev.isGet = 0 := by
  induction bs with
  | nil => rfl
  | cons b bs ih => simp [bitCells, List.countP_cons, ih, Ev.isGet]

theorem countP_isGet_writeFrame (csx sck sdi : Int) (d flag v : Nat) :
    (writeFrame csx sck sdi d flag v).countP Ev.isGet = 0 := by
  simp [writeFrame, List.countP_cons, countP_isGet_bitCells, Ev.isGet]

theorem countP_isGet_readCells (B : Backend) (sck sdo : Int) (d : Nat) (k : Nat) :
    ∀ g, (readCells B sck sdo d g k).countP Ev.isGet = k := by
  induction k with
  | zero => intro g; rfl
  | succ k ih => intro g; simp [readCells, List.countP_cons, ih, Ev.isGet]

theorem countP_isGet_traceOf (cfg : r61408_config) (ss : List hbc04.Stmt) :
    (hbc04.traceOf cfg ss).countP Ev.isGet = 0 := by
  induction ss with
  | nil => rfl
  | cons s ss ih =>
      cases s <;>
        simp [hbc04.traceOf, hbc04.Stmt.trace, List.countP_cons, ih, countP_isGet_writeFrame,
          Ev.isGet]

theorem countP_isGet_detect (B : Backend) (cfg : r61408_config) (g : Nat) :
    (hbc04.resetTrace cfg ++ hbc04.detectTrace B cfg g).countP Ev.isGet = 40 := by
  simp [hbc04.resetTrace, hbc04.detectTrace, hbc04.readFrame, List.countP_cons,
    countP_isGet_writeFrame, countP_isGet_readCells, Ev.isGet]

/-- C9, as the code behaves: after a successful acquisition the detection step
of `R61408_Init` issues command 0xB0 with data 0x04 and command 0xBF, then
makes exactly five `SPI_ReadData` calls (forty level reads); the results of
the first three are discarded, and the branch sequence is entered exactly when
the fourth result is 0x15 and the fifth is 0x29. -/
theorem C9_detection_reads (B : Backend) (cfg : r61408_config) (w w1 : World)
    (h : hbc04.r61408_enable_gpio B cfg w = (0, w1)) :
    (∃ branch,
      emitted w1 (hbc04.R61408_Init B cfg w)
        = hbc04.resetTrace cfg
          ++ (writeFrame cfg.csx_pin cfg.sck_pin cfg.sdi_pin 1 0 0xB0
              ++ writeFrame cfg.csx_pin cfg.sck_pin cfg.sdi_pin 1 1 0x04
              ++ [Ev.set cfg.csx_pin 1]
              ++ writeFrame cfg.csx_pin cfg.sck_pin cfg.sdi_pin 1 0 0xBF
              ++ emitted (w1.reads (8 * 0)) (hbc04.SPI_ReadData B cfg (w1.reads (8 * 0))).2
              ++ emitted (w1.reads (8 * 1)) (hbc04.SPI_ReadData B cfg (w1.reads (8 * 1))).2
              ++ emitted (w1.reads (8 * 2)) (hbc04.SPI_ReadData B cfg (w1.reads (8 * 2))).2
              ++ emitted (w1.reads (8 * 3)) (hbc04.SPI_ReadData B cfg (w1.reads (8 * 3))).2
              ++ emitted (w1.reads (8 * 4)) (hbc04.SPI_ReadData B cfg (w1.reads (8 * 4))).2
              ++ [Ev.set cfg.csx_pin 1]
              ++ writeFrame cfg.csx_pin cfg.sck_pin cfg.sdi_pin 1 0 0xB0
              ++ writeFrame cfg.csx_pin cfg.sck_pin cfg.sdi_pin 1 1 0x04
              ++ [Ev.set cfg.csx_pin 1])
          ++ branch ++ [Ev.set cfg.csx_pin 1] ∧
      branch.countP Ev.isGet = 0) ∧
    (emitted w1 (hbc04.R61408_Init B cfg w)).countP Ev.isGet = 40 ∧
    (hbc04.R61408_Init B cfg w).nget = w1.nget + 40 ∧
    ((emitted w1 (hbc04.R61408_Init B cfg w)).count (Ev.printf Msg.found) = 1 ↔
      hbc04.nthRead B cfg w1 3 = 0x15 ∧ hbc04.nthRead B cfg w1 4 = 0x29) := by
  obtain ⟨hn, -, ht⟩ := hbc04_init_trace B cfg w w1 h
  have hd := count_printf_detect Msg.found B cfg w1.nget
  have hf := count_printf_traceOf Msg.found cfg hbc04.r61529_Reg_Fill_body
  have hg := countP_isGet_traceOf cfg hbc04.r61529_Reg_Fill_body
  have hbranch : (if hbc04.nthRead B cfg w1 3 = 0x15 ∧ hbc04.nthRead B cfg w1 4 = 0x29 then
        Ev.printf Msg.found :: hbc04.traceOf cfg hbc04.r61529_Reg_Fill_body
      else []).countP Ev.isGet = 0 := by
    split
    · simp [List.countP_cons, hg, Ev.isGet]
    · rfl
  refine ⟨⟨_, ?_, hbranch⟩, ?_, hn, ?_⟩
  · have r0 := readFrame_eq_emitted B cfg w1 0
    have r1 := readFrame_eq_emitted B cfg w1 1
    have r2 := readFrame_eq_emitted B cfg w1 2
    have r3 := readFrame_eq_emitted B cfg w1 3
    have r4 := readFrame_eq_emitted B cfg w1 4
    rw [ht, r0, r1, r2, r3, r4]
    rfl
  · rw [ht, List.countP_append, List.countP_append, hbranch, countP_isGet_detect]
    rfl
  · rw [ht, List.count_append, List.count_append, hd]
    split
    · rename_i hm
      simp [List.count_cons, hf, hm]
    · rename_i hm
      simp [hm]

set_option maxRecDepth 1000000 in
/-- C9 as stated fails: on a board whose first two read-back bytes are 0x15
and 0x29, `R61408_Init` makes forty level reads (five `SPI_ReadData` calls,
not two, which would be sixteen reads), and it does not enter the branch
sequence: the compared bytes are not those of the first two reads. -/
theorem C9_counterexample :
    (emitted World.init
        (hbc04.R61408_Init (feedBytes [0x15, 0x29]) boardCfg04 World.init)).countP Ev.isGet
      = 40 ∧
    hbc04.nthRead (feedBytes [0x15, 0x29]) boardCfg04 boardAcquired04 0 = 0x15 ∧
    hbc04.nthRead (feedBytes [0x15, 0x29]) boardCfg04 boardAcquired04 1 = 0x29 ∧
    (emitted World.init
        (hbc04.R61408_Init (feedBytes [0x15, 0x29]) boardCfg04 World.init)).count
      (Ev.printf Msg.found) = 0 := by
  decide

/-- Witness of the amended C9: forty level reads on the board whose fourth
and fifth read-back bytes are 0x15 and 0x29. -/
theorem C9_detection_reads_witness :
    (emitted boardAcquired04
        (hbc04.R61408_Init (feedBytes [0, 0, 0, 0x15, 0x29]) boardCfg04 World.init)).countP
      Ev.isGet = 40 :=
  (C9_detection_reads (feedBytes [0, 0, 0, 0x15, 0x29]) boardCfg04 World.init
    boardAcquired04 (by decide)).2.1

theorem filter_bitCells (sck sdi : Int) (d : Nat) (bs : List Nat) :
    (bitCells sck sdi d bs).filter Ev.isWriteOrDelay = bitCells sck sdi d bs := by
  induction bs with
  | nil => rfl
  | cons b bs ih => simp [bitCells, List.filter_cons, ih, Ev.isWriteOrDelay]

theorem filter_writeFrame (csx sck sdi : Int) (d flag v : Nat) :
    (writeFrame csx sck sdi d flag v).filter Ev.isWriteOrDelay
      = writeFrame csx sck sdi d flag v := by
  simp [writeFrame, List.filter_cons, filter_bitCells, Ev.isWriteOrDelay]

theorem filter_readCells (B : Backend) (sck sdo : Int) (d : Nat) (k : Nat) :
    ∀ g, (readCells B sck sdo d g k).filter Ev.isWriteOrDelay = clockCells sck d k := by
  induction k with
  | zero => intro g; rfl
  | succ k ih => intro g; simp [readCells, clockCells, List.filter_cons, ih, Ev.isWriteOrDelay]

theorem filter_acquireTrace (cfg : r61408_config) :
    (hbc04.acquireTrace cfg).filter Ev.isWriteOrDelay
      = [Ev.dirOut cfg.reset_pin 1, Ev.dirOut cfg.csx_pin 1, Ev.dirOut cfg.sck_pin 1,
          Ev.dirOut cfg.sdi_pin 1] := by
  unfold hbc04.acquireTrace requiredPins
  split <;> simp [List.filter_cons, Ev.isWriteOrDelay]

/-- The world `R61408_Init` returns after a successful acquisition. -/
theorem hbc04_init_world (B : Backend) (cfg : r61408_config) (w w1 : World)
    (h : hbc04.r61408_enable_gpio B cfg w = (0, w1)) :
    hbc04.R61408_Init B cfg w
      = (w1.app (hbc04.resetTrace cfg ++ hbc04.detectTrace B cfg w1.nget
          ++ (if hbc04.nthRead B cfg w1 3 = 0x15 ∧ hbc04.nthRead B cfg w1 4 = 0x29 then
                Ev.printf Msg.found :: hbc04.traceOf cfg hbc04.r61529_Reg_Fill_body
              else [])
          ++ [Ev.set cfg.csx_pin 1])).reads 40 := by
  have hr : (hbc04.r61408_enable_gpio B cfg w).1 = 0 := by rw [h]
  have e := hbc04_init_of_ok B cfg w hr
  rw [h] at e
  simp only at e
  rw [e, nthRead_eq, nthRead_eq]
  split <;> simp

/-- The calls of `R61408_Init`, counted from its entry, when the acquisition
succeeds and the detection does not match. -/
theorem hbc04_init_nomatch (B : Backend) (cfg : r61408_config) (w w1 : World)
    (h : hbc04.r61408_enable_gpio B cfg w = (0, w1))
    (hm : ¬ (hbc04.nthRead B cfg w1 3 = 0x15 ∧ hbc04.nthRead B cfg w1 4 = 0x29)) :
    emitted w (hbc04.R61408_Init B cfg w)
      = hbc04.acquireTrace cfg ++ hbc04.resetTrace cfg ++ hbc04.detectTrace B cfg w1.nget
        ++ [Ev.set cfg.csx_pin 1] := by
  rw [hbc04_init_world B cfg w w1 h, if_neg hm, hbc04_enable_ok B cfg w w1 h]
  simp [emitted, World.app, World.reads]

theorem filter_nomatch (B : Backend) (cfg : r61408_config) (g : Nat) :
    (hbc04.acquireTrace cfg ++ hbc04.resetTrace cfg ++ hbc04.detectTrace B cfg g
        ++ [Ev.set cfg.csx_pin 1]).filter Ev.isWriteOrDelay
      = hbc04.noMatchWrites cfg := by
  simp only [List.filter_append, filter_acquireTrace, hbc04.detectTrace, hbc04.readFrame,
    List.filter_cons, filter_writeFrame, filter_readCells, hbc04.resetTrace,
    hbc04.noMatchWrites, Ev.isWriteOrDelay, List.filter_nil, if_true]
  simp

/-- C10. Silent no-op on mismatch: any two runs of `R61408_Init` on the same
configuration whose acquisitions succeed and whose compared read-back pairs
both differ from (0x15, 0x29) make the same pin writes and delays, namely
those of `noMatchWrites`: the only command and data bytes are 0xB0 with 0x04,
0xBF, and 0xB0 with 0x04; and after the detection sequence the call only
drives chip-select high. -/
theorem C10_silent_noop (B B2 : Backend) (cfg : r61408_config) (w w1 v v1 : World)
    (h : hbc04.r61408_enable_gpio B cfg w = (0, w1))
    (h2 : hbc04.r61408_enable_gpio B2 cfg v = (0, v1))
    (hm : ¬ (hbc04.nthRead B cfg w1 3 = 0x15 ∧ hbc04.nthRead B cfg w1 4 = 0x29))
    (hm2 : ¬ (hbc04.nthRead B2 cfg v1 3 = 0x15 ∧ hbc04.nthRead B2 cfg v1 4 = 0x29)) :
    (emitted w (hbc04.R61408_Init B cfg w)).filter Ev.isWriteOrDelay
      = (emitted v (hbc04.R61408_Init B2 cfg v)).filter Ev.isWriteOrDelay ∧
    (emitted w (hbc04.R61408_Init B cfg w)).filter Ev.isWriteOrDelay
      = hbc04.noMatchWrites cfg ∧
    emitted w1 (hbc04.R61408_Init B cfg w)
      = hbc04.resetTrace cfg ++ hbc04.detectTrace B cfg w1.nget ++ [Ev.set cfg.csx_pin 1] := by
  have e1 := hbc04_init_nomatch B cfg w w1 h hm
  have e2 := hbc04_init_nomatch B2 cfg v v1 h2 hm2
  refine ⟨?_, ?_, ?_⟩
  · rw [e1, e2, filter_nomatch, filter_nomatch]
  · rw [e1, filter_nomatch]
  · rw [hbc04_init_world B cfg w w1 h, if_neg hm]
    simp

/-- Witness of C10: two boards showing different bytes, neither matching. -/
theorem C10_silent_noop_witness :
    (emitted World.init
        (hbc04.R61408_Init (feedBytes [1, 2, 3, 4, 5]) boardCfg04 World.init)).filter
        Ev.isWriteOrDelay
      = (emitted World.init
          (hbc04.R61408_Init (feedBytes [0x15, 0x29]) boardCfg04 World.init)).filter
          Ev.isWriteOrDelay :=
  (C10_silent_noop (feedBytes [1, 2, 3, 4, 5]) (feedBytes [0x15, 0x29]) boardCfg04
    World.init boardAcquired04 World.init boardAcquired04 (by decide) (by decide)
    (by decide) (by decide)).1

/-! ## The `hbc068.c` sequences -/

theorem writeFrame_mod_256 (csx sck sdi : Int) (d flag v : Nat) :
    writeFrame csx sck sdi d flag (v % 256) = writeFrame csx sck sdi d flag v := by
  unfold writeFrame
  rw [msbBits_mod_256]

theorem hbc068_WritePackageSize_eq (cfg : ssd2828_config) (n : Nat) (w : World) :
    hbc068.SSD2828_WritePackageSize cfg n w
      = w.app (hbc068.Stmt.trace cfg (hbc068.Stmt.SSD2828_WritePackageSize n)) := by
  unfold hbc068.SSD2828_WritePackageSize
  simp only [hbc068_SPI_WriteCmd_eq, hbc068_SPI_WriteData_eq, World.app_app,
    hbc068.Stmt.trace, hbc068.cmdTrace, hbc068.dataTrace, writeFrame_mod_256,
    List.append_assoc]

theorem hbc068_run_eq (cfg : ssd2828_config) (ss : List hbc068.Stmt) :
    ∀ w : World, hbc068.run cfg ss w = w.app (hbc068.traceOf cfg ss) := by
  induction ss with
  | nil => intro w; simp [hbc068.run, hbc068.traceOf]
  | cons s ss ih =>
      intro w
      rw [hbc068.run, ih]
      cases s with
      | SPI_WriteCmd v =>
          simp [hbc068.Stmt.exec, hbc068.Stmt.trace, hbc068.traceOf, hbc068.cmdTrace,
            hbc068_SPI_WriteCmd_eq]
      | SPI_WriteData v =>
          simp [hbc068.Stmt.exec, hbc068.Stmt.trace, hbc068.traceOf, hbc068.dataTrace,
            hbc068_SPI_WriteData_eq]
      | SSD2828_WritePackageSize n =>
          simp only [hbc068.Stmt.exec, hbc068_WritePackageSize_eq, World.app_app,
            hbc068.traceOf]
      | mdelay n =>
          simp [hbc068.Stmt.exec, hbc068.Stmt.trace, hbc068.traceOf, mdelay_eq]

/-- A successful `ssd2828_enable_gpio` makes the calls of `acquireTrace`, claims
the required pins and answers no level read. -/
theorem hbc068_enable_ok (B : Backend) (cfg : ssd2828_config) (w w1 : World)
    (h : hbc068.ssd2828_enable_gpio B cfg w = (0, w1)) :
    w1 = { trace := w.trace ++ hbc068.acquireTrace cfg,
           claimed := (requiredPins cfg.csx_pin cfg.sck_pin cfg.sdi_pin cfg.reset_pin
              cfg.sdo_pin).reverse ++ w.claimed,
           nreq := w.nreq + (requiredPins cfg.csx_pin cfg.sck_pin cfg.sdi_pin cfg.reset_pin
              cfg.sdo_pin).length,
           nget := w.nget } := by
  have hc := hbc068_enable_cases B cfg w
  rw [h] at hc
  split_ifs at hc with h1 h2 h3 h4 h5 h6 <;>
    simp only [Prod.mk.injEq, zero_ne_one, false_and] at hc
  · rw [hc.2]; simp [hbc068.acquireTrace, requiredPins, h5]
  · rw [hc.2]; simp [hbc068.acquireTrace, requiredPins, h5]

/-- The world `HX8394_Init` returns after a successful acquisition. -/
theorem hbc068_init_world (B : Backend) (cfg : ssd2828_config) (w w1 : World)
    (h : hbc068.ssd2828_enable_gpio B cfg w = (0, w1)) :
    hbc068.HX8394_Init B cfg w
      = w1.app (hbc068.resetTrace cfg ++ hbc068.traceOf cfg hbc068.HX8394_Init_body) := by
  rw [hbc068.HX8394_Init]
  simp only [h, ne_eq, not_true_eq_false, if_false, gpio_set_value_eq, mdelay_eq,
    hbc068_run_eq, World.app_app, hbc068.resetTrace, List.append_assoc, List.cons_append,
    List.nil_append, List.singleton_append]

theorem hbc068_enable_result (B : Backend) (cfg : ssd2828_config) (w : World) :
    (hbc068.ssd2828_enable_gpio B cfg w).1 = 0 ∨
      (hbc068.ssd2828_enable_gpio B cfg w).1 = 1 := by
  have hc := hbc068_enable_cases B cfg w
  generalize hbc068.ssd2828_enable_gpio B cfg w = x at hc ⊢
  split_ifs at hc <;> subst hc <;> simp

/-! ## Claims on configurations without data-in, the reset protocol and release -/

/-- C11, as the code behaves: when no read-capable pin is configured
(`sdo_pin` is -1) while chip-select, clock, data-out and reset are valid,
`hbc04_init` reports no configuration error: its check passes and it runs
`R61408_Init`, whose acquisition requests chip-select, clock, data-out and
reset only and, when it succeeds, sets only these four as outputs; data-in is
neither requested nor given a direction. -/
theorem C11_no_sdo_no_error (B : Backend) (cfg : r61408_config) (w : World)
    (hsdo : cfg.sdo_pin = -1) (hcsx : cfg.csx_pin ≠ -1) (hsck : cfg.sck_pin ≠ -1)
    (hsdi : cfg.sdi_pin ≠ -1) (hreset : cfg.reset_pin ≠ -1) :
    hbc04.hbc04_init B cfg w = hbc04.R61408_Init B cfg w ∧
    (requestsOf (emitted w (hbc04.r61408_enable_gpio B cfg w).2)).map Prod.fst
      <+: [cfg.csx_pin, cfg.sck_pin, cfg.sdi_pin, cfg.reset_pin] ∧
    ((hbc04.r61408_enable_gpio B cfg w).1 = 0 →
      emitted w (hbc04.r61408_enable_gpio B cfg w).2
        = [Ev.request cfg.csx_pin true, Ev.request cfg.sck_pin true,
            Ev.request cfg.sdi_pin true, Ev.request cfg.reset_pin true,
            Ev.dirOut cfg.reset_pin 1, Ev.dirOut cfg.csx_pin 1, Ev.dirOut cfg.sck_pin 1,
            Ev.dirOut cfg.sdi_pin 1]) := by
  refine ⟨?_, ?_, ?_⟩
  · unfold hbc04.hbc04_init
    rw [if_neg (by simp [hcsx, hsck, hsdi]), if_neg hreset]
  · have h := (hbc04_enable_requests B cfg w).2.1
    simpa [requiredPins, hsdo] using h
  · intro h0
    have hw := hbc04_enable_ok B cfg w (hbc04.r61408_enable_gpio B cfg w).2
      (Prod.ext h0 rfl)
    rw [hw]
    simp [hbc04.acquireTrace, requiredPins, hsdo]

/-- Witness of the amended C11 on the board pin assignment without data-in. -/
theorem C11_no_sdo_no_error_witness :
    hbc04.hbc04_init (feedBytes []) boardCfg04NoSdo World.init
      = hbc04.R61408_Init (feedBytes []) boardCfg04NoSdo World.init :=
  (C11_no_sdo_no_error (feedBytes []) boardCfg04NoSdo World.init (by decide) (by decide)
    (by decide) (by decide) (by decide)).1

set_option maxRecDepth 1000000 in
/-- C11 as stated fails: on the board pin assignment with `sdo_pin` set to -1
and every request granted, `hbc04_init` prints nothing (every call of the run
touches hardware, so no configuration error is reported), and it performs bus
activity, among it forty level reads of pin -1. -/
theorem C11_counterexample :
    (∀ e ∈ emitted World.init (hbc04.hbc04_init (feedBytes []) boardCfg04NoSdo World.init),
      e.touchesHardware = true) ∧
    (emitted World.init
        (hbc04.hbc04_init (feedBytes []) boardCfg04NoSdo World.init)).countP Ev.isBusActivity
      ≠ 0 ∧
    (emitted World.init
        (hbc04.hbc04_init (feedBytes []) boardCfg04NoSdo World.init)).count (Ev.get (-1) 0)
      = 40 := by
  decide

/-- C12, as the code behaves, counted from the end of pin acquisition.  In
`HX8394_Init` chip-select is driven high before reset is driven low and is not
driven low from then until reset has been driven high again and the settle
delay has elapsed.  In `R61408_Init` chip-select is driven high and, 2 ms
later, driven low immediately before reset is driven low; from there until
reset has been released and the settle delay has elapsed chip-select is not
driven at all, and it is driven high right after the settle delay. -/
theorem C12_reset_protocol (B : Backend) (c4 : r61408_config) (c68 : ssd2828_config)
    (w w1 v v1 : World)
    (h4 : hbc04.r61408_enable_gpio B c4 w = (0, w1))
    (h68 : hbc068.ssd2828_enable_gpio B c68 v = (0, v1))
    (hd : c68.csx_pin ≠ c68.reset_pin) :
    resetProtocol c68.csx_pin c68.reset_pin 0 (emitted v1 (hbc068.HX8394_Init B c68 v))
      = true ∧
    (∃ rest, emitted w1 (hbc04.R61408_Init B c4 w)
      = [Ev.set c4.csx_pin 1, Ev.mdelay 2, Ev.set c4.csx_pin 0, Ev.set c4.reset_pin 0,
          Ev.mdelay 10, Ev.set c4.reset_pin 1, Ev.mdelay 10, Ev.set c4.csx_pin 1] ++ rest) := by
  constructor
  · rw [hbc068_init_world B c68 v v1 h68, emitted_app]
    have hd2 : c68.reset_pin ≠ c68.csx_pin := fun e => hd e.symm
    simp [hbc068.resetTrace, resetProtocol, resetStep, hd, hd2]
  · rw [hbc04_init_world B c4 w w1 h4, emitted_app_reads]
    exact ⟨_, by simp only [hbc04.resetTrace, List.append_assoc]; rfl⟩

/-- Witness of the amended C12 on the board pin assignments. -/
theorem C12_reset_protocol_witness :
    resetProtocol boardCfg068.csx_pin boardCfg068.reset_pin 0
        (emitted boardAcquired068
          (hbc068.HX8394_Init (feedBytes []) boardCfg068 World.init)) = true :=
  (C12_reset_protocol (feedBytes []) boardCfg04 boardCfg068 World.init boardAcquired04
    World.init boardAcquired068 (by decide) (by decide) (by decide)).1

set_option maxRecDepth 1000000 in
/-- C12 as stated fails for `R61408_Init`: on the board pin assignment the
reset-protocol monitor rejects its trace, both counted from the end of pin
acquisition and counted from entry, because chip-select is driven low after
it was driven high and before reset is released. -/
theorem C12_counterexample :
    resetProtocol boardCfg04.csx_pin boardCfg04.reset_pin 0
        (emitted boardAcquired04
          (hbc04.R61408_Init (feedBytes []) boardCfg04 World.init)) = false ∧
    resetProtocol boardCfg04.csx_pin boardCfg04.reset_pin 0
        (emitted World.init
          (hbc04.R61408_Init (feedBytes []) boardCfg04 World.init)) = false ∧
    (emitted boardAcquired04
          (hbc04.R61408_Init (feedBytes []) boardCfg04 World.init)).take 4
      = [Ev.set 4 1, Ev.mdelay 2, Ev.set 4 0, Ev.set 68 0] := by
  decide

/-! ## Two initialisations in succession, and what stays claimed -/

theorem hbc068_init_eq (IMX_GPIO_NR : Int → Int → Int) (B : Backend) (cfg : ssd2828_config)
    (w : World) :
    hbc068.hbc068_init IMX_GPIO_NR B cfg w =
      if IMX_GPIO_NR 1 4 = -1 ∨ IMX_GPIO_NR 1 2 = -1 ∨ IMX_GPIO_NR 1 3 = -1 then
        w.app [Ev.printf (Msg.pins (IMX_GPIO_NR 1 4) (IMX_GPIO_NR 1 2) (IMX_GPIO_NR 1 3)
          (IMX_GPIO_NR 3 4)), Ev.printf Msg.spiPins]
      else if IMX_GPIO_NR 3 4 = -1 then
        w.app [Ev.printf (Msg.pins (IMX_GPIO_NR 1 4) (IMX_GPIO_NR 1 2) (IMX_GPIO_NR 1 3)
          (IMX_GPIO_NR 3 4)), Ev.printf Msg.resetPin]
      else
        hbc068.HX8394_Init B (hbc068.withPins IMX_GPIO_NR cfg)
          (w.app [Ev.printf (Msg.pins (IMX_GPIO_NR 1 4) (IMX_GPIO_NR 1 2) (IMX_GPIO_NR 1 3)
            (IMX_GPIO_NR 3 4))]) := by
  unfold hbc068.hbc068_init
  simp only [printf_eq, World.app_app, hbc068.withPins]
  rfl

theorem sampledByte_exclusive (pin : Int) (g : Nat) :
    sampledByte exclusiveBoard pin g = 0 := by
  rw [sampledByte_unfold]
  simp [exclusiveBoard]

/-- On the exclusive board, acquisition succeeds when the required pins are
pairwise distinct and none of them is claimed. -/
theorem hbc04_enable_exclusive (cfg : r61408_config) (w : World)
    (hd : (requiredPins cfg.csx_pin cfg.sck_pin cfg.sdi_pin cfg.reset_pin cfg.sdo_pin).Nodup)
    (hu : ∀ p ∈ requiredPins cfg.csx_pin cfg.sck_pin cfg.sdi_pin cfg.reset_pin cfg.sdo_pin,
      p ∉ w.claimed) :
    (hbc04.r61408_enable_gpio exclusiveBoard cfg w).1 = 0 := by
  have hc := hbc04_enable_cases exclusiveBoard cfg w
  generalize hbc04.r61408_enable_gpio exclusiveBoard cfg w = x at hc ⊢
  by_cases hs : cfg.sdo_pin = -1
  · simp [requiredPins, hs] at hd hu
    split_ifs at hc <;> subst hc <;>
      simp [exclusiveBoard] at * <;> simp_all <;> omega
  · simp [requiredPins, hs] at hd hu
    split_ifs at hc <;> subst hc <;>
      simp [exclusiveBoard] at * <;> simp_all <;> omega

/-- When chip-select is already claimed, the exclusive board refuses the first
request and acquisition fails at once. -/
theorem hbc04_enable_claimed (cfg : r61408_config) (w : World)
    (hc : cfg.csx_pin ∈ w.claimed) :
    hbc04.r61408_enable_gpio exclusiveBoard cfg w
      = (1, { trace := w.trace ++ [Ev.request cfg.csx_pin false, Ev.printf Msg.reqCsx],
              claimed := w.claimed, nreq := w.nreq + 1, nget := w.nget }) := by
  rw [hbc04_enable_cases]
  have hg : exclusiveBoard.grant w.nreq cfg.csx_pin w.claimed = false := by
    simp [exclusiveBoard, hc]
  rw [if_pos hg]

theorem hbc068_enable_claimed (cfg : ssd2828_config) (w : World)
    (hc : cfg.csx_pin ∈ w.claimed) :
    hbc068.ssd2828_enable_gpio exclusiveBoard cfg w
      = (1, { trace := w.trace ++ [Ev.request cfg.csx_pin false, Ev.printf Msg.reqCsx],
              claimed := w.claimed, nreq := w.nreq + 1, nget := w.nget }) := by
  rw [hbc068_enable_cases]
  have hg : exclusiveBoard.grant w.nreq cfg.csx_pin w.claimed = false := by
    simp [exclusiveBoard, hc]
  rw [if_pos hg]

theorem hbc068_enable_exclusive (cfg : ssd2828_config) (w : World)
    (hd : (requiredPins cfg.csx_pin cfg.sck_pin cfg.sdi_pin cfg.reset_pin cfg.sdo_pin).Nodup)
    (hu : ∀ p ∈ requiredPins cfg.csx_pin cfg.sck_pin cfg.sdi_pin cfg.reset_pin cfg.sdo_pin,
      p ∉ w.claimed) :
    (hbc068.ssd2828_enable_gpio exclusiveBoard cfg w).1 = 0 := by
  have hc := hbc068_enable_cases exclusiveBoard cfg w
  generalize hbc068.ssd2828_enable_gpio exclusiveBoard cfg w = x at hc ⊢
  by_cases hs : cfg.sdo_pin = -1
  · simp [requiredPins, hs] at hd hu
    split_ifs at hc <;> subst hc <;>
      simp [exclusiveBoard] at * <;> simp_all <;> omega
  · simp [requiredPins, hs] at hd hu
    split_ifs at hc <;> subst hc <;>
      simp [exclusiveBoard] at * <;> simp_all <;> omega

theorem csx_mem_requiredPins (csx sck sdi reset sdo : Int) (l : List Int) :
    csx ∈ (requiredPins csx sck sdi reset sdo).reverse ++ l := by
  simp [requiredPins]

/-- Two calls of `hbc04_init` in succession on the exclusive board. -/
theorem hbc04_init_twice (cfg : r61408_config) (w : World)
    (hv : cfg.csx_pin ≠ -1 ∧ cfg.sck_pin ≠ -1 ∧ cfg.sdi_pin ≠ -1 ∧ cfg.reset_pin ≠ -1)
    (hd : (requiredPins cfg.csx_pin cfg.sck_pin cfg.sdi_pin cfg.reset_pin cfg.sdo_pin).Nodup)
    (hu : ∀ p ∈ requiredPins cfg.csx_pin cfg.sck_pin cfg.sdi_pin cfg.reset_pin cfg.sdo_pin,
      p ∉ w.claimed) :
    emitted w (hbc04.hbc04_init exclusiveBoard cfg w)
      = hbc04.acquireTrace cfg ++ hbc04.resetTrace cfg
        ++ hbc04.detectTrace exclusiveBoard cfg w.nget ++ [Ev.set cfg.csx_pin 1] ∧
    (hbc04.hbc04_init exclusiveBoard cfg w).claimed
      = (requiredPins cfg.csx_pin cfg.sck_pin cfg.sdi_pin cfg.reset_pin cfg.sdo_pin).reverse
        ++ w.claimed ∧
    emitted (hbc04.hbc04_init exclusiveBoard cfg w)
        (hbc04.hbc04_init exclusiveBoard cfg (hbc04.hbc04_init exclusiveBoard cfg w))
      = [Ev.request cfg.csx_pin false, Ev.printf Msg.reqCsx] := by
  obtain ⟨v1, v2, v3, v4⟩ := hv
  have hi : ∀ u, hbc04.hbc04_init exclusiveBoard cfg u
      = hbc04.R61408_Init exclusiveBoard cfg u := by
    intro u
    unfold hbc04.hbc04_init
    rw [if_neg (by simp [v1, v2, v3]), if_neg v4]
  have h0 := hbc04_enable_exclusive cfg w hd hu
  have h : hbc04.r61408_enable_gpio exclusiveBoard cfg w
      = (0, (hbc04.r61408_enable_gpio exclusiveBoard cfg w).2) := Prod.ext h0 rfl
  have hw1 := hbc04_enable_ok exclusiveBoard cfg w _ h
  have hm : ¬ (hbc04.nthRead exclusiveBoard cfg
        (hbc04.r61408_enable_gpio exclusiveBoard cfg w).2 3 = 0x15 ∧
      hbc04.nthRead exclusiveBoard cfg
        (hbc04.r61408_enable_gpio exclusiveBoard cfg w).2 4 = 0x29) := by
    rw [nthRead_eq, sampledByte_exclusive]; simp
  have e1 := hbc04_init_nomatch exclusiveBoard cfg w _ h hm
  have hW := hbc04_init_world exclusiveBoard cfg w _ h
  have hcl : (hbc04.R61408_Init exclusiveBoard cfg w).claimed
      = (requiredPins cfg.csx_pin cfg.sck_pin cfg.sdi_pin cfg.reset_pin cfg.sdo_pin).reverse
        ++ w.claimed := by
    rw [hW, World.reads_claimed, World.app_claimed, hw1]
  have hng : (hbc04.r61408_enable_gpio exclusiveBoard cfg w).2.nget = w.nget := by
    rw [hw1]
  refine ⟨?_, ?_, ?_⟩
  · rw [hi, e1, hng]
  · rw [hi, hcl]
  · rw [hi, hi]
    have hmem : cfg.csx_pin ∈ (hbc04.R61408_Init exclusiveBoard cfg w).claimed := by
      rw [hcl]; exact csx_mem_requiredPins _ _ _ _ _ _
    have he := hbc04_enable_claimed cfg _ hmem
    rw [hbc04_init_of_fail exclusiveBoard cfg (hbc04.R61408_Init exclusiveBoard cfg w)
      (by rw [he]; exact one_ne_zero), he]
    simp

/-- Two calls of `hbc068_init` in succession on the exclusive board. -/
theorem hbc068_init_twice (IMX_GPIO_NR : Int → Int → Int) (cfg : ssd2828_config) (w : World)
    (hv : IMX_GPIO_NR 1 4 ≠ -1 ∧ IMX_GPIO_NR 1 2 ≠ -1 ∧ IMX_GPIO_NR 1 3 ≠ -1 ∧
      IMX_GPIO_NR 3 4 ≠ -1)
    (hd : (requiredPins (IMX_GPIO_NR 1 4) (IMX_GPIO_NR 1 2) (IMX_GPIO_NR 1 3)
      (IMX_GPIO_NR 3 4) (IMX_GPIO_NR 1 1)).Nodup)
    (hu : ∀ p ∈ requiredPins (IMX_GPIO_NR 1 4) (IMX_GPIO_NR 1 2) (IMX_GPIO_NR 1 3)
      (IMX_GPIO_NR 3 4) (IMX_GPIO_NR 1 1), p ∉ w.claimed) :
    emitted w (hbc068.hbc068_init IMX_GPIO_NR exclusiveBoard cfg w)
      = Ev.printf (Msg.pins (IMX_GPIO_NR 1 4) (IMX_GPIO_NR 1 2) (IMX_GPIO_NR 1 3)
          (IMX_GPIO_NR 3 4))
        :: (hbc068.acquireTrace (hbc068.withPins IMX_GPIO_NR cfg)
          ++ hbc068.resetTrace (hbc068.withPins IMX_GPIO_NR cfg)
          ++ hbc068.traceOf (hbc068.withPins IMX_GPIO_NR cfg) hbc068.HX8394_Init_body) ∧
    (hbc068.hbc068_init IMX_GPIO_NR exclusiveBoard cfg w).claimed
      = (requiredPins (IMX_GPIO_NR 1 4) (IMX_GPIO_NR 1 2) (IMX_GPIO_NR 1 3)
          (IMX_GPIO_NR 3 4) (IMX_GPIO_NR 1 1)).reverse ++ w.claimed ∧
    emitted (hbc068.hbc068_init IMX_GPIO_NR exclusiveBoard cfg w)
        (hbc068.hbc068_init IMX_GPIO_NR exclusiveBoard cfg
          (hbc068.hbc068_init IMX_GPIO_NR exclusiveBoard cfg w))
      = [Ev.printf (Msg.pins (IMX_GPIO_NR 1 4) (IMX_GPIO_NR 1 2) (IMX_GPIO_NR 1 3)
          (IMX_GPIO_NR 3 4)),
         Ev.request (IMX_GPIO_NR 1 4) false, Ev.printf Msg.reqCsx] := by
  obtain ⟨v1, v2, v3, v4⟩ := hv
  have hi : ∀ u, hbc068.hbc068_init IMX_GPIO_NR exclusiveBoard cfg u
      = hbc068.HX8394_Init exclusiveBoard (hbc068.withPins IMX_GPIO_NR cfg)
          (u.app [Ev.printf (Msg.pins (IMX_GPIO_NR 1 4) (IMX_GPIO_NR 1 2) (IMX_GPIO_NR 1 3)
            (IMX_GPIO_NR 3 4))]) := by
    intro u
    rw [hbc068_init_eq, if_neg (by simp [v1, v2, v3]), if_neg v4]
  have h0 := hbc068_enable_exclusive (hbc068.withPins IMX_GPIO_NR cfg)
    (w.app [Ev.printf (Msg.pins (IMX_GPIO_NR 1 4) (IMX_GPIO_NR 1 2) (IMX_GPIO_NR 1 3)
      (IMX_GPIO_NR 3 4))]) hd hu
  have h := hbc068_enable_ok exclusiveBoard (hbc068.withPins IMX_GPIO_NR cfg) _ _
    (Prod.ext h0 rfl)
  have hW := hbc068_init_world exclusiveBoard (hbc068.withPins IMX_GPIO_NR cfg) _ _
    (Prod.ext h0 rfl)
  rw [h] at hW
  have hcl : (hbc068.hbc068_init IMX_GPIO_NR exclusiveBoard cfg w).claimed
      = (requiredPins (IMX_GPIO_NR 1 4) (IMX_GPIO_NR 1 2) (IMX_GPIO_NR 1 3)
          (IMX_GPIO_NR 3 4) (IMX_GPIO_NR 1 1)).reverse ++ w.claimed := by
    rw [hi, hW]; rfl
  refine ⟨?_, hcl, ?_⟩
  · rw [hi, hW]
    simp [emitted, World.app]
  · have hmem : (hbc068.withPins IMX_GPIO_NR cfg).csx_pin
        ∈ ((hbc068.hbc068_init IMX_GPIO_NR exclusiveBoard cfg w).app
            [Ev.printf (Msg.pins (IMX_GPIO_NR 1 4) (IMX_GPIO_NR 1 2) (IMX_GPIO_NR 1 3)
              (IMX_GPIO_NR 3 4))]).claimed := by
      rw [World.app_claimed, hcl]; exact csx_mem_requiredPins _ _ _ _ _ _
    have he := hbc068_enable_claimed (hbc068.withPins IMX_GPIO_NR cfg) _ hmem
    rw [hi (hbc068.hbc068_init IMX_GPIO_NR exclusiveBoard cfg w),
      hbc068_init_of_fail exclusiveBoard (hbc068.withPins IMX_GPIO_NR cfg) _
        (by rw [he]; exact one_ne_zero), he]
    simp [emitted, World.app]
    rfl

/-- C13, as the code behaves: on the mock board on which a pin request fails
when the pin is already claimed and succeeds otherwise, two calls of
`hbc04_init` (resp. `hbc068_init`) in succession with the same valid
configuration, its pins pairwise distinct and unclaimed at the start, do not
make the same calls.  The first call acquires the pins, which stay claimed,
and performs the bus sequence; the second finds chip-select claimed, and its
whole trace is the refused chip-select request and the failure message (after
the pin message, for `hbc068_init`). -/
theorem C13_second_init_refused (c4 : r61408_config) (IMX_GPIO_NR : Int → Int → Int)
    (c68 : ssd2828_config) (w : World)
    (hv4 : c4.csx_pin ≠ -1 ∧ c4.sck_pin ≠ -1 ∧ c4.sdi_pin ≠ -1 ∧ c4.reset_pin ≠ -1)
    (hd4 : (requiredPins c4.csx_pin c4.sck_pin c4.sdi_pin c4.reset_pin c4.sdo_pin).Nodup)
    (hu4 : ∀ p ∈ requiredPins c4.csx_pin c4.sck_pin c4.sdi_pin c4.reset_pin c4.sdo_pin,
      p ∉ w.claimed)
    (hv68 : IMX_GPIO_NR 1 4 ≠ -1 ∧ IMX_GPIO_NR 1 2 ≠ -1 ∧ IMX_GPIO_NR 1 3 ≠ -1 ∧
      IMX_GPIO_NR 3 4 ≠ -1)
    (hd68 : (requiredPins (IMX_GPIO_NR 1 4) (IMX_GPIO_NR 1 2) (IMX_GPIO_NR 1 3)
      (IMX_GPIO_NR 3 4) (IMX_GPIO_NR 1 1)).Nodup)
    (hu68 : ∀ p ∈ requiredPins (IMX_GPIO_NR 1 4) (IMX_GPIO_NR 1 2) (IMX_GPIO_NR 1 3)
      (IMX_GPIO_NR 3 4) (IMX_GPIO_NR 1 1), p ∉ w.claimed) :
    (emitted w (hbc04.hbc04_init exclusiveBoard c4 w)
        = hbc04.acquireTrace c4 ++ hbc04.resetTrace c4
          ++ hbc04.detectTrace exclusiveBoard c4 w.nget ++ [Ev.set c4.csx_pin 1] ∧
      emitted (hbc04.hbc04_init exclusiveBoard c4 w)
          (hbc04.hbc04_init exclusiveBoard c4 (hbc04.hbc04_init exclusiveBoard c4 w))
        = [Ev.request c4.csx_pin false, Ev.printf Msg.reqCsx] ∧
      emitted w (hbc04.hbc04_init exclusiveBoard c4 w)
        ≠ emitted (hbc04.hbc04_init exclusiveBoard c4 w)
            (hbc04.hbc04_init exclusiveBoard c4 (hbc04.hbc04_init exclusiveBoard c4 w))) ∧
    (emitted w (hbc068.hbc068_init IMX_GPIO_NR exclusiveBoard c68 w)
        = Ev.printf (Msg.pins (IMX_GPIO_NR 1 4) (IMX_GPIO_NR 1 2) (IMX_GPIO_NR 1 3)
            (IMX_GPIO_NR 3 4))
          :: (hbc068.acquireTrace (hbc068.withPins IMX_GPIO_NR c68)
            ++ hbc068.resetTrace (hbc068.withPins IMX_GPIO_NR c68)
            ++ hbc068.traceOf (hbc068.withPins IMX_GPIO_NR c68) hbc068.HX8394_Init_body) ∧
      emitted (hbc068.hbc068_init IMX_GPIO_NR exclusiveBoard c68 w)
          (hbc068.hbc068_init IMX_GPIO_NR exclusiveBoard c68
            (hbc068.hbc068_init IMX_GPIO_NR exclusiveBoard c68 w))
        = [Ev.printf (Msg.pins (IMX_GPIO_NR 1 4) (IMX_GPIO_NR 1 2) (IMX_GPIO_NR 1 3)
            (IMX_GPIO_NR 3 4)),
           Ev.request (IMX_GPIO_NR 1 4) false, Ev.printf Msg.reqCsx] ∧
      emitted w (hbc068.hbc068_init IMX_GPIO_NR exclusiveBoard c68 w)
        ≠ emitted (hbc068.hbc068_init IMX_GPIO_NR exclusiveBoard c68 w)
            (hbc068.hbc068_init IMX_GPIO_NR exclusiveBoard c68
              (hbc068.hbc068_init IMX_GPIO_NR exclusiveBoard c68 w))) := by
  obtain ⟨a1, -, a3⟩ := hbc04_init_twice c4 w hv4 hd4 hu4
  obtain ⟨b1, -, b3⟩ := hbc068_init_twice IMX_GPIO_NR c68 w hv68 hd68 hu68
  refine ⟨⟨a1, a3, ?_⟩, ⟨b1, b3, ?_⟩⟩
  · rw [a1, a3]
    simp [hbc04.acquireTrace, requiredPins]
  · rw [b1, b3]
    simp [hbc068.acquireTrace, requiredPins, hbc068.withPins]

/-- Witness of the amended C13 on the board pin assignments, from a fresh run. -/
theorem C13_second_init_refused_witness :
    emitted (hbc04.hbc04_init exclusiveBoard boardCfg04 World.init)
        (hbc04.hbc04_init exclusiveBoard boardCfg04
          (hbc04.hbc04_init exclusiveBoard boardCfg04 World.init))
      = [Ev.request boardCfg04.csx_pin false, Ev.printf Msg.reqCsx] ∧
    emitted (hbc068.hbc068_init sampleGpioNr exclusiveBoard boardCfg068 World.init)
        (hbc068.hbc068_init sampleGpioNr exclusiveBoard boardCfg068
          (hbc068.hbc068_init sampleGpioNr exclusiveBoard boardCfg068 World.init))
      = [Ev.printf (Msg.pins (sampleGpioNr 1 4) (sampleGpioNr 1 2) (sampleGpioNr 1 3)
          (sampleGpioNr 3 4)),
         Ev.request (sampleGpioNr 1 4) false, Ev.printf Msg.reqCsx] :=
  have h := C13_second_init_refused boardCfg04 sampleGpioNr boardCfg068 World.init
    (by decide) (by decide) (by decide) (by decide) (by decide) (by decide)
  ⟨h.1.2.1, h.2.2.1⟩

set_option maxRecDepth 1000000 in
/-- C13 as stated fails: on the exclusive mock board, two calls of `hbc04_init`
in succession on the board pin assignment from a fresh run make different
calls; the second makes two calls only. -/
theorem C13_counterexample :
    emitted World.init (hbc04.hbc04_init exclusiveBoard boardCfg04 World.init)
      ≠ emitted (hbc04.hbc04_init exclusiveBoard boardCfg04 World.init)
          (hbc04.hbc04_init exclusiveBoard boardCfg04
            (hbc04.hbc04_init exclusiveBoard boardCfg04 World.init)) ∧
    (emitted (hbc04.hbc04_init exclusiveBoard boardCfg04 World.init)
          (hbc04.hbc04_init exclusiveBoard boardCfg04
            (hbc04.hbc04_init exclusiveBoard boardCfg04 World.init))).length = 2 := by
  decide

/-- C14, as the code behaves: the pins claimed during an initialisation call
are released on the early-return error paths only.  After `hbc04_init`
(resp. `hbc068_init`) the claimed pins are those before the call when the
configuration is refused or the acquisition fails; when the acquisition
succeeds the call runs to completion and the required pins stay claimed on
top of those claimed before (chip-select, clock, data-out and reset pairwise
distinct). -/
theorem C14_claims_after_init (B : Backend) (c4 : r61408_config)
    (IMX_GPIO_NR : Int → Int → Int) (c68 : ssd2828_config) (w : World)
    (hd4 : [c4.csx_pin, c4.sck_pin, c4.sdi_pin, c4.reset_pin].Nodup)
    (hd68 : [IMX_GPIO_NR 1 4, IMX_GPIO_NR 1 2, IMX_GPIO_NR 1 3, IMX_GPIO_NR 3 4].Nodup) :
    ((c4.csx_pin = -1 ∨ c4.sck_pin = -1 ∨ c4.sdi_pin = -1 ∨ c4.reset_pin = -1 →
        (hbc04.hbc04_init B c4 w).claimed = w.claimed) ∧
      (¬ (c4.csx_pin = -1 ∨ c4.sck_pin = -1 ∨ c4.sdi_pin = -1 ∨ c4.reset_pin = -1) →
        (hbc04.r61408_enable_gpio B c4 w).1 ≠ 0 →
        (hbc04.hbc04_init B c4 w).claimed = w.claimed) ∧
      (¬ (c4.csx_pin = -1 ∨ c4.sck_pin = -1 ∨ c4.sdi_pin = -1 ∨ c4.reset_pin = -1) →
        (hbc04.r61408_enable_gpio B c4 w).1 = 0 →
        (hbc04.hbc04_init B c4 w).claimed
          = (requiredPins c4.csx_pin c4.sck_pin c4.sdi_pin c4.reset_pin c4.sdo_pin).reverse
            ++ w.claimed)) ∧
    ((IMX_GPIO_NR 1 4 = -1 ∨ IMX_GPIO_NR 1 2 = -1 ∨ IMX_GPIO_NR 1 3 = -1 ∨
          IMX_GPIO_NR 3 4 = -1 →
        (hbc068.hbc068_init IMX_GPIO_NR B c68 w).claimed = w.claimed) ∧
      (¬ (IMX_GPIO_NR 1 4 = -1 ∨ IMX_GPIO_NR 1 2 = -1 ∨ IMX_GPIO_NR 1 3 = -1 ∨
          IMX_GPIO_NR 3 4 = -1) →
        (hbc068.ssd2828_enable_gpio B (hbc068.withPins IMX_GPIO_NR c68)
          (w.app [Ev.printf (Msg.pins (IMX_GPIO_NR 1 4) (IMX_GPIO_NR 1 2) (IMX_GPIO_NR 1 3)
            (IMX_GPIO_NR 3 4))])).1 ≠ 0 →
        (hbc068.hbc068_init IMX_GPIO_NR B c68 w).claimed = w.claimed) ∧
      (¬ (IMX_GPIO_NR 1 4 = -1 ∨ IMX_GPIO_NR 1 2 = -1 ∨ IMX_GPIO_NR 1 3 = -1 ∨
          IMX_GPIO_NR 3 4 = -1) →
        (hbc068.ssd2828_enable_gpio B (hbc068.withPins IMX_GPIO_NR c68)
          (w.app [Ev.printf (Msg.pins (IMX_GPIO_NR 1 4) (IMX_GPIO_NR 1 2) (IMX_GPIO_NR 1 3)
            (IMX_GPIO_NR 3 4))])).1 = 0 →
        (hbc068.hbc068_init IMX_GPIO_NR B c68 w).claimed
          = (requiredPins (IMX_GPIO_NR 1 4) (IMX_GPIO_NR 1 2) (IMX_GPIO_NR 1 3)
              (IMX_GPIO_NR 3 4) (IMX_GPIO_NR 1 1)).reverse ++ w.claimed)) := by
  refine ⟨⟨?_, ?_, ?_⟩, ⟨?_, ?_, ?_⟩⟩
  · intro h
    unfold hbc04.hbc04_init
    by_cases h3 : c4.csx_pin = -1 ∨ c4.sck_pin = -1 ∨ c4.sdi_pin = -1
    · rw [if_pos h3, printf_eq]; rfl
    · have hr : c4.reset_pin = -1 := by tauto
      rw [if_neg h3, if_pos hr, printf_eq]; rfl
  · intro hv hr
    have h3 : ¬ (c4.csx_pin = -1 ∨ c4.sck_pin = -1 ∨ c4.sdi_pin = -1) := by tauto
    have h4 : ¬ c4.reset_pin = -1 := by tauto
    unfold hbc04.hbc04_init
    rw [if_neg h3, if_neg h4, hbc04_init_of_fail B c4 w hr]
    exact (hbc04_enable_no_leak B c4 w hd4 hr).2.2
  · intro hv hr
    have h3 : ¬ (c4.csx_pin = -1 ∨ c4.sck_pin = -1 ∨ c4.sdi_pin = -1) := by tauto
    have h4 : ¬ c4.reset_pin = -1 := by tauto
    unfold hbc04.hbc04_init
    rw [if_neg h3, if_neg h4, hbc04_init_world B c4 w _ (Prod.ext hr rfl),
      World.reads_claimed, World.app_claimed,
      hbc04_enable_ok B c4 w _ (Prod.ext hr rfl)]
  · intro h
    rw [hbc068_init_eq]
    by_cases h3 : IMX_GPIO_NR 1 4 = -1 ∨ IMX_GPIO_NR 1 2 = -1 ∨ IMX_GPIO_NR 1 3 = -1
    · rw [if_pos h3]; rfl
    · have hr : IMX_GPIO_NR 3 4 = -1 := by tauto
      rw [if_neg h3, if_pos hr]; rfl
  · intro hv hr
    have h3 : ¬ (IMX_GPIO_NR 1 4 = -1 ∨ IMX_GPIO_NR 1 2 = -1 ∨ IMX_GPIO_NR 1 3 = -1) := by
      tauto
    have h4 : ¬ IMX_GPIO_NR 3 4 = -1 := by tauto
    rw [hbc068_init_eq, if_neg h3, if_neg h4, hbc068_init_of_fail B _ _ hr]
    exact (hbc068_enable_no_leak B (hbc068.withPins IMX_GPIO_NR c68) _ hd68 hr).2.2
  · intro hv hr
    have h3 : ¬ (IMX_GPIO_NR 1 4 = -1 ∨ IMX_GPIO_NR 1 2 = -1 ∨ IMX_GPIO_NR 1 3 = -1) := by
      tauto
    have h4 : ¬ IMX_GPIO_NR 3 4 = -1 := by tauto
    rw [hbc068_init_eq, if_neg h3, if_neg h4, hbc068_init_world B _ _ _ (Prod.ext hr rfl),
      World.app_claimed, hbc068_enable_ok B _ _ _ (Prod.ext hr rfl)]
    rfl

/-- Witness of the amended C14: on the board pin assignments with every
request granted the required pins stay claimed. -/
theorem C14_claims_after_init_witness :
    (hbc04.hbc04_init (feedBytes []) boardCfg04 World.init).claimed
      = (requiredPins boardCfg04.csx_pin boardCfg04.sck_pin boardCfg04.sdi_pin
          boardCfg04.reset_pin boardCfg04.sdo_pin).reverse ++ World.init.claimed ∧
    (hbc068.hbc068_init sampleGpioNr (feedBytes []) boardCfg068 World.init).claimed
      = (requiredPins (sampleGpioNr 1 4) (sampleGpioNr 1 2) (sampleGpioNr 1 3)
          (sampleGpioNr 3 4) (sampleGpioNr 1 1)).reverse ++ World.init.claimed :=
  have h := C14_claims_after_init (feedBytes []) boardCfg04 sampleGpioNr boardCfg068
    World.init (by decide) (by decide)
  ⟨h.1.2.2 (by decide) (by decide), h.2.2.2 (by decide) (by decide)⟩

set_option maxRecDepth 1000000 in
/-- C14 as stated fails: after a successful `hbc04_init` on the board pin
assignment from a fresh run, the five pins it claimed are still claimed. -/
theorem C14_counterexample :
    (hbc04.hbc04_init (feedBytes []) boardCfg04 World.init).claimed = [1, 68, 3, 2, 4] ∧
    (hbc04.hbc04_init (feedBytes []) boardCfg04 World.init).claimed
      ≠ World.init.claimed := by
  decide

/-! ## Command and data writes compared, and the delay unit -/

theorem getElem?_frames (csx sck sdi : Int) (d f g v : Nat) (rest : List Ev) (i : Nat)
    (hi : i ≠ 2) :
    (writeFrame csx sck sdi d f v ++ rest)[i]? = (writeFrame csx sck sdi d g v ++ rest)[i]? := by
  unfold writeFrame
  match i, hi with
  | 0, _ => rfl
  | 1, _ => rfl
  | 2, h => exact absurd rfl h
  | n + 3, _ => simp

theorem length_writeFrame (csx sck sdi : Int) (d f g v : Nat) :
    (writeFrame csx sck sdi d f v).length = (writeFrame csx sck sdi d g v).length := by
  simp [writeFrame]

/-- C15. Within each driver the command write and the data write are the same
operation with only the kind fixed: for every byte `v` the call list of
`SPI_WriteComm` / `SPI_WriteCmd` and that of `SPI_WriteData` have the same
length and agree at every position except position 2, the level written to
data-out for the framing bit, which is 0 for a command and 1 for data. -/
theorem C15_command_data_same (c4 : r61408_config) (c68 : ssd2828_config) (v : Nat)
    (w : World) :
    ((emitted w (hbc04.SPI_WriteComm c4 v w)).length
        = (emitted w (hbc04.SPI_WriteData c4 v w)).length ∧
      (∀ i, i ≠ 2 → (emitted w (hbc04.SPI_WriteComm c4 v w))[i]?
        = (emitted w (hbc04.SPI_WriteData c4 v w))[i]?) ∧
      (emitted w (hbc04.SPI_WriteComm c4 v w))[2]? = some (Ev.set c4.sdi_pin 0) ∧
      (emitted w (hbc04.SPI_WriteData c4 v w))[2]? = some (Ev.set c4.sdi_pin 1)) ∧
    ((emitted w (hbc068.SPI_WriteCmd c68 v w)).length
        = (emitted w (hbc068.SPI_WriteData c68 v w)).length ∧
      (∀ i, i ≠ 2 → (emitted w (hbc068.SPI_WriteCmd c68 v w))[i]?
        = (emitted w (hbc068.SPI_WriteData c68 v w))[i]?) ∧
      (emitted w (hbc068.SPI_WriteCmd c68 v w))[2]? = some (Ev.set c68.sdi_pin 0) ∧
      (emitted w (hbc068.SPI_WriteData c68 v w))[2]? = some (Ev.set c68.sdi_pin 1)) := by
  rw [hbc04_SPI_WriteComm_eq, hbc04_SPI_WriteData_eq, hbc068_SPI_WriteCmd_eq,
    hbc068_SPI_WriteData_eq]
  simp only [emitted_app]
  refine ⟨⟨length_writeFrame _ _ _ _ _ _ _, ?_, rfl, rfl⟩, ⟨?_, ?_, rfl, rfl⟩⟩
  · intro i hi
    have h := getElem?_frames c4.csx_pin c4.sck_pin c4.sdi_pin 1 0 1 v [] i hi
    simpa using h
  · simp [length_writeFrame _ _ _ 10 0 1 v]
  · intro i hi
    exact getElem?_frames c68.csx_pin c68.sck_pin c68.sdi_pin 10 0 1 v _ i hi

theorem map_unitDelay_bitCells (sck sdi : Int) (bs : List Nat) :
    (bitCells sck sdi 10 bs).map Ev.unitDelay = bitCells sck sdi 1 bs := by
  induction bs with
  | nil => rfl
  | cons b bs ih => simp [bitCells, Ev.unitDelay, ih]

theorem map_unitDelay_writeFrame (csx sck sdi : Int) (f v : Nat) :
    (writeFrame csx sck sdi 10 f v).map Ev.unitDelay = writeFrame csx sck sdi 1 f v := by
  simp [writeFrame, Ev.unitDelay, map_unitDelay_bitCells]

/-- C16. Delay-unit independence: on the same pins, the call list of a hbc068
write (delay unit 10) with every `udelay(10)` replaced by `udelay(1)` is the
call list of the hbc04 write of the same kind and byte followed by one call
driving data-out high; hence the data-out levels present at the rising clock
edges are the same for the two transports. -/
theorem C16_delay_unit_independent (c4 : r61408_config) (c68 : ssd2828_config) (v : Nat)
    (w u : World) (clk cur : Nat)
    (hcsx : c68.csx_pin = c4.csx_pin) (hsck : c68.sck_pin = c4.sck_pin)
    (hsdi : c68.sdi_pin = c4.sdi_pin) (hne : c4.sck_pin ≠ c4.sdi_pin) :
    (emitted u (hbc068.SPI_WriteCmd c68 v u)).map Ev.unitDelay
      = emitted w (hbc04.SPI_WriteComm c4 v w) ++ [Ev.set c4.sdi_pin 1] ∧
    (emitted u (hbc068.SPI_WriteData c68 v u)).map Ev.unitDelay
      = emitted w (hbc04.SPI_WriteData c4 v w) ++ [Ev.set c4.sdi_pin 1] ∧
    risingFrom c4.sck_pin c4.sdi_pin clk cur (emitted u (hbc068.SPI_WriteCmd c68 v u))
      = risingFrom c4.sck_pin c4.sdi_pin clk cur (emitted w (hbc04.SPI_WriteComm c4 v w)) ∧
    risingFrom c4.sck_pin c4.sdi_pin clk cur (emitted u (hbc068.SPI_WriteData c68 v u))
      = risingFrom c4.sck_pin c4.sdi_pin clk cur (emitted w (hbc04.SPI_WriteData c4 v w)) := by
  rw [hbc04_SPI_WriteComm_eq, hbc04_SPI_WriteData_eq, hbc068_SPI_WriteCmd_eq,
    hbc068_SPI_WriteData_eq]
  simp only [emitted_app, hcsx, hsck, hsdi, List.map_append, map_unitDelay_writeFrame]
  have hr : ∀ k c, risingFrom c4.sck_pin c4.sdi_pin k c [Ev.set c4.sdi_pin 1] = [] := by
    intro k c; simp [risingFrom]
  have e1 := rising_writeFrame c4.csx_pin c4.sck_pin c4.sdi_pin hne 1 0 v []
    (fun _ _ => rfl) clk cur
  have e2 := rising_writeFrame c4.csx_pin c4.sck_pin c4.sdi_pin hne 1 1 v []
    (fun _ _ => rfl) clk cur
  have e3 := rising_writeFrame c4.csx_pin c4.sck_pin c4.sdi_pin hne 10 0 v _ hr clk cur
  have e4 := rising_writeFrame c4.csx_pin c4.sck_pin c4.sdi_pin hne 10 1 v _ hr clk cur
  rw [List.append_nil] at e1 e2
  rw [e1, e2, e3, e4]
  simp [Ev.unitDelay]

/-- Witness of C16 at the byte 0xA5 on the board pin assignments. -/
theorem C16_delay_unit_independent_witness :
    (emitted World.init (hbc068.SPI_WriteData boardCfg068 0xA5 World.init)).map Ev.unitDelay
      = emitted World.init (hbc04.SPI_WriteData boardCfg04 0xA5 World.init)
        ++ [Ev.set boardCfg04.sdi_pin 1] :=
  (C16_delay_unit_independent boardCfg04 boardCfg068 0xA5 World.init World.init 1 1
    (by decide) (by decide) (by decide) (by decide)).2.1

/-! ## Fields of the configuration the drivers do not read -/

theorem hbc04_enable_congr (B : Backend) (c d : r61408_config) (w : World)
    (h1 : c.csx_pin = d.csx_pin) (h2 : c.sck_pin = d.sck_pin) (h3 : c.sdi_pin = d.sdi_pin)
    (h4 : c.sdo_pin = d.sdo_pin) (h5 : c.reset_pin = d.reset_pin) :
    hbc04.r61408_enable_gpio B c w = hbc04.r61408_enable_gpio B d w := by
  rw [hbc04_enable_cases, hbc04_enable_cases, h1, h2, h3, h4, h5]

theorem hbc068_enable_congr (B : Backend) (c d : ssd2828_config) (w : World)
    (h1 : c.csx_pin = d.csx_pin) (h2 : c.sck_pin = d.sck_pin) (h3 : c.sdi_pin = d.sdi_pin)
    (h4 : c.sdo_pin = d.sdo_pin) (h5 : c.reset_pin = d.reset_pin) :
    hbc068.ssd2828_enable_gpio B c w = hbc068.ssd2828_enable_gpio B d w := by
  rw [hbc068_enable_cases, hbc068_enable_cases, h1, h2, h3, h4, h5]

theorem hbc04_traceOf_congr (c d : r61408_config) (ss : List hbc04.Stmt)
    (h1 : c.csx_pin = d.csx_pin) (h2 : c.sck_pin = d.sck_pin) (h3 : c.sdi_pin = d.sdi_pin) :
    hbc04.traceOf c ss = hbc04.traceOf d ss := by
  induction ss with
  | nil => rfl
  | cons s ss ih =>
      cases s <;> simp only [hbc04.traceOf, hbc04.Stmt.trace, h1, h2, h3, ih]

theorem hbc068_traceOf_congr (c d : ssd2828_config) (ss : List hbc068.Stmt)
    (h1 : c.csx_pin = d.csx_pin) (h2 : c.sck_pin = d.sck_pin) (h3 : c.sdi_pin = d.sdi_pin) :
    hbc068.traceOf c ss = hbc068.traceOf d ss := by
  induction ss with
  | nil => rfl
  | cons s ss ih =>
      cases s <;>
        simp only [hbc068.traceOf, hbc068.Stmt.trace, hbc068.cmdTrace, hbc068.dataTrace,
          h1, h2, h3, ih]

theorem hbc04_init_congr (B : Backend) (c d : r61408_config) (w : World)
    (h1 : c.csx_pin = d.csx_pin) (h2 : c.sck_pin = d.sck_pin) (h3 : c.sdi_pin = d.sdi_pin)
    (h4 : c.sdo_pin = d.sdo_pin) (h5 : c.reset_pin = d.reset_pin) :
    hbc04.R61408_Init B c w = hbc04.R61408_Init B d w := by
  have he := hbc04_enable_congr B c d w h1 h2 h3 h4 h5
  by_cases hr : (hbc04.r61408_enable_gpio B c w).1 = 0
  · have hc : hbc04.r61408_enable_gpio B c w = (0, (hbc04.r61408_enable_gpio B c w).2) :=
      Prod.ext hr rfl
    have hd : hbc04.r61408_enable_gpio B d w = (0, (hbc04.r61408_enable_gpio B c w).2) := by
      rw [← he]; exact hc
    rw [hbc04_init_world B c w _ hc, hbc04_init_world B d w _ hd]
    simp only [nthRead_eq, hbc04.resetTrace, hbc04.detectTrace, hbc04.readFrame, h1, h2, h3,
      h4, h5, hbc04_traceOf_congr c d _ h1 h2 h3]
  · have hr2 : (hbc04.r61408_enable_gpio B d w).1 ≠ 0 := by rw [← he]; exact hr
    rw [hbc04_init_of_fail B c w hr, hbc04_init_of_fail B d w hr2, he]

theorem hbc068_init_congr (B : Backend) (c d : ssd2828_config) (w : World)
    (h1 : c.csx_pin = d.csx_pin) (h2 : c.sck_pin = d.sck_pin) (h3 : c.sdi_pin = d.sdi_pin)
    (h4 : c.sdo_pin = d.sdo_pin) (h5 : c.reset_pin = d.reset_pin) :
    hbc068.HX8394_Init B c w = hbc068.HX8394_Init B d w := by
  have he := hbc068_enable_congr B c d w h1 h2 h3 h4 h5
  by_cases hr : (hbc068.ssd2828_enable_gpio B c w).1 = 0
  · have hc : hbc068.ssd2828_enable_gpio B c w
        = (0, (hbc068.ssd2828_enable_gpio B c w).2) := Prod.ext hr rfl
    have hd : hbc068.ssd2828_enable_gpio B d w
        = (0, (hbc068.ssd2828_enable_gpio B c w).2) := by
      rw [← he]; exact hc
    rw [hbc068_init_world B c w _ hc, hbc068_init_world B d w _ hd]
    simp only [hbc068.resetTrace, h1, h2, h5, hbc068_traceOf_congr c d _ h1 h2 h3]
  · have hr2 : (hbc068.ssd2828_enable_gpio B d w).1 ≠ 0 := by rw [← he]; exact hr
    rw [hbc068_init_of_fail B c w hr, hbc068_init_of_fail B d w hr2, he]

/-- C17. Panel parameters are pass-through: two configurations that agree on
the five pin fields, whatever their clock, colour-depth, lane, bit-rate,
packing and delay fields, make `R61408_Init` (resp. `HX8394_Init`) return the
same world, hence the same calls in the same order, on the same board from
the same start. -/
theorem C17_panel_fields_unused (B : Backend) (c d : r61408_config)
    (e f : ssd2828_config) (w : World)
    (hcd : c.csx_pin = d.csx_pin ∧ c.sck_pin = d.sck_pin ∧ c.sdi_pin = d.sdi_pin ∧
      c.sdo_pin = d.sdo_pin ∧ c.reset_pin = d.reset_pin)
    (hef : e.csx_pin = f.csx_pin ∧ e.sck_pin = f.sck_pin ∧ e.sdi_pin = f.sdi_pin ∧
      e.sdo_pin = f.sdo_pin ∧ e.reset_pin = f.reset_pin) :
    hbc04.R61408_Init B c w = hbc04.R61408_Init B d w ∧
    emitted w (hbc04.R61408_Init B c w) = emitted w (hbc04.R61408_Init B d w) ∧
    hbc068.HX8394_Init B e w = hbc068.HX8394_Init B f w ∧
    emitted w (hbc068.HX8394_Init B e w) = emitted w (hbc068.HX8394_Init B f w) := by
  obtain ⟨a1, a2, a3, a4, a5⟩ := hcd
  obtain ⟨b1, b2, b3, b4, b5⟩ := hef
  have h4 := hbc04_init_congr B c d w a1 a2 a3 a4 a5
  have h68 := hbc068_init_congr B e f w b1 b2 b3 b4 b5
  exact ⟨h4, by rw [h4], h68, by rw [h68]⟩

/-- Witness of C17: the board configurations against ones with other panel
parameters. -/
theorem C17_panel_fields_unused_witness :
    hbc04.R61408_Init (feedBytes []) boardCfg04 World.init
      = hbc04.R61408_Init (feedBytes []) panelVariant04 World.init ∧
    hbc068.HX8394_Init (feedBytes []) boardCfg068 World.init
      = hbc068.HX8394_Init (feedBytes []) panelVariant068 World.init :=
  have h := C17_panel_fields_unused (feedBytes []) boardCfg04 panelVariant04 boardCfg068
    panelVariant068 World.init (by decide) (by decide)
  ⟨h.1, h.2.2.1⟩

/-! ## Directions first, reset timing, and what a read leaves alone -/

theorem countP_bitCells_zero (q : Ev → Bool) (hset : ∀ p v, q (Ev.set p v) = false)
    (hud : ∀ n, q (Ev.udelay n) = false) (sck sdi : Int) (d : Nat) (bs : List Nat) :
    (bitCells sck sdi d bs).countP q = 0 := by
  induction bs with
  | nil => rfl
  | cons b bs ih => simp [bitCells, List.countP_cons, ih, hset, hud]

theorem countP_writeFrame_zero (q : Ev → Bool) (hset : ∀ p v, q (Ev.set p v) = false)
    (hud : ∀ n, q (Ev.udelay n) = false) (csx sck sdi : Int) (d f v : Nat) :
    (writeFrame csx sck sdi d f v).countP q = 0 := by
  simp [writeFrame, List.countP_cons, countP_bitCells_zero q hset hud, hset, hud]

theorem countP_readCells_zero (q : Ev → Bool) (hset : ∀ p v, q (Ev.set p v) = false)
    (hud : ∀ n, q (Ev.udelay n) = false) (hget : ∀ p v, q (Ev.get p v) = false)
    (B : Backend) (sck sdo : Int) (d : Nat) (k : Nat) :
    ∀ g, (readCells B sck sdo d g k).countP q = 0 := by
  induction k with
  | zero => intro g; rfl
  | succ k ih => intro g; simp [readCells, List.countP_cons, ih, hset, hud, hget]

theorem countP_traceOf04_zero (q : Ev → Bool) (hset : ∀ p v, q (Ev.set p v) = false)
    (hud : ∀ n, q (Ev.udelay n) = false) (hmd : ∀ n, q (Ev.mdelay n) = false)
    (cfg : r61408_config) (ss : List hbc04.Stmt) :
    (hbc04.traceOf cfg ss).countP q = 0 := by
  induction ss with
  | nil => rfl
  | cons s ss ih =>
      cases s <;>
        simp [hbc04.traceOf, hbc04.Stmt.trace, List.countP_cons, ih,
          countP_writeFrame_zero q hset hud, hset, hmd]

theorem countP_traceOf068_zero (q : Ev → Bool) (hset : ∀ p v, q (Ev.set p v) = false)
    (hud : ∀ n, q (Ev.udelay n) = false) (hmd : ∀ n, q (Ev.mdelay n) = false)
    (cfg : ssd2828_config) (ss : List hbc068.Stmt) :
    (hbc068.traceOf cfg ss).countP q = 0 := by
  induction ss with
  | nil => rfl
  | cons s ss ih =>
      cases s <;>
        simp [hbc068.traceOf, hbc068.Stmt.trace, hbc068.cmdTrace, hbc068.dataTrace,
          List.countP_cons, ih, countP_writeFrame_zero q hset hud, hset, hmd]

/-- After the acquisition `R61408_Init` sets no direction. -/
theorem hbc04_no_direction_after (B : Backend) (cfg : r61408_config) (g : Nat)
    (P : Prop) [Decidable P] :
    (hbc04.resetTrace cfg ++ hbc04.detectTrace B cfg g
        ++ (if P then
              Ev.printf Msg.found :: hbc04.traceOf cfg hbc04.r61529_Reg_Fill_body
            else [])
        ++ [Ev.set cfg.csx_pin 1]).countP Ev.isDirection = 0 := by
  have hw := countP_writeFrame_zero Ev.isDirection (fun _ _ => rfl) (fun _ => rfl)
  have hr := countP_readCells_zero Ev.isDirection (fun _ _ => rfl) (fun _ => rfl)
    (fun _ _ => rfl)
  have ht := countP_traceOf04_zero Ev.isDirection (fun _ _ => rfl) (fun _ => rfl)
    (fun _ => rfl) cfg hbc04.r61529_Reg_Fill_body
  by_cases hP : P <;>
    simp [hP, hbc04.resetTrace, hbc04.detectTrace, hbc04.readFrame, List.countP_cons, hw, hr,
      ht, Ev.isDirection]

theorem hbc068_no_direction_after (cfg : ssd2828_config) :
    (hbc068.resetTrace cfg ++ hbc068.traceOf cfg hbc068.HX8394_Init_body).countP
      Ev.isDirection = 0 := by
  have ht := countP_traceOf068_zero Ev.isDirection (fun _ _ => rfl) (fun _ => rfl)
    (fun _ => rfl) cfg hbc068.HX8394_Init_body
  simp [hbc068.resetTrace, List.countP_cons, ht, Ev.isDirection]

theorem hbc04_acquire_no_level (cfg : r61408_config) :
    ∀ e ∈ hbc04.acquireTrace cfg, e.isLevelOrDelay = false := by
  unfold hbc04.acquireTrace requiredPins
  split <;> simp [Ev.isLevelOrDelay]

theorem hbc068_acquire_no_level (cfg : ssd2828_config) :
    ∀ e ∈ hbc068.acquireTrace cfg, e.isLevelOrDelay = false := by
  unfold hbc068.acquireTrace requiredPins
  split <;> simp [Ev.isLevelOrDelay]

theorem hbc04_acquire_dirIn (cfg : r61408_config) (p : Int) :
    Ev.dirIn p ∈ hbc04.acquireTrace cfg ↔ cfg.sdo_pin ≠ -1 ∧ p = cfg.sdo_pin := by
  unfold hbc04.acquireTrace requiredPins
  split <;> simp [*]

theorem hbc068_acquire_dirIn (cfg : ssd2828_config) (p : Int) :
    Ev.dirIn p ∈ hbc068.acquireTrace cfg ↔ cfg.sdo_pin ≠ -1 ∧ p = cfg.sdo_pin := by
  unfold hbc068.acquireTrace requiredPins
  split <;> simp [*]

/-- C18. On successful acquisition `r61408_enable_gpio` (resp.
`ssd2828_enable_gpio`) makes, after the granted requests, exactly these
direction settings: reset, chip-select, clock and data-out as outputs, then
data-in as input if and only if `sdo_pin` is not -1.  The acquisition makes no
level write, level read or delay, and everything `R61408_Init` (resp.
`HX8394_Init`) does afterwards contains no direction setting, so all direction
settings precede the first level write, level read or delay of the call. -/
theorem C18_directions_first (B : Backend) (c4 : r61408_config) (c68 : ssd2828_config)
    (w w1 v v1 : World)
    (h4 : hbc04.r61408_enable_gpio B c4 w = (0, w1))
    (h68 : hbc068.ssd2828_enable_gpio B c68 v = (0, v1)) :
    (emitted w w1
        = (requiredPins c4.csx_pin c4.sck_pin c4.sdi_pin c4.reset_pin c4.sdo_pin).map
            (fun p => Ev.request p true)
          ++ [Ev.dirOut c4.reset_pin 1, Ev.dirOut c4.csx_pin 1, Ev.dirOut c4.sck_pin 1,
              Ev.dirOut c4.sdi_pin 1]
          ++ (if c4.sdo_pin ≠ -1 then [Ev.dirIn c4.sdo_pin] else []) ∧
      (∀ p, Ev.dirIn p ∈ emitted w w1 ↔ c4.sdo_pin ≠ -1 ∧ p = c4.sdo_pin) ∧
      (∀ e ∈ emitted w w1, e.isLevelOrDelay = false) ∧
      (∃ rest, emitted w (hbc04.R61408_Init B c4 w) = emitted w w1 ++ rest ∧
        ∀ e ∈ rest, e.isDirection = false)) ∧
    (emitted v v1
        = (requiredPins c68.csx_pin c68.sck_pin c68.sdi_pin c68.reset_pin c68.sdo_pin).map
            (fun p => Ev.request p true)
          ++ [Ev.dirOut c68.reset_pin 0, Ev.dirOut c68.csx_pin 1, Ev.dirOut c68.sck_pin 1,
              Ev.dirOut c68.sdi_pin 1]
          ++ (if c68.sdo_pin ≠ -1 then [Ev.dirIn c68.sdo_pin] else []) ∧
      (∀ p, Ev.dirIn p ∈ emitted v v1 ↔ c68.sdo_pin ≠ -1 ∧ p = c68.sdo_pin) ∧
      (∀ e ∈ emitted v v1, e.isLevelOrDelay = false) ∧
      (∃ rest, emitted v (hbc068.HX8394_Init B c68 v) = emitted v v1 ++ rest ∧
        ∀ e ∈ rest, e.isDirection = false)) := by
  have hw1 := hbc04_enable_ok B c4 w w1 h4
  have hv1 := hbc068_enable_ok B c68 v v1 h68
  have e4 : emitted w w1 = hbc04.acquireTrace c4 := by rw [hw1, emitted_mk]
  have e68 : emitted v v1 = hbc068.acquireTrace c68 := by rw [hv1, emitted_mk]
  refine ⟨⟨by rw [e4]; rfl, ?_, ?_, ?_⟩, ⟨by rw [e68]; rfl, ?_, ?_, ?_⟩⟩
  · intro p; rw [e4]; exact hbc04_acquire_dirIn c4 p
  · rw [e4]; exact hbc04_acquire_no_level c4
  · have ht : w1.trace = w.trace ++ hbc04.acquireTrace c4 := by rw [hw1]
    refine ⟨hbc04.resetTrace c4 ++ hbc04.detectTrace B c4 w1.nget
        ++ (if hbc04.nthRead B c4 w1 3 = 0x15 ∧ hbc04.nthRead B c4 w1 4 = 0x29 then
              Ev.printf Msg.found :: hbc04.traceOf c4 hbc04.r61529_Reg_Fill_body
            else [])
        ++ [Ev.set c4.csx_pin 1], ?_, ?_⟩
    · rw [hbc04_init_world B c4 w w1 h4, e4]
      simp [emitted, ht]
    · intro e he
      have hz := hbc04_no_direction_after B c4 w1.nget
        (hbc04.nthRead B c4 w1 3 = 0x15 ∧ hbc04.nthRead B c4 w1 4 = 0x29)
      rw [List.countP_eq_zero] at hz
      simpa using hz e he
  · intro p; rw [e68]; exact hbc068_acquire_dirIn c68 p
  · rw [e68]; exact hbc068_acquire_no_level c68
  · have ht : v1.trace = v.trace ++ hbc068.acquireTrace c68 := by rw [hv1]
    refine ⟨hbc068.resetTrace c68 ++ hbc068.traceOf c68 hbc068.HX8394_Init_body, ?_, ?_⟩
    · rw [hbc068_init_world B c68 v v1 h68, e68]
      simp [emitted, ht]
    · intro e he
      have hz := hbc068_no_direction_after c68
      rw [List.countP_eq_zero] at hz
      simpa using hz e he

/-- Witness of C18 on the board pin assignments. -/
theorem C18_directions_first_witness :
    emitted World.init boardAcquired068
      = (requiredPins boardCfg068.csx_pin boardCfg068.sck_pin boardCfg068.sdi_pin
            boardCfg068.reset_pin boardCfg068.sdo_pin).map (fun p => Ev.request p true)
        ++ [Ev.dirOut boardCfg068.reset_pin 0, Ev.dirOut boardCfg068.csx_pin 1,
            Ev.dirOut boardCfg068.sck_pin 1, Ev.dirOut boardCfg068.sdi_pin 1]
        ++ (if boardCfg068.sdo_pin ≠ -1 then [Ev.dirIn boardCfg068.sdo_pin] else []) :=
  (C18_directions_first (feedBytes []) boardCfg04 boardCfg068 World.init boardAcquired04
    World.init boardAcquired068 (by decide) (by decide)).2.1

/-- C19. Reset timing is a pair of fixed constants.  After the acquisition,
`R61408_Init` drives reset low, waits 10 ms, drives it high and waits 10 ms
more before chip-select is driven high and the first command (0xB0) is clocked
out; `HX8394_Init` drives reset low, waits 50 ms, drives it high and waits
150 ms before the clock is driven low and the first command (0xB7) is clocked
out.  This holds for every configuration and board. -/
theorem C19_reset_timing (B : Backend) (c4 : r61408_config) (c68 : ssd2828_config)
    (w w1 v v1 : World)
    (h4 : hbc04.r61408_enable_gpio B c4 w = (0, w1))
    (h68 : hbc068.ssd2828_enable_gpio B c68 v = (0, v1)) :
    (∃ rest, emitted w1 (hbc04.R61408_Init B c4 w)
      = [Ev.set c4.csx_pin 1, Ev.mdelay 2, Ev.set c4.csx_pin 0]
        ++ [Ev.set c4.reset_pin 0, Ev.mdelay 10, Ev.set c4.reset_pin 1, Ev.mdelay 10]
        ++ (Ev.set c4.csx_pin 1 :: emitted w1 (hbc04.SPI_WriteComm c4 0xB0 w1))
        ++ rest) ∧
    (∃ rest, emitted v1 (hbc068.HX8394_Init B c68 v)
      = [Ev.set c68.csx_pin 1, Ev.set c68.reset_pin 1, Ev.mdelay 5]
        ++ [Ev.set c68.reset_pin 0, Ev.mdelay 50, Ev.set c68.reset_pin 1, Ev.mdelay 150]
        ++ (Ev.set c68.sck_pin 0 :: emitted v1 (hbc068.SPI_WriteCmd c68 0xB7 v1))
        ++ rest) := by
  constructor
  · rw [hbc04_init_world B c4 w w1 h4, emitted_app_reads, hbc04_SPI_WriteComm_eq,
      emitted_app]
    refine ⟨writeFrame c4.csx_pin c4.sck_pin c4.sdi_pin 1 1 0x04
        ++ [Ev.set c4.csx_pin 1]
        ++ writeFrame c4.csx_pin c4.sck_pin c4.sdi_pin 1 0 0xBF
        ++ hbc04.readFrame B c4 w1.nget ++ hbc04.readFrame B c4 (w1.nget + 8)
        ++ hbc04.readFrame B c4 (w1.nget + 16) ++ hbc04.readFrame B c4 (w1.nget + 24)
        ++ hbc04.readFrame B c4 (w1.nget + 32)
        ++ [Ev.set c4.csx_pin 1]
        ++ writeFrame c4.csx_pin c4.sck_pin c4.sdi_pin 1 0 0xB0
        ++ writeFrame c4.csx_pin c4.sck_pin c4.sdi_pin 1 1 0x04
        ++ [Ev.set c4.csx_pin 1]
        ++ (if hbc04.nthRead B c4 w1 3 = 0x15 ∧ hbc04.nthRead B c4 w1 4 = 0x29 then
              Ev.printf Msg.found :: hbc04.traceOf c4 hbc04.r61529_Reg_Fill_body
            else [])
        ++ [Ev.set c4.csx_pin 1], ?_⟩
    simp only [hbc04.resetTrace, hbc04.detectTrace, List.append_assoc, List.cons_append,
      List.nil_append]
  · rw [hbc068_init_world B c68 v v1 h68, emitted_app, hbc068_SPI_WriteCmd_eq, emitted_app]
    have hb : hbc068.traceOf c68 hbc068.HX8394_Init_body
        = hbc068.cmdTrace c68 0xB7
          ++ hbc068.traceOf c68 hbc068.HX8394_Init_body.tail := rfl
    refine ⟨hbc068.traceOf c68 hbc068.HX8394_Init_body.tail, ?_⟩
    rw [hb]
    simp only [hbc068.resetTrace, hbc068.cmdTrace, List.append_assoc, List.cons_append,
      List.nil_append]

/-- Witness of C19 on the board pin assignments. -/
theorem C19_reset_timing_witness :
    ∃ rest, emitted boardAcquired068
        (hbc068.HX8394_Init (feedBytes []) boardCfg068 World.init)
      = [Ev.set boardCfg068.csx_pin 1, Ev.set boardCfg068.reset_pin 1, Ev.mdelay 5]
        ++ [Ev.set boardCfg068.reset_pin 0, Ev.mdelay 50, Ev.set boardCfg068.reset_pin 1,
            Ev.mdelay 150]
        ++ (Ev.set boardCfg068.sck_pin 0
            :: emitted boardAcquired068
                (hbc068.SPI_WriteCmd boardCfg068 0xB7 boardAcquired068))
        ++ rest :=
  (C19_reset_timing (feedBytes []) boardCfg04 boardCfg068 World.init boardAcquired04
    World.init boardAcquired068 (by decide) (by decide)).2

/-- C20. `SPI_ReadData` leaves data-out as the prior write left it: its calls
are chip-select driven low once, first, then only clock writes, waits of one
delay unit and samples of the data-in pin, exactly eight of them; it writes
neither the data-out pin nor the reset pin (pins pairwise distinct). -/
theorem C20_read_frame (B : Backend) (cfg : r61408_config) (w : World)
    (h1 : cfg.csx_pin ≠ cfg.sck_pin) (h2 : cfg.sdi_pin ≠ cfg.csx_pin)
    (h3 : cfg.sdi_pin ≠ cfg.sck_pin) (h4 : cfg.reset_pin ≠ cfg.csx_pin)
    (h5 : cfg.reset_pin ≠ cfg.sck_pin) :
    (∀ e ∈ emitted w (hbc04.SPI_ReadData B cfg w).2,
      e = Ev.set cfg.csx_pin 0 ∨ e = Ev.set cfg.sck_pin 0 ∨ e = Ev.set cfg.sck_pin 1 ∨
        e = Ev.udelay 1 ∨ ∃ x, e = Ev.get cfg.sdo_pin x) ∧
    (emitted w (hbc04.SPI_ReadData B cfg w).2).head? = some (Ev.set cfg.csx_pin 0) ∧
    (emitted w (hbc04.SPI_ReadData B cfg w).2).count (Ev.set cfg.csx_pin 0) = 1 ∧
    (emitted w (hbc04.SPI_ReadData B cfg w).2).countP Ev.isGet = 8 ∧
    (∀ x, Ev.set cfg.sdi_pin x ∉ emitted w (hbc04.SPI_ReadData B cfg w).2) ∧
    (∀ x, Ev.set cfg.reset_pin x ∉ emitted w (hbc04.SPI_ReadData B cfg w).2) ∧
    lastLevel cfg.sdi_pin (emitted w (hbc04.SPI_ReadData B cfg w).2) = none ∧
    lastLevel cfg.reset_pin (emitted w (hbc04.SPI_ReadData B cfg w).2) = none := by
  rw [SPI_ReadData_eq]
  simp only [emitted_app_reads]
  have hs : cfg.sck_pin ≠ cfg.csx_pin := fun e => h1 e.symm
  refine ⟨?_, rfl, ?_, ?_, ?_, ?_, ?_, ?_⟩
  · intro e he
    simp [readCells] at he
    tauto
  · simp [readCells, List.count_cons, hs]
  · simp [readCells, List.countP_cons, Ev.isGet]
  · intro x; simp [readCells, h2, h3]
  · intro x; simp [readCells, h4, h5]
  · simp [readCells, lastLevel, h2, h3, Ne.symm h2, Ne.symm h3]
  · simp [readCells, lastLevel, h4, h5, Ne.symm h4, Ne.symm h5]

/-- Witness of C20 on the board pin assignment. -/
theorem C20_read_frame_witness :
    (emitted World.init (hbc04.SPI_ReadData (feedBytes [0x29]) boardCfg04 World.init).2).countP
      Ev.isGet = 8 :=
  (C20_read_frame (feedBytes [0x29]) boardCfg04 World.init (by decide) (by decide)
    (by decide) (by decide) (by decide)).2.2.2.1

/-! ## The calls of `R61408_Init` counted from its entry -/

/-- The calls of `R61408_Init`, counted from its entry, after a successful
acquisition. -/
theorem hbc04_init_emitted (B : Backend) (cfg : r61408_config) (w w1 : World)
    (h : hbc04.r61408_enable_gpio B cfg w = (0, w1)) :
    emitted w (hbc04.R61408_Init B cfg w)
      = hbc04.acquireTrace cfg ++ (hbc04.resetTrace cfg ++ (hbc04.detectTrace B cfg w1.nget
        ++ ((if hbc04.nthRead B cfg w1 3 = 0x15 ∧ hbc04.nthRead B cfg w1 4 = 0x29 then
              Ev.printf Msg.found :: hbc04.traceOf cfg hbc04.r61529_Reg_Fill_body
            else [])
        ++ [Ev.set cfg.csx_pin 1]))) := by
  rw [hbc04_init_world B cfg w w1 h, hbc04_enable_ok B cfg w w1 h]
  simp [emitted, World.app, World.reads]

/-! ## Packet lengths in `HX8394_Init` -/

set_option maxRecDepth 1000000 in
theorem hbc068_packets_body :
    hbc068.packets hbc068.HX8394_Init_body
      = [(4, 4), (3, 3), (16, 16), (13, 13), (13, 13), (4, 4), (33, 33), (45, 45), (45, 45),
         (43, 43), (2, 2), (5, 5), (3, 3), (3, 3), (3, 3), (2, 2), (2, 2), (1, 1), (1, 1),
         (3, 3), (2, 2), (2, 2)] := by
  decide

/-- C21. Packet-length consistency in `HX8394_Init`: `SSD2828_WritePackageSize(n)`
writes command 0xB7 with data 0x50, 0x02, command 0xBD with data 0x00, 0x00,
command 0xBC with data `n`, 0x00, then command 0xBF; and for each of its
twenty-two calls in `HX8394_Init` the number of data bytes written after the
call, up to the next command byte, is the declared `n`. -/
theorem C21_packet_length (cfg : ssd2828_config) (n : Nat) (w : World) :
    emitted w (hbc068.SSD2828_WritePackageSize cfg n w)
      = emitted w (hbc068.SPI_WriteCmd cfg 0xB7 w)
        ++ emitted w (hbc068.SPI_WriteData cfg 0x50 w)
        ++ emitted w (hbc068.SPI_WriteData cfg 0x02 w)
        ++ emitted w (hbc068.SPI_WriteCmd cfg 0xBD w)
        ++ emitted w (hbc068.SPI_WriteData cfg 0x00 w)
        ++ emitted w (hbc068.SPI_WriteData cfg 0x00 w)
        ++ emitted w (hbc068.SPI_WriteCmd cfg 0xBC w)
        ++ emitted w (hbc068.SPI_WriteData cfg n w)
        ++ emitted w (hbc068.SPI_WriteData cfg 0x00 w)
        ++ emitted w (hbc068.SPI_WriteCmd cfg 0xBF w) ∧
    (hbc068.packets hbc068.HX8394_Init_body).length = 22 ∧
    (hbc068.packets hbc068.HX8394_Init_body).all (fun p => p.2 == p.1) = true ∧
    (hbc068.packets hbc068.HX8394_Init_body).map Prod.fst
      = [4, 3, 16, 13, 13, 4, 33, 45, 45, 43, 2, 5, 3, 3, 3, 2, 2, 1, 1, 3, 2, 2] ∧
    emitted w (hbc068.run cfg hbc068.HX8394_Init_body w)
      = hbc068.traceOf cfg hbc068.HX8394_Init_body ∧
    (∀ m ss, hbc068.traceOf cfg (hbc068.Stmt.SSD2828_WritePackageSize m :: ss)
      = emitted w (hbc068.SSD2828_WritePackageSize cfg m w) ++ hbc068.traceOf cfg ss) ∧
    (∀ v ss, hbc068.traceOf cfg (hbc068.Stmt.SPI_WriteData v :: ss)
      = emitted w (hbc068.SPI_WriteData cfg v w) ++ hbc068.traceOf cfg ss) ∧
    (∀ v ss, hbc068.traceOf cfg (hbc068.Stmt.SPI_WriteCmd v :: ss)
      = emitted w (hbc068.SPI_WriteCmd cfg v w) ++ hbc068.traceOf cfg ss) := by
  have hp := hbc068_packets_body
  refine ⟨?_, ?_, ?_, ?_, ?_, ?_, ?_, ?_⟩
  · simp only [hbc068_WritePackageSize_eq, hbc068_SPI_WriteCmd_eq, hbc068_SPI_WriteData_eq,
      emitted_app, hbc068.Stmt.trace, hbc068.cmdTrace, hbc068.dataTrace]
  · rw [hp]; rfl
  · rw [hp]; rfl
  · rw [hp]; rfl
  · rw [hbc068_run_eq, emitted_app]
  · intro m ss
    simp only [hbc068_WritePackageSize_eq, emitted_app, hbc068.traceOf]
  · intro v ss
    simp only [hbc068_SPI_WriteData_eq, emitted_app, hbc068.traceOf, hbc068.Stmt.trace,
      hbc068.dataTrace]
  · intro v ss
    simp only [hbc068_SPI_WriteCmd_eq, emitted_app, hbc068.traceOf, hbc068.Stmt.trace,
      hbc068.cmdTrace]

/-! ## Chip-select framing -/

theorem cs_bitCells (csx sck sdi : Int) (h1 : csx ≠ sck) (h2 : csx ≠ sdi) (d : Nat)
    (b : Bool) (bs : List Nat) :
    ∀ rest, csFramed csx sck sdi b 0 (bitCells sck sdi d bs ++ rest)
      = csFramed csx sck sdi b 0 rest := by
  induction bs with
  | nil => intro rest; rfl
  | cons x bs ih =>
      intro rest
      simp [bitCells, csFramed, Ne.symm h1, Ne.symm h2, ih]

/-- A command byte is accepted only when chip-select has been driven high
since the previous one, and leaves that flag cleared. -/
theorem cs_writeFrame_cmd (csx sck sdi : Int) (h1 : csx ≠ sck) (h2 : csx ≠ sdi) (d v : Nat)
    (b : Bool) (s : Nat) (rest : List Ev) :
    csFramed csx sck sdi b s (writeFrame csx sck sdi d 0 v ++ rest)
      = (b && csFramed csx sck sdi false 0 rest) := by
  simp [writeFrame, csFramed, Ne.symm h1, Ne.symm h2, cs_bitCells csx sck sdi h1 h2]

theorem cs_writeFrame_data (csx sck sdi : Int) (h1 : csx ≠ sck) (h2 : csx ≠ sdi) (d v : Nat)
    (b : Bool) (s : Nat) (rest : List Ev) :
    csFramed csx sck sdi b s (writeFrame csx sck sdi d 1 v ++ rest)
      = csFramed csx sck sdi b 0 rest := by
  simp [writeFrame, csFramed, Ne.symm h1, Ne.symm h2, cs_bitCells csx sck sdi h1 h2]

theorem cs_readFrame (B : Backend) (cfg : r61408_config) (h1 : cfg.csx_pin ≠ cfg.sck_pin)
    (g : Nat) (b : Bool) (s : Nat) (rest : List Ev) :
    csFramed cfg.csx_pin cfg.sck_pin cfg.sdi_pin b s (hbc04.readFrame B cfg g ++ rest)
      = csFramed cfg.csx_pin cfg.sck_pin cfg.sdi_pin b 0 rest := by
  simp [hbc04.readFrame, readCells, csFramed, Ne.symm h1]

theorem cs_acquire (cfg : r61408_config) (b : Bool) (s : Nat) (rest : List Ev) :
    csFramed cfg.csx_pin cfg.sck_pin cfg.sdi_pin b s (hbc04.acquireTrace cfg ++ rest)
      = csFramed cfg.csx_pin cfg.sck_pin cfg.sdi_pin b 0 rest := by
  unfold hbc04.acquireTrace requiredPins
  split <;> simp [csFramed]

theorem cs_reset (cfg : r61408_config) (b : Bool) (s : Nat) (rest : List Ev) :
    csFramed cfg.csx_pin cfg.sck_pin cfg.sdi_pin b s (hbc04.resetTrace cfg ++ rest)
      = csFramed cfg.csx_pin cfg.sck_pin cfg.sdi_pin true 0 rest := by
  by_cases hr : cfg.reset_pin = cfg.csx_pin <;> by_cases hs : cfg.reset_pin = cfg.sck_pin <;>
    simp [hbc04.resetTrace, csFramed, hr, hs]

theorem cs_set_high (csx sck sdi : Int) (b : Bool) (s : Nat) (rest : List Ev) :
    csFramed csx sck sdi b s ([Ev.set csx 1] ++ rest) = csFramed csx sck sdi true 0 rest := by
  simp [csFramed]

theorem cs_detect (B : Backend) (cfg : r61408_config) (h1 : cfg.csx_pin ≠ cfg.sck_pin)
    (h2 : cfg.csx_pin ≠ cfg.sdi_pin) (g : Nat) (rest : List Ev) :
    csFramed cfg.csx_pin cfg.sck_pin cfg.sdi_pin true 0 (hbc04.detectTrace B cfg g ++ rest)
      = csFramed cfg.csx_pin cfg.sck_pin cfg.sdi_pin true 0 rest := by
  unfold hbc04.detectTrace
  simp only [List.append_assoc]
  rw [cs_writeFrame_cmd _ _ _ h1 h2, cs_writeFrame_data _ _ _ h1 h2, cs_set_high,
    cs_writeFrame_cmd _ _ _ h1 h2, cs_readFrame B cfg h1, cs_readFrame B cfg h1,
    cs_readFrame B cfg h1, cs_readFrame B cfg h1, cs_readFrame B cfg h1, cs_set_high,
    cs_writeFrame_cmd _ _ _ h1 h2, cs_writeFrame_data _ _ _ h1 h2, cs_set_high]
  rfl

theorem cs_traceOf04 (cfg : r61408_config) (h1 : cfg.csx_pin ≠ cfg.sck_pin)
    (h2 : cfg.csx_pin ≠ cfg.sdi_pin) (ss : List hbc04.Stmt) :
    ∀ (b : Bool) (s : Nat) (rest : List Ev),
      csFramed cfg.csx_pin cfg.sck_pin cfg.sdi_pin b s
          (hbc04.traceOf cfg ss ++ Ev.set cfg.csx_pin 1 :: rest)
        = (hbc04.csOk b ss && csFramed cfg.csx_pin cfg.sck_pin cfg.sdi_pin true 0 rest) := by
  induction ss with
  | nil => intro b s rest; simp [hbc04.traceOf, hbc04.csOk, csFramed]
  | cons x ss ih =>
      intro b s rest
      cases x with
      | SPI_WriteComm v =>
          simp only [hbc04.traceOf, hbc04.Stmt.trace, List.append_assoc, hbc04.csOk,
            cs_writeFrame_cmd _ _ _ h1 h2, ih, Bool.and_assoc]
      | SPI_WriteData v =>
          simp only [hbc04.traceOf, hbc04.Stmt.trace, List.append_assoc, hbc04.csOk,
            cs_writeFrame_data _ _ _ h1 h2, ih]
      | set_csx v =>
          by_cases hv : v = 1
          · simp [hbc04.traceOf, hbc04.Stmt.trace, hbc04.csOk, csFramed, hv, ih]
          · by_cases hv0 : v = 0
            · simp [hbc04.traceOf, hbc04.Stmt.trace, hbc04.csOk, csFramed, hv0, ih]
            · simp [hbc04.traceOf, hbc04.Stmt.trace, hbc04.csOk, csFramed, hv, hv0, ih]
      | mdelay n =>
          simp [hbc04.traceOf, hbc04.Stmt.trace, hbc04.csOk, csFramed, ih]

set_option maxRecDepth 100000 in
theorem csOk_fill : hbc04.csOk true hbc04.r61529_Reg_Fill_body = true := by
  decide

/-- C22. Chip-select framing in the hbc04 driver: in the whole trace of
`R61408_Init` with a successful acquisition, whether or not the detection
matches, chip-select is driven high between any two consecutive command bytes
(and before the first one), and the last call of `R61408_Init` drives
chip-select high.  Chip-select is a pin distinct from clock and data-out. -/
theorem C22_chip_select_framing (B : Backend) (cfg : r61408_config) (w w1 : World)
    (h : hbc04.r61408_enable_gpio B cfg w = (0, w1))
    (h1 : cfg.csx_pin ≠ cfg.sck_pin) (h2 : cfg.csx_pin ≠ cfg.sdi_pin) :
    csFramed cfg.csx_pin cfg.sck_pin cfg.sdi_pin false 0
        (emitted w (hbc04.R61408_Init B cfg w)) = true ∧
    (emitted w (hbc04.R61408_Init B cfg w)).getLast? = some (Ev.set cfg.csx_pin 1) ∧
    (∀ v s rest, csFramed cfg.csx_pin cfg.sck_pin cfg.sdi_pin false s
        (emitted w (hbc04.SPI_WriteComm cfg v w) ++ rest) = false) := by
  have e := hbc04_init_emitted B cfg w w1 h
  have hf := cs_traceOf04 cfg h1 h2 hbc04.r61529_Reg_Fill_body true 0 []
  rw [csOk_fill] at hf
  generalize hbc04.traceOf cfg hbc04.r61529_Reg_Fill_body = fill at e hf
  refine ⟨?_, ?_, ?_⟩
  · rw [e, cs_acquire, cs_reset, cs_detect B cfg h1 h2]
    split
    · simp only [List.cons_append, csFramed]
      exact hf
    · simp [csFramed]
  · rw [e]
    simp only [← List.append_assoc]
    rw [List.getLast?_append]
    rfl
  · intro v s rest
    rw [hbc04_SPI_WriteComm_eq, emitted_app, cs_writeFrame_cmd _ _ _ h1 h2]
    rfl

set_option maxRecDepth 1000000 in
/-- Witness of C22: the board pin assignment on a board whose read-back bytes
match, so that the register fill runs; the monitor rejects two command bytes
with chip-select kept low between them. -/
theorem C22_chip_select_framing_witness :
    csFramed 4 2 3 false 0
        (emitted World.init
          (hbc04.R61408_Init (feedBytes [0, 0, 0, 0x15, 0x29]) boardCfg04 World.init))
      = true ∧
    csFramed 4 2 3 false 0
        (Ev.set 4 1 :: (writeFrame 4 2 3 1 0 0xB0 ++ writeFrame 4 2 3 1 0 0xBF)) = false :=
  ⟨(C22_chip_select_framing (feedBytes [0, 0, 0, 0x15, 0x29]) boardCfg04 World.init
    boardAcquired04 (by decide) (by decide) (by decide)).1, by decide⟩

/-! ## Clock phase of the data-out writes -/

theorem filter_traceOf04 (cfg : r61408_config) (ss : List hbc04.Stmt) :
    (hbc04.traceOf cfg ss).filter Ev.isWriteOrDelay = hbc04.traceOf cfg ss := by
  induction ss with
  | nil => rfl
  | cons s ss ih =>
      cases s <;>
        simp [hbc04.traceOf, hbc04.Stmt.trace, List.filter_cons, ih, filter_writeFrame,
          Ev.isWriteOrDelay]

theorem filter_detect (B : Backend) (cfg : r61408_config) (g : Nat) :
    (hbc04.detectTrace B cfg g).filter Ev.isWriteOrDelay
      = (hbc04.detectTrace (feedBytes []) cfg 0).filter Ev.isWriteOrDelay := by
  simp only [List.filter_append, hbc04.detectTrace, hbc04.readFrame,
    List.filter_cons, filter_writeFrame, filter_readCells, Ev.isWriteOrDelay, List.filter_nil,
    if_true]

/-- C24. In `R61408_Init` five bytes are read after command 0xBF and only the
fourth and fifth decide the branch: two runs on the same configuration whose
acquisitions succeed and whose fourth and fifth read-back bytes agree make the
same pin writes and delays, whatever the first three read-back bytes are. -/
theorem C24_branch_bytes (B B2 : Backend) (cfg : r61408_config) (w w1 v v1 : World)
    (h : hbc04.r61408_enable_gpio B cfg w = (0, w1))
    (h2 : hbc04.r61408_enable_gpio B2 cfg v = (0, v1))
    (h4 : hbc04.nthRead B cfg w1 3 = hbc04.nthRead B2 cfg v1 3)
    (h5 : hbc04.nthRead B cfg w1 4 = hbc04.nthRead B2 cfg v1 4) :
    (emitted w (hbc04.R61408_Init B cfg w)).filter Ev.isWriteOrDelay
      = (emitted v (hbc04.R61408_Init B2 cfg v)).filter Ev.isWriteOrDelay ∧
    (emitted w (hbc04.R61408_Init B cfg w)).count (Ev.printf Msg.found)
      = (emitted v (hbc04.R61408_Init B2 cfg v)).count (Ev.printf Msg.found) ∧
    (∃ post,
      emitted w (hbc04.R61408_Init B cfg w)
        = hbc04.acquireTrace cfg ++ hbc04.resetTrace cfg
          ++ writeFrame cfg.csx_pin cfg.sck_pin cfg.sdi_pin 1 0 0xB0
          ++ writeFrame cfg.csx_pin cfg.sck_pin cfg.sdi_pin 1 1 0x04
          ++ [Ev.set cfg.csx_pin 1]
          ++ writeFrame cfg.csx_pin cfg.sck_pin cfg.sdi_pin 1 0 0xBF
          ++ emitted (w1.reads (8 * 0)) (hbc04.SPI_ReadData B cfg (w1.reads (8 * 0))).2
          ++ emitted (w1.reads (8 * 1)) (hbc04.SPI_ReadData B cfg (w1.reads (8 * 1))).2
          ++ emitted (w1.reads (8 * 2)) (hbc04.SPI_ReadData B cfg (w1.reads (8 * 2))).2
          ++ emitted (w1.reads (8 * 3)) (hbc04.SPI_ReadData B cfg (w1.reads (8 * 3))).2
          ++ emitted (w1.reads (8 * 4)) (hbc04.SPI_ReadData B cfg (w1.reads (8 * 4))).2
          ++ post ∧
      post.countP Ev.isGet = 0) := by
  have e1 := hbc04_init_emitted B cfg w w1 h
  have e2 := hbc04_init_emitted B2 cfg v v1 h2
  have hd := count_printf_detect Msg.found
  refine ⟨?_, ?_, ?_⟩
  · rw [e1, e2, h4, h5]
    simp only [List.filter_append]
    rw [filter_detect B, filter_detect B2]
  · rw [e1, e2, h4, h5]
    have hd1 := hd B cfg w1.nget
    have hd2 := hd B2 cfg v1.nget
    simp only [List.count_append] at hd1 hd2 ⊢
    omega
  · have r0 := readFrame_eq_emitted B cfg w1 0
    have r1 := readFrame_eq_emitted B cfg w1 1
    have r2 := readFrame_eq_emitted B cfg w1 2
    have r3 := readFrame_eq_emitted B cfg w1 3
    have r4 := readFrame_eq_emitted B cfg w1 4
    refine ⟨[Ev.set cfg.csx_pin 1]
        ++ writeFrame cfg.csx_pin cfg.sck_pin cfg.sdi_pin 1 0 0xB0
        ++ writeFrame cfg.csx_pin cfg.sck_pin cfg.sdi_pin 1 1 0x04
        ++ [Ev.set cfg.csx_pin 1]
        ++ (if hbc04.nthRead B cfg w1 3 = 0x15 ∧ hbc04.nthRead B cfg w1 4 = 0x29 then
              Ev.printf Msg.found :: hbc04.traceOf cfg hbc04.r61529_Reg_Fill_body
            else [])
        ++ [Ev.set cfg.csx_pin 1], ?_, ?_⟩
    · rw [e1, r0, r1, r2, r3, r4]
      simp only [hbc04.detectTrace, List.append_assoc, Nat.mul_zero, Nat.add_zero]
    · have hg := countP_isGet_traceOf cfg hbc04.r61529_Reg_Fill_body
      simp only [List.countP_append, countP_isGet_writeFrame]
      split <;> simp [List.countP_cons, hg, Ev.isGet]

/-- Witness of C24: two boards that differ in the first three read-back bytes
and agree on the fourth and fifth, which match. -/
theorem C24_branch_bytes_witness :
    (emitted World.init
        (hbc04.R61408_Init (feedBytes [1, 2, 3, 0x15, 0x29]) boardCfg04 World.init)).filter
        Ev.isWriteOrDelay
      = (emitted World.init
          (hbc04.R61408_Init (feedBytes [0xAA, 0x55, 0xFF, 0x15, 0x29]) boardCfg04
            World.init)).filter Ev.isWriteOrDelay :=
  (C24_branch_bytes (feedBytes [1, 2, 3, 0x15, 0x29]) (feedBytes [0xAA, 0x55, 0xFF, 0x15, 0x29])
    boardCfg04 World.init boardAcquired04 World.init boardAcquired04 (by decide) (by decide)
    (by decide) (by decide)).1

end PanelSpi
